import Mathlib

/-!
# ctrlsrv: a verification development

A shallow embedding of the two daemons of the repository, `cmd/ctrlsrvd`
(kiosk-oriented) and `cmd/srvhub` (GUI-oriented), and theorems about their
HTTP API handlers, the service-status checker, the configuration loader and
its validation, the storage checks, the rendering of byte counts, the kiosk
browser URL and the self-signed certificate.

Conventions of the embedding:

* Go `error` values are `Option String`: `none` is `nil`, `some msg` is an
  error whose `Error()` text is `msg`.
* `uint64` values are `Nat` with explicit reduction modulo `2^64`.
* `float64` values are the type `F64` below, with every operation rounded to
  nearest, ties to even, as IEEE 754 binary64 prescribes.
* The operating system is a record `Host` of oracles (what each system call
  or external command answers); every operation returns, next to its result,
  the trace of the calls it made, in order.
-/

namespace CtrlSrv

/-! ## The host: file system, external commands -/

/-- Outcome of `os.Stat(path)`: the file information (whether it is a
directory, and the device identifier of `Sys().(*syscall.Stat_t).Dev`), an
error for which `os.IsNotExist` holds, or any other error with its text. -/
inductive StatResult where
  | info (isDir : Bool) (dev : Nat)
  | notExist
  | failure (msg : String)
deriving DecidableEq, Repr

/-- Whether `os.Stat` returned no error, the programs' test that a file
exists. -/
def StatResult.isOk : StatResult → Bool
  | .info _ _ => true
  | _ => false

/-- Outcome of `os.WriteFile(name, data, perm)`: success, an error that left
no file behind (the open failed), or an error after the file had been created
(the write or the close failed). -/
inductive WriteResult where
  | written
  | failedClean (msg : String)
  | failedLeft (msg : String)
deriving DecidableEq, Repr

/-- The fields of `syscall.Statfs_t` the programs read: `Blocks` and `Bfree`
are `uint64`, `Bsize` is `int64`. -/
structure Statfs_t where
  Blocks : Nat
  Bfree : Nat
  Bsize : Int
deriving DecidableEq, Repr

/-- Result of `exec.Cmd.Output()` (and of `Run()`, whose output is unused):
the bytes of standard output and the error (`none` when the command ran and
exited with status 0). -/
structure CmdOutput where
  output : String
  err : Option String
deriving DecidableEq, Repr

/-- One call into the operating system, as recorded in the trace. -/
inductive OsCall where
  | stat (path : String)
  | exec (argv : List String)
  | writeFile (path : String) (data : String)
  | remove (path : String)
  | readFile (path : String)
  | statfs (path : String)
deriving DecidableEq, Repr

/-- The host a daemon runs on, as the answers it gives: what `os.Stat`, an
external command, `os.WriteFile`, `os.Remove` (does it succeed), `os.ReadFile`
and `syscall.Statfs` return for each argument. The answers are taken to be
stable while one operation of a daemon runs. -/
structure Host where
  stat : String → StatResult
  exec : List String → CmdOutput
  writeFile : String → WriteResult
  removeOk : String → Bool
  readFile : String → Except String String
  statfs : String → Except String Statfs_t

/-- The calls an operation makes into the operating system, oldest first.
Every operation below returns its result together with its trace. -/
abbrev Trace := List OsCall

/-- The effect of one call on the set of files that `os.WriteFile` created and
`os.Remove` has not removed: a write leaves its file unless the open itself
failed, a successful removal deletes it. -/
def Host.step (h : Host) (files : List String) : OsCall → List String
  | .writeFile name _ =>
    match h.writeFile name with
    | .written => name :: files
    | .failedClean _ => files
    | .failedLeft _ => name :: files
  | .remove name => if h.removeOk name then files.filter (fun f => f != name) else files
  | _ => files

/-- The files written and not removed after a whole trace, starting from
`files`. -/
def Host.filesAfter (h : Host) (files : List String) (t : Trace) : List String :=
  t.foldl h.step files

/-! ## 64-bit machine arithmetic -/

/-- The modulus of `uint64` arithmetic. -/
def two64 : Nat := 2 ^ 64

/-- The conversion `uint64(x)` of an `int64`. -/
def uint64OfInt64 (x : Int) : Nat := (x % (two64 : Int)).toNat

/-- Multiplication of two `uint64`. -/
def mul64 (a b : Nat) : Nat := (a * b) % two64

/-- Subtraction of two `uint64`. -/
def sub64 (a b : Nat) : Nat := (a % two64 + (two64 - b % two64)) % two64

/-! ## IEEE 754 binary64 -/

/-- A non-negative `float64` value. `fin m e` is the finite number `m * 2^e`:
`m` is the 53-bit significand (`m < 2^53`, and `2^52 ≤ m` unless
`e = -1074`, the subnormal range) and `2^e` the unit in the last place
(`-1074 ≤ e ≤ 971`). No operand of the programs is negative, so signs are not
tracked. -/
inductive F64 where
  | fin (m : Nat) (e : Int)
  | inf
  | nan
deriving DecidableEq, Repr

/-- The rational value of a finite `float64`. -/
def F64.toRat : F64 → Option ℚ
  | .fin m e => some ((m : ℚ) * (2 : ℚ) ^ e)
  | .inf => none
  | .nan => none

/-- The `float64` zero, the value of an unset field. -/
def F64.zero : F64 := .fin 0 (-1074)

/-- Binary search for the floor of the base-2 logarithm: `acc` is raised by
each weight `b` of the list for which `2^(acc+b)` still does not exceed `n`. -/
def ilog2Search (n : Nat) : List Nat → Nat → Nat
  | [], acc => acc
  | b :: bs, acc => if 2 ^ (acc + b) ≤ n then ilog2Search n bs (acc + b) else ilog2Search n bs acc

/-- Floor of the base-2 logarithm of `n` (and `0` for `n = 0`), for
`n < 2^256`; the significands it is applied to are below `2^106`. -/
def ilog2 (n : Nat) : Nat :=
  ilog2Search n [128, 64, 32, 16, 8, 4, 2, 1] 0

/-- The weights of a binary search that narrows a window of width `w`: each
weight is half the window before it, down to a window of width 1. -/
def halvingFrom : List Nat → Nat → Prop
  | [], w => w = 1
  | b :: bs, w => w = 2 * b ∧ halvingFrom bs b

/-- Floor of the base-2 logarithm of the positive rational `p / q`. -/
def log2Ratio (p q : Nat) : Int :=
  let k : Int := (ilog2 p : Int) - (ilog2 q : Int)
  if q * 2 ^ k.toNat ≤ p * 2 ^ (-k).toNat then k else k - 1

/-- Rounds the non-negative number `p / q * 2^s` (`q > 0`) to the nearest
binary64 value, ties to even: 53 significant bits, gradual underflow below
`2^-1022`, overflow to infinity. -/
def roundScaled (p q : Nat) (s : Int) : F64 :=
  if p = 0 then .fin 0 (-1074) else
  let e : Int := max (log2Ratio p q + s - 52) (-1074)
  let n := p * 2 ^ (s - e).toNat
  let d := q * 2 ^ (e - s).toNat
  let m := n / d
  let r := n % d
  let m1 := if 2 * r < d then m else if d < 2 * r then m + 1 else if m % 2 = 0 then m else m + 1
  let e1 := if m1 = 2 ^ 53 then e + 1 else e
  let m2 := if m1 = 2 ^ 53 then 2 ^ 52 else m1
  if 971 < e1 then .inf else .fin m2 e1

/-- The conversion `float64(n)` of a `uint64`. -/
def F64.ofUInt64 (n : Nat) : F64 := roundScaled n 1 0

/-- The constant `100` converted to `float64`. -/
def F64.hundred : F64 := roundScaled 100 1 0

/-- Division of two non-negative `float64`. -/
def F64.div : F64 → F64 → F64
  | .fin m1 e1, .fin m2 e2 =>
    if m2 = 0 then (if m1 = 0 then .nan else .inf)
    else roundScaled m1 m2 (e1 - e2)
  | .fin _ _, .inf => .fin 0 (-1074)
  | .inf, .fin _ _ => .inf
  | .inf, .inf => .nan
  | .nan, _ => .nan
  | _, .nan => .nan

/-- Multiplication of two non-negative `float64`. -/
def F64.mul : F64 → F64 → F64
  | .fin m1 e1, .fin m2 e2 => roundScaled (m1 * m2) 1 (e1 + e2)
  | .fin m _, .inf => if m = 0 then .nan else .inf
  | .inf, .fin m _ => if m = 0 then .nan else .inf
  | .inf, .inf => .inf
  | .nan, _ => .nan
  | _, .nan => .nan

/-- The comparison `a > b` of two non-negative `float64`; false when either
is not a number. -/
def F64.gt : F64 → F64 → Bool
  | .fin m1 e1, .fin m2 e2 =>
    decide (m2 * 2 ^ (e2 - e1).toNat < m1 * 2 ^ (e1 - e2).toNat)
  | .inf, .fin _ _ => true
  | .fin _ _, .inf => false
  | .inf, .inf => false
  | .nan, _ => false
  | _, .nan => false

/-- The comparison `a ≤ b` of two non-negative `float64`; false when either
is not a number. -/
def F64.le : F64 → F64 → Bool
  | .fin m1 e1, .fin m2 e2 =>
    decide (m1 * 2 ^ (e1 - e2).toNat ≤ m2 * 2 ^ (e2 - e1).toNat)
  | .inf, .fin _ _ => false
  | .fin _ _, .inf => true
  | .inf, .inf => true
  | .nan, _ => false
  | _, .nan => false

/-- The constant `90` converted to `float64`. -/
def F64.ninety : F64 := roundScaled 90 1 0

/-- The constant `80` converted to `float64`. -/
def F64.eighty : F64 := roundScaled 80 1 0

/-- The verb `%.1f` of `fmt.Sprintf` on a non-negative `float64`: the exact
value rounded to one decimal, ties to even, as `strconv` does. -/
def F64.format1 : F64 → String
  | .fin m e =>
    let n := m * 10 * 2 ^ e.toNat
    let d := 2 ^ (-e).toNat
    let q := n / d
    let r := n % d
    let t := if 2 * r < d then q else if d < 2 * r then q + 1 else if q % 2 = 0 then q else q + 1
    toString (t / 10) ++ "." ++ toString (t % 10)
  | .inf => "+Inf"
  | .nan => "NaN"

/-! ## Strings -/

/-- The predicate `unicode.IsSpace`: the Latin-1 spaces and the characters of
category Z and property Pattern_White_Space. -/
def isSpace (c : Char) : Bool :=
  c = '\t' || c = '\n' || c.val = 0x0B || c.val = 0x0C || c = '\r' || c = ' ' ||
  c.val = 0x85 || c.val = 0xA0 || c.val = 0x1680 ||
  (0x2000 ≤ c.val && c.val ≤ 0x200A) ||
  c.val = 0x2028 || c.val = 0x2029 || c.val = 0x202F || c.val = 0x205F || c.val = 0x3000

/-- The function `strings.TrimSpace` on the characters of a string: leading
and trailing white space removed. -/
def trimSpaceChars (l : List Char) : List Char :=
  ((l.dropWhile isSpace).reverse.dropWhile isSpace).reverse

/-- The function `strings.TrimSpace`. -/
def TrimSpace (s : String) : String := ⟨trimSpaceChars s.data⟩

/-- Whether the characters `sub` occur in `l` as a contiguous run. -/
def containsChars (sub : List Char) : List Char → Bool
  | [] => sub.isEmpty
  | c :: cs => sub.isPrefixOf (c :: cs) || containsChars sub cs

/-- The function `strings.Contains`. -/
def Contains (s substr : String) : Bool := containsChars substr.data s.data

/-- The pieces of a list of characters between its line feeds. -/
def splitLineChars : List Char → List (List Char)
  | [] => [[]]
  | c :: cs =>
    if c = '\n' then [] :: splitLineChars cs
    else
      match splitLineChars cs with
      | [] => [[c]]
      | l :: ls => (c :: l) :: ls

/-- The call `strings.Split(s, "\n")`. -/
def SplitLines (s : String) : List String := (splitLineChars s.data).map String.mk

/-- The loop of `formatBytes`, `for n := bytes / unit; n >= unit; n /= unit`,
run on the state `(n, div, exp)`; `div` is a `uint64`. The first argument
bounds the number of iterations; any bound that is at least `n` is never
reached, since `n` shrinks at every turn. -/
def formatBytesLoop : Nat → Nat → Nat → Nat → Nat × Nat
  | 0, _, div, exp => (div, exp)
  | fuel + 1, n, div, exp =>
    if n ≥ 1024 then formatBytesLoop fuel (n / 1024) (mul64 div 1024) (exp + 1)
    else (div, exp)

/-- The function `formatBytes` of both `storage.go` files: converts bytes to
human-readable format. The result is `none` when the index into `"KMGTPE"` is
out of range, where the Go program panics. -/
def formatBytes (bytes : Nat) : Option String :=
  if bytes < 1024 then some (toString bytes ++ " B")
  else
    let (div, exp) := formatBytesLoop (bytes / 1024) (bytes / 1024) 1024 0
    match "KMGTPE".data.get? exp with
    | none => none
    | some c =>
      some (F64.format1 (F64.div (F64.ofUInt64 bytes) (F64.ofUInt64 div)) ++ " "
        ++ String.singleton c ++ "iB")

/-! ## Configuration (`cmd/srvhub/config.go`) -/

/-- ServerConfig contains server settings. -/
structure ServerConfig where
  ListenAddr : String
  QUICAddr : String
deriving DecidableEq, Repr

/-- StorageConfig contains storage settings. -/
structure StorageConfig where
  Path : String
deriving DecidableEq, Repr

/-- CUPSConfig contains CUPS printer settings. -/
structure CUPSConfig where
  URL : String
  Printer : String
deriving DecidableEq, Repr

/-- EdgeConfig contains edge proxy settings. -/
structure EdgeConfig where
  Endpoint : String
  TLSCert : String
  TLSKey : String
deriving DecidableEq, Repr

/-- WireGuardConfig contains WireGuard settings. -/
structure WireGuardConfig where
  Interface : String
  AllowedNetworks : List String
deriving DecidableEq, Repr

/-- Config represents the application configuration. -/
structure Config where
  Server : ServerConfig
  Storage : StorageConfig
  CUPS : CUPSConfig
  Edge : EdgeConfig
  WireGuard : WireGuardConfig
deriving DecidableEq, Repr

/-- The zero value of `Config`, the state of `var cfg Config`. -/
def Config.zero : Config :=
  { Server := ⟨"", ""⟩, Storage := ⟨""⟩, CUPS := ⟨"", ""⟩, Edge := ⟨"", "", ""⟩,
    WireGuard := ⟨"", []⟩ }

/-! ## Response types (declared alike in both `api.go` files) -/

/-- The constant `appVersion` of both `main.go` files. -/
def appVersion : String := "0.1.0"

/-- HealthResponse: `status`, `version`, `storage_ok`. -/
structure HealthResponse where
  Status : String
  Version : String
  Storage : Bool
deriving DecidableEq, Repr

/-- StorageResponse: `path`, `available`, `used_bytes`, `free_bytes`,
`total_bytes`, `used_percent`. -/
structure StorageResponse where
  Path : String
  Available : Bool
  Used : Nat
  Free : Nat
  Total : Nat
  UsedPct : F64
deriving DecidableEq, Repr

/-- ServiceStatus: `name`, `active`, `enabled`. -/
structure ServiceStatus where
  Name : String
  Active : Bool
  Enabled : Bool
deriving DecidableEq, Repr

/-- ServicesResponse: `services`. -/
structure ServicesResponse where
  Services : List ServiceStatus
deriving DecidableEq, Repr

/-- One element of the `queues` array that `handlePrintQueues` builds as a map
literal with the keys `name`, `jobs` and `state`. -/
structure QueueEntry where
  name : String
  jobs : Int
  state : String
deriving DecidableEq, Repr

/-- The object `handlePrintQueues` builds as a map literal with the single key
`queues`. -/
structure PrintQueuesResponse where
  queues : List QueueEntry
deriving DecidableEq, Repr

/-- The values handed to `jsonResponse` as `data interface{}`. -/
inductive Payload where
  | health (r : HealthResponse)
  | storage (r : StorageResponse)
  | queues (r : PrintQueuesResponse)
  | services (r : ServicesResponse)
deriving DecidableEq, Repr

/-! ## The response writer of `net/http` -/

/-- The state of an `http.ResponseWriter`: the header map the handler edits,
whether the status line and headers have gone out, and if so the status code
and the headers that were sent, and the values encoded into the body so far.
(The server adds a sniffed `Content-Type` of its own when none was sent; that
header is not an explicit one and is left out.) -/
structure ResponseWriter where
  header : List (String × String)
  wroteHeader : Bool
  status : Nat
  sentHeader : List (String × String)
  body : List Payload
deriving DecidableEq, Repr

namespace ResponseWriter

/-- The writer a handler is called with. -/
def fresh : ResponseWriter :=
  { header := [], wroteHeader := false, status := 0, sentHeader := [], body := [] }

/-- The call `w.Header().Set(key, value)`: replaces the values of `key`. It
edits the handler's map only; what has been sent stays as it is. -/
def SetHeader (w : ResponseWriter) (key value : String) : ResponseWriter :=
  { w with header := (w.header.filter (fun kv => kv.1 != key)) ++ [(key, value)] }

/-- The call `w.WriteHeader(code)`: the first call fixes the status code and
sends the headers set so far; a later call is ignored. -/
def WriteHeader (w : ResponseWriter) (code : Nat) : ResponseWriter :=
  if w.wroteHeader then w
  else { w with wroteHeader := true, status := code, sentHeader := w.header }

/-- The call `w.Write(...)` made by the JSON encoder: an implicit
`WriteHeader(http.StatusOK)` if none was made, then the body. -/
def Write (w : ResponseWriter) (p : Payload) : ResponseWriter :=
  let w1 := w.WriteHeader 200
  { w1 with body := w1.body ++ [p] }

/-- The value of header `key` in the response that was sent. -/
def sent (w : ResponseWriter) (key : String) : Option String :=
  (w.sentHeader.find? (fun kv => kv.1 == key)).map (fun kv => kv.2)

end ResponseWriter

/-- The constant `http.StatusServiceUnavailable`. -/
def StatusServiceUnavailable : Nat := 503

/-- The function `jsonResponse` of both `api.go` files: sets the content type
on the header map, then encodes `data` to the writer. -/
def jsonResponse (w : ResponseWriter) (data : Payload) : ResponseWriter :=
  (w.SetHeader "Content-Type" "application/json").Write data

/-! ## The kiosk-oriented daemon, `cmd/ctrlsrvd` -/

namespace Ctrlsrvd

/-- Modelled from the spec: the declaration of the kiosk daemon's `Config` is
not among the sources; section 3 describes one configuration structure, with
the same five sections, for both daemons. -/
abbrev Config := CtrlSrv.Config

/-- The function `isMountpoint`: the `mountpoint -q` command first, then the
comparison of the device identifiers of the path and of its parent. -/
def isMountpoint (h : Host) (path : String) : Bool × Trace :=
  let cmd := ["mountpoint", "-q", path]
  match (h.exec cmd).err with
  | none => (true, [.exec cmd])
  | some _ =>
    match h.stat path with
    | .info _ dev =>
      let parentPath := path ++ "/.."
      match h.stat parentPath with
      | .info _ parentDev => (dev != parentDev, [.exec cmd, .stat path, .stat parentPath])
      | _ => (false, [.exec cmd, .stat path, .stat parentPath])
    | _ => (false, [.exec cmd, .stat path])

/-- The function `checkStorage`: verifies that the storage path is mounted and
accessible. -/
def checkStorage (h : Host) (path : String) : Option String × Trace :=
  match h.stat path with
  | .notExist => (some ("storage path does not exist: " ++ path), [.stat path])
  | .failure msg => (some ("cannot access storage path: " ++ msg), [.stat path])
  | .info isDir _ =>
    if !isDir then (some ("storage path is not a directory: " ++ path), [.stat path])
    else
      let (mounted, t1) := isMountpoint h path
      if !mounted then (some ("storage path is not mounted: " ++ path), .stat path :: t1)
      else
        let testFile := path ++ "/.ctrlsrv-test"
        match h.writeFile testFile with
        | .failedClean err =>
          (some ("storage path is not writable: " ++ err),
            .stat path :: t1 ++ [.writeFile testFile "test"])
        | .failedLeft err =>
          (some ("storage path is not writable: " ++ err),
            .stat path :: t1 ++ [.writeFile testFile "test"])
        | .written =>
          (none, .stat path :: t1 ++ [.writeFile testFile "test", .remove testFile])

/-- The function `getStorageUsage` of `storage_linux.go`: used, free and total
bytes and the error. -/
def getStorageUsage (h : Host) (path : String) : (Nat × Nat × Nat × Option String) × Trace :=
  match h.statfs path with
  | .error err => ((0, 0, 0, some err), [.statfs path])
  | .ok stat =>
    let total := mul64 stat.Blocks (uint64OfInt64 stat.Bsize)
    let free := mul64 stat.Bfree (uint64OfInt64 stat.Bsize)
    let used := sub64 total free
    ((used, free, total, none), [.statfs path])

/-- The method `IsActive`: checks if a service is currently active. -/
def IsActive (h : Host) (name : String) : Bool × Trace :=
  let cmd := ["systemctl", "is-active", name]
  match h.exec cmd with
  | ⟨_, some _⟩ => (false, [.exec cmd])
  | ⟨output, none⟩ => (decide (TrimSpace output = "active"), [.exec cmd])

/-- The method `IsEnabled`: checks if a service is enabled. -/
def IsEnabled (h : Host) (name : String) : Bool × Trace :=
  let cmd := ["systemctl", "is-enabled", name]
  match h.exec cmd with
  | ⟨_, some _⟩ => (false, [.exec cmd])
  | ⟨output, none⟩ =>
    let status := TrimSpace output
    (decide (status = "enabled") || decide (status = "static"), [.exec cmd])

/-- The method `GetStatus`: full status information for a service. -/
def GetStatus (h : Host) (name : String) : ServiceStatus × Trace :=
  let (active, t1) := IsActive h name
  let (enabled, t2) := IsEnabled h name
  ({ Name := name, Active := active, Enabled := enabled }, t1 ++ t2)

/-- The method `GetMultipleStatuses`: the loop appending the status of each
name in turn. -/
def GetMultipleStatuses (h : Host) (services : List String) : List ServiceStatus × Trace :=
  services.foldl
    (fun (acc : List ServiceStatus × Trace) name =>
      let (status, t) := GetStatus h name
      (acc.1 ++ [status], acc.2 ++ t))
    ([], [])

/-- APIServer handles HTTP API requests; only its configuration matters to the
handlers. -/
structure APIServer where
  config : Config

/-- The handler `handleHealth` of `/api/health`. -/
def handleHealth (s : APIServer) (w : ResponseWriter) (h : Host) : ResponseWriter × Trace :=
  let (err, t) := checkStorage h s.config.Storage.Path
  let storageOK := err.isNone
  let response : HealthResponse := { Status := "ok", Version := appVersion, Storage := storageOK }
  if !storageOK then
    let response := { response with Status := "degraded" }
    let w := w.WriteHeader StatusServiceUnavailable
    (jsonResponse w (.health response), t)
  else
    (jsonResponse w (.health response), t)

/-- The handler `handleStorageAPI` of `/api/storage`. -/
def handleStorageAPI (s : APIServer) (w : ResponseWriter) (h : Host) : ResponseWriter × Trace :=
  let (err, t1) := checkStorage h s.config.Storage.Path
  let available := err.isNone
  let response : StorageResponse :=
    { Path := s.config.Storage.Path, Available := available,
      Used := 0, Free := 0, Total := 0, UsedPct := F64.zero }
  if available then
    match getStorageUsage h s.config.Storage.Path with
    | ((used, free, total, none), t2) =>
      let response := { response with Total := total, Free := free, Used := used }
      if response.Total > 0 then
        let response := { response with
          UsedPct := F64.mul (F64.div (F64.ofUInt64 response.Used) (F64.ofUInt64 response.Total))
            F64.hundred }
        (jsonResponse w (.storage response), t1 ++ t2)
      else (jsonResponse w (.storage response), t1 ++ t2)
    | ((_, _, _, some _), t2) => (jsonResponse w (.storage response), t1 ++ t2)
  else (jsonResponse w (.storage response), t1)

/-- The handler `handlePrintQueues` of `/api/printing/queues`. -/
def handlePrintQueues (s : APIServer) (w : ResponseWriter) (_h : Host) : ResponseWriter × Trace :=
  let response : PrintQueuesResponse :=
    { queues := [{ name := s.config.CUPS.Printer, jobs := 0, state := "idle" }] }
  (jsonResponse w (.queues response), [])

/-- The handler `handleServicesAPI` of `/api/services`. -/
def handleServicesAPI (_s : APIServer) (w : ResponseWriter) (h : Host) : ResponseWriter × Trace :=
  let services := ["cups", "smbd", "nmbd", "saned", "docker"]
  let (statuses, t) := GetMultipleStatuses h services
  let response : ServicesResponse := { Services := statuses }
  (jsonResponse w (.services response), t)

/-- The loop of `openKioskBrowser` over the browsers in order of preference:
the first one that `exec.LookPath` finds and `cmd.Start` starts. -/
def launchFirst (lookPath : String → Bool) (start : List String → Option String) :
    List (List String) → Option (List String)
  | [] => none
  | browser :: rest =>
    if lookPath (browser.headD "") then
      match start browser with
      | none => some browser
      | some _ => launchFirst lookPath start rest
    else launchFirst lookPath start rest

/-- The function `openKioskBrowser`: opens a browser in kiosk mode. The
answers of `exec.LookPath` (is the program found) and of `cmd.Start` (its
error) are parameters; the result is the URL that was computed and the
command that was started, if any. The two-second wait and the log lines are
left out. -/
def openKioskBrowser (lookPath : String → Bool) (start : List String → Option String)
    (addr : String) : String × Option (List String) :=
  let url := "http://" ++ addr
  let url := if addr = "0.0.0.0:8080" ∨ addr = ":8080" then "http://localhost:8080" else url
  let browsers := [["surf", "-F", url], ["netsurf-gtk", "-f", url],
    ["midori", "-e", "Fullscreen", url]]
  (url, launchFirst lookPath start browsers)

/-- The duration `time.Hour`, in nanoseconds. -/
def Hour : Int := 3600 * 1000000000

/-- The fields of the `x509.Certificate` template that `generateTLSConfig`
sets. Times are nanoseconds on the clock of `time.Now`; IP addresses are kept
as the text handed to `net.ParseIP`. -/
structure Certificate where
  SerialNumber : Int
  Organization : List String
  CommonName : String
  NotBefore : Int
  NotAfter : Int
  KeyUsage : Nat
  ExtKeyUsage : List Nat
  BasicConstraintsValid : Bool
  DNSNames : List String
  IPAddresses : List String
deriving DecidableEq, Repr

/-- The constant `x509.KeyUsageDigitalSignature`. -/
def KeyUsageDigitalSignature : Nat := 1

/-- The constant `x509.KeyUsageKeyEncipherment`. -/
def KeyUsageKeyEncipherment : Nat := 4

/-- The constant `x509.ExtKeyUsageServerAuth`. -/
def ExtKeyUsageServerAuth : Nat := 1

/-- A block handed to `pem.EncodeToMemory`: its `Type` and its `Bytes`. -/
structure PemBlock where
  BlockType : String
  Bytes : List Nat
deriving DecidableEq, Repr

/-- The fields of `tls.Config` that `generateTLSConfig` sets; a certificate is
the pair of PEM blocks it was loaded from. -/
structure TLSConfig where
  Certificates : List (PemBlock × PemBlock)
  NextProtos : List String
deriving DecidableEq, Repr

/-- The library calls of `generateTLSConfig` whose results it does not
control: `rsa.GenerateKey` (the key, as the bytes `x509.MarshalPKCS1PrivateKey`
gives for it), `x509.CreateCertificate` (the DER bytes) and `tls.X509KeyPair`
(its error). -/
structure Crypto where
  generateKey : Except String (List Nat)
  createCertificate : Certificate → List Nat → Except String (List Nat)
  x509KeyPair : PemBlock → PemBlock → Option String

/-- The function `generateTLSConfig`: creates a self-signed certificate for
development. `now1` and `now2` are what the two calls of `time.Now` return, in
the order they are made. An error stands for the exit through `log.Fatalf`.
The result is the template together with the configuration returned. -/
def generateTLSConfig (c : Crypto) (now1 now2 : Int) : Except String (Certificate × TLSConfig) :=
  match c.generateKey with
  | .error err => .error ("Failed to generate private key: " ++ err)
  | .ok key =>
    let template : Certificate :=
      { SerialNumber := 1
        Organization := ["ctrlsrv"]
        CommonName := "localhost"
        NotBefore := now1
        NotAfter := now2 + 365 * 24 * Hour
        KeyUsage := KeyUsageKeyEncipherment ||| KeyUsageDigitalSignature
        ExtKeyUsage := [ExtKeyUsageServerAuth]
        BasicConstraintsValid := true
        DNSNames := ["localhost"]
        IPAddresses := ["127.0.0.1", "::1"] }
    match c.createCertificate template key with
    | .error err => .error ("Failed to create certificate: " ++ err)
    | .ok certDER =>
      let certPEM : PemBlock := { BlockType := "CERTIFICATE", Bytes := certDER }
      let keyPEM : PemBlock := { BlockType := "RSA PRIVATE KEY", Bytes := key }
      match c.x509KeyPair certPEM keyPEM with
      | some err => .error ("Failed to create TLS certificate: " ++ err)
      | none => .ok (template, { Certificates := [(certPEM, keyPEM)], NextProtos := ["h3"] })

end Ctrlsrvd

/-! ## The GUI-oriented daemon, `cmd/srvhub` -/

namespace Srvhub

/-- The function `isMountpoint`: the `mountpoint -q` command first, then the
comparison of the device identifiers of the path and of its parent. -/
def isMountpoint (h : Host) (path : String) : Bool × Trace :=
  let cmd := ["mountpoint", "-q", path]
  match (h.exec cmd).err with
  | none => (true, [.exec cmd])
  | some _ =>
    match h.stat path with
    | .info _ dev =>
      let parentPath := path ++ "/.."
      match h.stat parentPath with
      | .info _ parentDev => (dev != parentDev, [.exec cmd, .stat path, .stat parentPath])
      | _ => (false, [.exec cmd, .stat path, .stat parentPath])
    | _ => (false, [.exec cmd, .stat path])

/-- The function `checkStorage`: verifies that the storage path is mounted and
accessible. -/
def checkStorage (h : Host) (path : String) : Option String × Trace :=
  match h.stat path with
  | .notExist => (some ("storage path does not exist: " ++ path), [.stat path])
  | .failure msg => (some ("cannot access storage path: " ++ msg), [.stat path])
  | .info isDir _ =>
    if !isDir then (some ("storage path is not a directory: " ++ path), [.stat path])
    else
      let (mounted, t1) := isMountpoint h path
      if !mounted then (some ("storage path is not mounted: " ++ path), .stat path :: t1)
      else
        let testFile := path ++ "/.ctrlsrv-test"
        match h.writeFile testFile with
        | .failedClean err =>
          (some ("storage path is not writable: " ++ err),
            .stat path :: t1 ++ [.writeFile testFile "test"])
        | .failedLeft err =>
          (some ("storage path is not writable: " ++ err),
            .stat path :: t1 ++ [.writeFile testFile "test"])
        | .written =>
          (none, .stat path :: t1 ++ [.writeFile testFile "test", .remove testFile])

/-- APIServer handles HTTP API requests; only its configuration matters to the
handlers. -/
structure APIServer where
  config : Config

/-- The handler `handleHealth` of `/api/health`. -/
def handleHealth (s : APIServer) (w : ResponseWriter) (h : Host) : ResponseWriter × Trace :=
  let (err, t) := checkStorage h s.config.Storage.Path
  let storageOK := err.isNone
  let response : HealthResponse := { Status := "ok", Version := appVersion, Storage := storageOK }
  if !storageOK then
    let response := { response with Status := "degraded" }
    let w := w.WriteHeader StatusServiceUnavailable
    (jsonResponse w (.health response), t)
  else
    (jsonResponse w (.health response), t)

/-- The handler `handleStorage` of `/api/storage`. -/
def handleStorage (s : APIServer) (w : ResponseWriter) (h : Host) : ResponseWriter × Trace :=
  let (err, t1) := checkStorage h s.config.Storage.Path
  let available := err.isNone
  let response : StorageResponse :=
    { Path := s.config.Storage.Path, Available := available,
      Used := 0, Free := 0, Total := 0, UsedPct := F64.zero }
  if available then
    let t2 : Trace := [.statfs s.config.Storage.Path]
    match h.statfs s.config.Storage.Path with
    | .ok stat =>
      let response := { response with Total := mul64 stat.Blocks (uint64OfInt64 stat.Bsize) }
      let response := { response with Free := mul64 stat.Bfree (uint64OfInt64 stat.Bsize) }
      let response := { response with Used := sub64 response.Total response.Free }
      if response.Total > 0 then
        let response := { response with
          UsedPct := F64.mul (F64.div (F64.ofUInt64 response.Used) (F64.ofUInt64 response.Total))
            F64.hundred }
        (jsonResponse w (.storage response), t1 ++ t2)
      else (jsonResponse w (.storage response), t1 ++ t2)
    | .error _ => (jsonResponse w (.storage response), t1 ++ t2)
  else (jsonResponse w (.storage response), t1)

/-- The handler `handlePrintQueues` of `/api/printing/queues`. -/
def handlePrintQueues (s : APIServer) (w : ResponseWriter) (_h : Host) : ResponseWriter × Trace :=
  let response : PrintQueuesResponse :=
    { queues := [{ name := s.config.CUPS.Printer, jobs := 0, state := "idle" }] }
  (jsonResponse w (.queues response), [])

/-- The handler `handleServices` of `/api/services`: the loop appending an
inactive, disabled status for each of the four names. -/
def handleServices (_s : APIServer) (w : ResponseWriter) (_h : Host) : ResponseWriter × Trace :=
  let services := ["cups", "smbd", "saned", "docker"]
  let statuses : List ServiceStatus :=
    services.foldl
      (fun statuses name => statuses ++ [{ Name := name, Active := false, Enabled := false }])
      []
  let response : ServicesResponse := { Services := statuses }
  (jsonResponse w (.services response), [])

/-- The function `loadConfig`: loads configuration from file. The YAML decoder
`yaml.Unmarshal(data, &cfg)` on a zero `cfg` is the parameter `unmarshal`. -/
def loadConfig (unmarshal : String → Except String Config) (h : Host) (path : String) :
    Except String Config × Trace :=
  let resolved : Except String String × Trace :=
    if path = "" then
      match h.stat "config.yaml" with
      | .info _ _ => (.ok "config.yaml", [.stat "config.yaml"])
      | _ =>
        match h.stat "config.example.yaml" with
        | .info _ _ =>
          (.ok "config.example.yaml", [.stat "config.yaml", .stat "config.example.yaml"])
        | _ =>
          (.error "no config file found (tried config.yaml and config.example.yaml)",
            [.stat "config.yaml", .stat "config.example.yaml"])
    else (.ok path, [])
  match resolved with
  | (.error e, t) => (.error e, t)
  | (.ok path, t) =>
    match h.readFile path with
    | .error err => (.error ("failed to read config file: " ++ err), t ++ [.readFile path])
    | .ok data =>
      match unmarshal data with
      | .error err => (.error ("failed to parse config: " ++ err), t ++ [.readFile path])
      | .ok cfg =>
        let cfg := if cfg.Server.ListenAddr = "" then
          { cfg with Server := { cfg.Server with ListenAddr := "0.0.0.0:8080" } } else cfg
        let cfg := if cfg.Storage.Path = "" then
          { cfg with Storage := { cfg.Storage with Path := "/srv/storage1" } } else cfg
        let cfg := if cfg.CUPS.URL = "" then
          { cfg with CUPS := { cfg.CUPS with URL := "http://localhost:631" } } else cfg
        let cfg := if cfg.WireGuard.Interface = "" then
          { cfg with WireGuard := { cfg.WireGuard with Interface := "wg0" } } else cfg
        (.ok cfg, t ++ [.readFile path])

/-- The function `getStorageUsage`: used, free and total bytes and the
error. -/
def getStorageUsage (h : Host) (path : String) : (Nat × Nat × Nat × Option String) × Trace :=
  match h.statfs path with
  | .error err => ((0, 0, 0, some err), [.statfs path])
  | .ok stat =>
    let total := mul64 stat.Blocks (uint64OfInt64 stat.Bsize)
    let free := mul64 stat.Bfree (uint64OfInt64 stat.Bsize)
    let used := sub64 total free
    ((used, free, total, none), [.statfs path])

/-- The loop of `checkSMARTStatus` over the lines of the `smartctl` output:
the first line that contains `SMART overall-health`, trimmed. -/
def firstHealthLine : List String → String
  | [] => ""
  | line :: rest =>
    if Contains line "SMART overall-health" then TrimSpace line else firstHealthLine rest

/-- The function `checkSMARTStatus`: checks disk SMART status. -/
def checkSMARTStatus (h : Host) (path : String) : String × Trace :=
  let findmnt := ["findmnt", "-n", "-o", "SOURCE", path]
  match h.exec findmnt with
  | ⟨_, some _⟩ => ("", [.exec findmnt])
  | ⟨output, none⟩ =>
    let device := TrimSpace output
    if device = "" then ("", [.exec findmnt])
    else
      let smartctl := ["smartctl", "-H", device]
      match h.exec smartctl with
      | ⟨_, some _⟩ => ("", [.exec findmnt, .exec smartctl])
      | ⟨output, none⟩ => (firstHealthLine (SplitLines output), [.exec findmnt, .exec smartctl])

/-- The disk-usage step of `checkStorageHealth`, from `healthy = true` and no
issues: the health flag and the issues before the SMART step. The result is
`none` where `formatBytes` panics. -/
def checkDiskUsage (h : Host) (path : String) : Option (Bool × List String) × Trace :=
  match getStorageUsage h path with
  | ((_, _, _, some err), t) => (some (true, ["Cannot get disk usage: " ++ err]), t)
  | ((used, _, total, none), t) =>
    let usedPct := F64.mul (F64.div (F64.ofUInt64 used) (F64.ofUInt64 total)) F64.hundred
    if F64.gt usedPct F64.ninety then
      match formatBytes used, formatBytes total with
      | some u, some tot =>
        (some (false, ["Disk usage critical: " ++ usedPct.format1 ++ "% (" ++ u ++ " / " ++ tot
          ++ ")"]), t)
      | _, _ => (none, t)
    else if F64.gt usedPct F64.eighty then
      match formatBytes used, formatBytes total with
      | some u, some tot =>
        (some (true, ["Disk usage warning: " ++ usedPct.format1 ++ "% (" ++ u ++ " / " ++ tot
          ++ ")"]), t)
      | _, _ => (none, t)
    else (some (true, []), t)

/-- The function `checkStorageHealth`: performs comprehensive storage health
check, returning the health flag and the issues. The result is `none` where
`formatBytes` panics. -/
def checkStorageHealth (h : Host) (path : String) : Option (Bool × List String) × Trace :=
  match checkStorage h path with
  | (some err, t1) => (some (false, ["Storage check failed: " ++ err]), t1)
  | (none, t1) =>
    match checkDiskUsage h path with
    | (none, t2) => (none, t1 ++ t2)
    | (some (healthy, issues), t2) =>
      let (smartStatus, t3) := checkSMARTStatus h path
      if smartStatus ≠ "" then
        if Contains smartStatus "FAILED" || Contains smartStatus "ERROR" then
          (some (false, issues ++ ["SMART status: " ++ smartStatus]), t1 ++ t2 ++ t3)
        else (some (healthy, issues), t1 ++ t2 ++ t3)
      else (some (healthy, issues), t1 ++ t2 ++ t3)

/-- The method `Validate`: checks if the configuration is valid. -/
def Validate (c : Config) (h : Host) : Option String × Trace :=
  let storage : Option String × Trace :=
    if c.Storage.Path ≠ "" then
      match h.stat c.Storage.Path with
      | .notExist => (some ("storage path does not exist: " ++ c.Storage.Path),
          [.stat c.Storage.Path])
      | _ => (none, [.stat c.Storage.Path])
    else (none, [])
  match storage with
  | (some err, t1) => (some err, t1)
  | (none, t1) =>
    if c.Edge.Endpoint ≠ "" then
      let cert : Option String × Trace :=
        if c.Edge.TLSCert ≠ "" then
          match h.stat c.Edge.TLSCert with
          | .notExist => (some ("TLS cert not found: " ++ c.Edge.TLSCert), [.stat c.Edge.TLSCert])
          | _ => (none, [.stat c.Edge.TLSCert])
        else (none, [])
      match cert with
      | (some err, t2) => (some err, t1 ++ t2)
      | (none, t2) =>
        if c.Edge.TLSKey ≠ "" then
          match h.stat c.Edge.TLSKey with
          | .notExist =>
            (some ("TLS key not found: " ++ c.Edge.TLSKey), t1 ++ t2 ++ [.stat c.Edge.TLSKey])
          | _ => (none, t1 ++ t2 ++ [.stat c.Edge.TLSKey])
        else (none, t1 ++ t2)
    else (none, t1)

end Srvhub

/-! ## Example hosts -/

/-- A host on which the storage directory is missing: no path exists and
every external command fails. -/
def Host.bare : Host :=
  { stat := fun _ => .notExist
    exec := fun _ => ⟨"", some "exit status 1"⟩
    writeFile := fun _ => .failedClean "no such file or directory"
    removeOk := fun _ => false
    readFile := fun _ => .error "no such file or directory"
    statfs := fun _ => .error "no such file or directory" }

/-- A host with `/srv/storage1` mounted and writable, a file system of 200
blocks of one byte of which 150 are free, and the `cups` service running. -/
def Host.demo : Host :=
  { stat := fun p =>
      if p = "/srv/storage1" then .info true 2
      else if p = "/srv/storage1/.." then .info true 1
      else .notExist
    exec := fun argv =>
      if argv = ["mountpoint", "-q", "/srv/storage1"] then ⟨"", none⟩
      else if argv = ["systemctl", "is-active", "cups"] then ⟨"active\n", none⟩
      else if argv = ["systemctl", "is-enabled", "cups"] then ⟨"enabled\n", none⟩
      else ⟨"", some "exit status 1"⟩
    writeFile := fun _ => .written
    removeOk := fun _ => true
    readFile := fun _ => .error "no such file or directory"
    statfs := fun p =>
      if p = "/srv/storage1" then .ok { Blocks := 200, Bfree := 150, Bsize := 1 }
      else .error "no such file or directory" }

/-- The configuration with every default of `loadConfig` and nothing else. -/
def Config.defaults : Config :=
  { Server := ⟨"0.0.0.0:8080", ""⟩, Storage := ⟨"/srv/storage1"⟩,
    CUPS := ⟨"http://localhost:631", ""⟩, Edge := ⟨"", "", ""⟩, WireGuard := ⟨"wg0", []⟩ }

/-- A host that answers like the example host for `cups` only; every other
command fails differently. -/
def Host.cupsOnly : Host :=
  { Host.bare with
    exec := fun argv =>
      if argv = ["systemctl", "is-active", "cups"] then ⟨"active\n", none⟩
      else if argv = ["systemctl", "is-enabled", "cups"] then ⟨"enabled\n", none⟩
      else ⟨"", some "exit status 4"⟩ }

/-- The text of a configuration file that sets the storage path only. -/
def storageOnlyYaml : String := "storage:\n  path: /mnt/data\n"

/-- A YAML decoder that knows one document, `storageOnlyYaml`, and decodes it
to the configuration with only the storage path set. -/
def storageOnlyUnmarshal (data : String) : Except String Config :=
  if data = storageOnlyYaml then .ok { Config.zero with Storage := ⟨"/mnt/data"⟩ }
  else .error "yaml: unmarshal errors"

/-- A host whose working directory has a `config.yaml` holding
`storageOnlyYaml`. -/
def Host.withConfig : Host :=
  { Host.bare with
    stat := fun p => if p = "config.yaml" then .info false 1 else .notExist
    readFile := fun p =>
      if p = "config.yaml" then .ok storageOnlyYaml else .error "no such file or directory" }

/-- A host whose working directory has a `config.example.yaml` only, and a
file `/etc/ctrlsrv.yaml`, both holding `storageOnlyYaml`. -/
def Host.withExample : Host :=
  { Host.bare with
    stat := fun p =>
      if p = "config.example.yaml" then .info false 1
      else if p = "/etc/ctrlsrv.yaml" then .info false 1
      else .notExist
    readFile := fun p =>
      if p = "config.example.yaml" then .ok storageOnlyYaml
      else if p = "/etc/ctrlsrv.yaml" then .ok storageOnlyYaml
      else .error "no such file or directory" }

/-- A host like the example host on which `os.Remove` fails: files can be
created in `/srv/storage1` but not deleted. -/
def Host.stuck : Host :=
  { Host.demo with removeOk := fun _ => false }

/-- A host like the example host on which `os.WriteFile` creates the file and
then fails, as on a full disk. -/
def Host.full : Host :=
  { Host.demo with writeFile := fun _ => .failedLeft "no space left on device" }

/-- The number a list of decimal digits stands for, most significant first;
`none` if a character is not a digit or the list is empty. -/
def decimalValue (l : List Char) : Option Nat :=
  if l.isEmpty then none
  else l.foldl
    (fun acc c =>
      match acc with
      | none => none
      | some v => if c.isDigit then some (10 * v + (c.toNat - '0'.toNat)) else none)
    (some 0)

/-- The example host with 95 of 100 bytes used. -/
def Host.usage95 : Host :=
  { Host.demo with statfs := fun _ => .ok { Blocks := 100, Bfree := 5, Bsize := 1 } }

/-- The example host with 85 of 100 bytes used. -/
def Host.usage85 : Host :=
  { Host.demo with statfs := fun _ => .ok { Blocks := 100, Bfree := 15, Bsize := 1 } }

/-- The example host with 50 of 100 bytes used. -/
def Host.usage50 : Host :=
  { Host.demo with statfs := fun _ => .ok { Blocks := 100, Bfree := 50, Bsize := 1 } }

/-- The example host with a disk `/dev/sda1` behind `/srv/storage1` whose
SMART self-assessment reads FAILED, `smartctl` exiting with status 0. -/
def Host.failingDisk : Host :=
  { Host.demo with
    exec := fun argv =>
      if argv = ["mountpoint", "-q", "/srv/storage1"] then ⟨"", none⟩
      else if argv = ["findmnt", "-n", "-o", "SOURCE", "/srv/storage1"] then ⟨"/dev/sda1\n", none⟩
      else if argv = ["smartctl", "-H", "/dev/sda1"] then
        ⟨"=== START OF READ SMART DATA SECTION ===\nSMART overall-health self-assessment test result: FAILED!\n", none⟩
      else ⟨"", some "exit status 1"⟩ }

/-- Library calls that all succeed, with fixed bytes for the key and the
certificate. -/
def Crypto.demo : Ctrlsrvd.Crypto :=
  { generateKey := .ok [1]
    createCertificate := fun _ _ => .ok [2]
    x509KeyPair := fun _ _ => none }

/-- The example host on which the `statfs` query fails. -/
def Host.noStatfs : Host :=
  { Host.demo with statfs := fun _ => .error "function not implemented" }

/-- The default configuration with an Edge endpoint and the paths of its TLS
certificate and key. -/
def Config.withEdge : Config :=
  { Config.defaults with
    Edge := ⟨"hub.example.org:4433", "/etc/ctrlsrv/edge.crt", "/etc/ctrlsrv/edge.key"⟩ }

/-- The default configuration with an Edge endpoint and no TLS paths. -/
def Config.edgeNoFiles : Config :=
  { Config.defaults with Edge := ⟨"hub.example.org:4433", "", ""⟩ }

/-- The example host with the TLS certificate `/etc/ctrlsrv/edge.crt` in
place and no key beside it. -/
def Host.certOnly : Host :=
  { Host.demo with
    stat := fun p =>
      if p = "/etc/ctrlsrv/edge.crt" then .info false 1 else Host.demo.stat p }

/-- A host on which `/srv` is a regular file: `os.Stat` of `/srv/storage1`
fails with `ENOTDIR`, an error for which `os.IsNotExist` is false, and no
other path exists. -/
def Host.notDir : Host :=
  { Host.bare with
    stat := fun p =>
      if p = "/srv/storage1" then .failure "stat /srv/storage1: not a directory"
      else .notExist }

/-- The example host with a file system of `10 * 2^52` blocks of one byte of
which `2^52 - 1` are free: `9 * 2^52 + 1` bytes are used, just above 90
percent. -/
def Host.usageRounded : Host :=
  { Host.demo with
    statfs := fun _ =>
      .ok { Blocks := 45035996273704960, Bfree := 4503599627370495, Bsize := 1 } }

/-- The example host with a file system of no blocks at all. -/
def Host.emptyDisk : Host :=
  { Host.demo with statfs := fun _ => .ok { Blocks := 0, Bfree := 0, Bsize := 4096 } }

/-! ## The base-2 logarithm of the rounding model -/

/-- The binary search keeps `2^acc ≤ n < 2^(acc + w)` while the window `w`
halves, and so ends on the floor of the logarithm. -/
theorem ilog2Search_spec (n : Nat) :
    ∀ (bs : List Nat) (acc w : Nat), halvingFrom bs w → 2 ^ acc ≤ n → n < 2 ^ (acc + w) →
      2 ^ ilog2Search n bs acc ≤ n ∧ n < 2 ^ (ilog2Search n bs acc + 1) := by
  intro bs
  induction bs with
  | nil =>
    intro acc w hw h1 h2
    have : w = 1 := hw
    subst this
    exact ⟨h1, h2⟩
  | cons b bs ih =>
    intro acc w hw h1 h2
    obtain ⟨hwb, hbs⟩ := hw
    subst hwb
    unfold ilog2Search
    split_ifs with hc
    · refine ih (acc + b) b hbs hc ?_
      have : acc + b + b = acc + 2 * b := by omega
      rw [this]
      exact h2
    · exact ih acc b hbs h1 (Nat.lt_of_not_le hc)

/-- The function `ilog2` is the floor of the base-2 logarithm below `2^256`. -/
theorem ilog2_spec (n : Nat) (h0 : 0 < n) (h : n < 2 ^ 256) :
    2 ^ ilog2 n ≤ n ∧ n < 2 ^ (ilog2 n + 1) := by
  unfold ilog2
  refine ilog2Search_spec n _ 0 256 ?_ (by simpa using h0) (by simpa using h)
  simp [halvingFrom]

/-! ## Exact cases of the rounding model -/

/-- The floor of the base-2 logarithm is the `k` with `2^k ≤ n < 2^(k+1)`. -/
theorem ilog2_eq (n k : Nat) (h1 : 2 ^ k ≤ n) (h2 : n < 2 ^ (k + 1)) (hk : k < 256) :
    ilog2 n = k := by
  have h0 : 0 < n := lt_of_lt_of_le (by positivity) h1
  have hn : n < 2 ^ 256 := lt_of_lt_of_le h2 (Nat.pow_le_pow_right (by norm_num) (by omega))
  obtain ⟨ha, hb⟩ := ilog2_spec n h0 hn
  have hx : ilog2 n < k + 1 := (Nat.pow_lt_pow_iff_right (by norm_num)).1 (lt_of_le_of_lt ha h2)
  have hy : k < ilog2 n + 1 := (Nat.pow_lt_pow_iff_right (by norm_num)).1 (lt_of_le_of_lt h1 hb)
  omega

/-- The logarithm of the ratio `p / q` when `2^a ≤ p < 2^(a+1)` and `q = 2^b`
with `b ≤ a`. -/
theorem log2Ratio_pow (p a b : Nat) (h1 : 2 ^ a ≤ p) (h2 : p < 2 ^ (a + 1)) (ha : a < 256)
    (hb : b ≤ a) : log2Ratio p (2 ^ b) = (a : Int) - (b : Int) := by
  have hp : ilog2 p = a := ilog2_eq p a h1 h2 ha
  have hq : ilog2 (2 ^ b) = b :=
    ilog2_eq (2 ^ b) b le_rfl (Nat.pow_lt_pow_right (by norm_num) (by omega)) (by omega)
  unfold log2Ratio
  simp only [hp, hq]
  have e1 : ((a : Int) - (b : Int)).toNat = a - b := by omega
  have e2 : (-((a : Int) - (b : Int))).toNat = 0 := by omega
  rw [e1, e2, pow_zero, Nat.mul_one, if_pos]
  calc 2 ^ b * 2 ^ (a - b) = 2 ^ a := by rw [← pow_add]; congr 1; omega
    _ ≤ p := h1

/-- A quotient that needs at most 53 bits is not changed by the rounding:
when `p * 2^(s-e) = M * (q * 2^(e-s))` for the exponent `e` that the rounding
chooses, the result is `M * 2^e`. -/
theorem roundScaled_of_exact (p q : Nat) (s e : Int) (M : Nat) (hp : p ≠ 0) (hq : 0 < q)
    (hM : M < 2 ^ 53) (he : e = max (log2Ratio p q + s - 52) (-1074)) (he2 : e ≤ 971)
    (hx : p * 2 ^ (s - e).toNat = M * (q * 2 ^ (e - s).toNat)) :
    roundScaled p q s = .fin M e := by
  have hd : 0 < q * 2 ^ (e - s).toNat := Nat.mul_pos hq (by positivity)
  unfold roundScaled
  simp only [if_neg hp, ← he, hx]
  rw [Nat.mul_div_cancel _ hd, Nat.mul_mod_left]
  simp only [Nat.mul_zero, hd, if_true, Nat.ne_of_lt hM, if_false]
  rw [if_neg (by omega)]

/-- The conversion `float64(n)` is exact below `2^53`: the significand is `n`
shifted to 53 bits. -/
theorem F64.ofUInt64_exact (n : Nat) (h0 : 0 < n) (h : n < 2 ^ 53) :
    F64.ofUInt64 n = .fin (n * 2 ^ (52 - ilog2 n)) ((ilog2 n : Int) - 52) ∧
    ilog2 n ≤ 52 ∧ 2 ^ 52 ≤ n * 2 ^ (52 - ilog2 n) ∧ n * 2 ^ (52 - ilog2 n) < 2 ^ 53 := by
  obtain ⟨ha, hb⟩ := ilog2_spec n h0 (lt_trans h (by norm_num))
  have hk : ilog2 n < 53 := (Nat.pow_lt_pow_iff_right (by norm_num)).1 (lt_of_le_of_lt ha h)
  have hlog : log2Ratio n 1 = (ilog2 n : Int) := by
    simpa using log2Ratio_pow n (ilog2 n) 0 ha hb (by omega) (Nat.zero_le _)
  have hlo : 2 ^ 52 ≤ n * 2 ^ (52 - ilog2 n) := by
    calc 2 ^ 52 = 2 ^ ilog2 n * 2 ^ (52 - ilog2 n) := by rw [← pow_add]; congr 1; omega
      _ ≤ n * 2 ^ (52 - ilog2 n) := Nat.mul_le_mul_right _ ha
  have hhi : n * 2 ^ (52 - ilog2 n) < 2 ^ 53 := by
    calc n * 2 ^ (52 - ilog2 n) < 2 ^ (ilog2 n + 1) * 2 ^ (52 - ilog2 n) :=
          Nat.mul_lt_mul_of_pos_right hb (by positivity)
      _ = 2 ^ 53 := by rw [← pow_add]; congr 1; omega
  refine ⟨?_, by omega, hlo, hhi⟩
  unfold F64.ofUInt64
  apply roundScaled_of_exact n 1 0 _ _ (by omega) (by norm_num) hhi
  · rw [hlog]; omega
  · omega
  · have e1 : ((0 : Int) - ((ilog2 n : Int) - 52)).toNat = 52 - ilog2 n := by omega
    have e2 : ((ilog2 n : Int) - 52 - 0).toNat = 0 := by omega
    rw [e1, e2]
    simp

/-- Division of a normal `float64` by a power of two that keeps it normal is
exact: only the exponent changes. -/
theorem F64.div_pow2 (M : Nat) (X : Int) (j : Nat) (h1 : 2 ^ 52 ≤ M) (h2 : M < 2 ^ 53)
    (hX1 : -52 ≤ X) (hX2 : X ≤ 12) (hj : j ≤ 60) :
    F64.div (.fin M X) (.fin (2 ^ 52) ((j : Int) - 52)) = .fin M (X - j) := by
  have hlog : log2Ratio M (2 ^ 52) = 0 := by
    simpa using log2Ratio_pow M 52 52 h1 h2 (by norm_num) le_rfl
  simp only [F64.div]
  rw [if_neg (by positivity)]
  apply roundScaled_of_exact M (2 ^ 52) _ _ _ (by omega) (by positivity) h2
  · rw [hlog]; omega
  · omega
  · have e1 : (X - ((j : Int) - 52) - (X - j)).toNat = 52 := by omega
    have e2 : (X - j - (X - ((j : Int) - 52))).toNat = 0 := by omega
    rw [e1, e2]
    ring

/-- The powers of 1024 that `formatBytes` divides by, as `float64`. -/
theorem F64.ofUInt64_unit (e : Nat) (he : e ≤ 5) :
    F64.ofUInt64 (1024 ^ (e + 1)) = .fin (2 ^ 52) (((10 * (e + 1) : Nat) : Int) - 52) := by
  interval_cases e <;> decide

/-- The conversion `float64(n)` from `2^53` on: `n` is rounded to a multiple
`r` of `2^(k-52)`, `k` the floor of its logarithm, at most half of that step
away; the result is normal. -/
theorem F64.ofUInt64_rounded (n : Nat) (h1 : 2 ^ 53 ≤ n) (h2 : n < 2 ^ 64) :
    ∃ (M X r : Nat), F64.ofUInt64 n = .fin M (X : Int) ∧ 2 ^ 52 ≤ M ∧ M < 2 ^ 53 ∧ X ≤ 12 ∧
      r = M * 2 ^ X ∧ r ≤ n + 1024 ∧ n ≤ r + 1024 := by
  have h0 : 0 < n := lt_of_lt_of_le (by positivity) h1
  obtain ⟨ha, hb⟩ := ilog2_spec n h0 (lt_trans h2 (by norm_num))
  have hk1 : 53 ≤ ilog2 n := by
    have : 53 < ilog2 n + 1 := (Nat.pow_lt_pow_iff_right (by norm_num)).1 (lt_of_le_of_lt h1 hb)
    omega
  have hk2 : ilog2 n < 64 := (Nat.pow_lt_pow_iff_right (by norm_num)).1 (lt_of_le_of_lt ha h2)
  have hlog : log2Ratio n 1 = (ilog2 n : Int) := by
    simpa using log2Ratio_pow n (ilog2 n) 0 ha hb (by omega) (Nat.zero_le _)
  obtain ⟨x, hx⟩ : ∃ x, ilog2 n = x + 52 := ⟨ilog2 n - 52, by omega⟩
  have hx11 : x ≤ 11 := by omega
  have hd : 0 < 2 ^ x := by positivity
  have hd2 : 2 ^ x ≤ 2 ^ 11 := Nat.pow_le_pow_right (by norm_num) hx11
  have hm1 : 2 ^ 52 ≤ n / 2 ^ x := by
    rw [Nat.le_div_iff_mul_le hd, ← pow_add]
    have : 52 + x = ilog2 n := by omega
    rw [this]
    exact ha
  have hm2 : n / 2 ^ x < 2 ^ 53 := by
    rw [Nat.div_lt_iff_lt_mul hd, ← pow_add]
    have : 53 + x = ilog2 n + 1 := by omega
    rw [this]
    exact hb
  have hdm : 2 ^ x * (n / 2 ^ x) + n % 2 ^ x = n := Nat.div_add_mod n (2 ^ x)
  have hrem : n % 2 ^ x < 2 ^ x := Nat.mod_lt _ hd
  have e0 : max (log2Ratio n 1 + 0 - 52) (-1074) = (x : Int) := by rw [hlog]; omega
  have e1 : ((0 : Int) - (x : Int)).toNat = 0 := by omega
  have e2 : ((x : Int) - 0).toNat = x := by omega
  have key : ∀ m1, (m1 = n / 2 ^ x ∧ 2 * (n % 2 ^ x) ≤ 2 ^ x) ∨
        (m1 = n / 2 ^ x + 1 ∧ 2 ^ x ≤ 2 * (n % 2 ^ x)) →
      ∃ (M X r : Nat),
        (if 971 < (if m1 = 2 ^ 53 then (x : Int) + 1 else (x : Int)) then F64.inf
          else F64.fin (if m1 = 2 ^ 53 then 2 ^ 52 else m1)
            (if m1 = 2 ^ 53 then (x : Int) + 1 else (x : Int))) = .fin M (X : Int) ∧
        2 ^ 52 ≤ M ∧ M < 2 ^ 53 ∧ X ≤ 12 ∧ r = M * 2 ^ X ∧ r ≤ n + 1024 ∧ n ≤ r + 1024 := by
    intro m1 hm
    have hr : m1 * 2 ^ x ≤ n + 1024 ∧ n ≤ m1 * 2 ^ x + 1024 := by
      have hd3 : 2 ^ x ≤ 2048 := by simpa using hd2
      rcases hm with ⟨rfl, hh⟩ | ⟨rfl, hh⟩
      · rw [Nat.mul_comm]
        omega
      · rw [Nat.add_mul, Nat.one_mul, Nat.mul_comm]
        omega
    by_cases hc : m1 = 2 ^ 53
    · refine ⟨2 ^ 52, x + 1, m1 * 2 ^ x, ?_, le_rfl, by norm_num, by omega, ?_, hr.1, hr.2⟩
      · rw [if_pos hc, if_pos hc, if_neg (by omega)]
        rfl
      · rw [hc, pow_succ]
        ring
    · have hlt : m1 < 2 ^ 53 := by
        rcases hm with ⟨rfl, _⟩ | ⟨rfl, _⟩ <;> omega
      have hge : 2 ^ 52 ≤ m1 := by
        rcases hm with ⟨rfl, _⟩ | ⟨rfl, _⟩ <;> omega
      refine ⟨m1, x, m1 * 2 ^ x, ?_, hge, hlt, by omega, rfl, hr.1, hr.2⟩
      rw [if_neg hc, if_neg hc, if_neg (by omega)]
  unfold F64.ofUInt64 roundScaled
  simp only [if_neg (Nat.ne_of_gt h0), e0, e1, e2, pow_zero, Nat.mul_one, Nat.one_mul]
  apply key
  split_ifs with c1 c2 c3
  · left; exact ⟨rfl, by omega⟩
  · right; exact ⟨rfl, by omega⟩
  · left; exact ⟨rfl, by omega⟩
  · right; exact ⟨rfl, by omega⟩

/-- The conversion `float64(n)` of a positive `uint64` is a normal number
whose value is a natural number `r`: `n` itself below `2^53`, and at most 1024
away from `n` above. -/
theorem F64.ofUInt64_value (n : Nat) (h0 : 0 < n) (h2 : n < 2 ^ 64) :
    ∃ (M : Nat) (X : Int) (r : Nat), F64.ofUInt64 n = .fin M X ∧ 2 ^ 52 ≤ M ∧ M < 2 ^ 53 ∧
      -52 ≤ X ∧ X ≤ 12 ∧ (M : ℚ) * (2 : ℚ) ^ X = (r : ℚ) ∧ (n < 2 ^ 53 → r = n) ∧
      r ≤ n + 1024 ∧ n ≤ r + 1024 := by
  by_cases h : n < 2 ^ 53
  · obtain ⟨heq, hk, hlo, hhi⟩ := F64.ofUInt64_exact n h0 h
    refine ⟨_, _, n, heq, hlo, hhi, by omega, by omega, ?_, fun _ => rfl, by omega, by omega⟩
    have e1 : ((ilog2 n : Int) - 52) = -((52 - ilog2 n : Nat) : Int) := by omega
    rw [e1, zpow_neg, zpow_natCast]
    push_cast
    field_simp
  · obtain ⟨M, X, r, heq, hlo, hhi, hX, hr, hb1, hb2⟩ :=
      F64.ofUInt64_rounded n (by omega) h2
    refine ⟨M, (X : Int), r, heq, hlo, hhi, by omega, by omega, ?_, fun hn => absurd hn h,
      hb1, hb2⟩
    rw [hr, zpow_natCast]
    push_cast
    rfl

/-- The verb `%.1f` on a finite `float64` of value `v` prints the digits of
the natural number `t` nearest to `10 * v`, the even one of the two when `10 * v`
lies half-way, with the point before the last digit. -/
theorem F64.format1_nearest (M : Nat) (y : Int) :
    ∃ t : Nat, F64.format1 (.fin M y) = toString (t / 10) ++ "." ++ toString (t % 10) ∧
      |(t : ℚ) - 10 * ((M : ℚ) * (2 : ℚ) ^ y)| ≤ 1 / 2 ∧
      (|(t : ℚ) - 10 * ((M : ℚ) * (2 : ℚ) ^ y)| = 1 / 2 → t % 2 = 0) := by
  have hd : 0 < 2 ^ (-y).toNat := by positivity
  have hdq : (0 : ℚ) < ((2 ^ (-y).toNat : Nat) : ℚ) := by exact_mod_cast hd
  have hval : 10 * ((M : ℚ) * (2 : ℚ) ^ y)
      = ((M * 10 * 2 ^ y.toNat : Nat) : ℚ) / ((2 ^ (-y).toNat : Nat) : ℚ) := by
    rcases le_total 0 y with hy | hy
    · have e1 : (-y).toNat = 0 := by omega
      have e2 : y = (y.toNat : Int) := by omega
      rw [e1]
      nth_rewrite 1 [e2]
      rw [zpow_natCast]
      push_cast
      ring
    · have e1 : y.toNat = 0 := by omega
      have e2 : y = -((-y).toNat : Int) := by omega
      rw [e1]
      nth_rewrite 1 [e2]
      rw [zpow_neg, zpow_natCast]
      push_cast
      field_simp
      ring
  have hdm := Nat.div_add_mod (M * 10 * 2 ^ y.toNat) (2 ^ (-y).toNat)
  have hrem := Nat.mod_lt (M * 10 * 2 ^ y.toNat) hd
  have key : ∀ t : Nat,
      (t = M * 10 * 2 ^ y.toNat / 2 ^ (-y).toNat ∧
          2 * (M * 10 * 2 ^ y.toNat % 2 ^ (-y).toNat) ≤ 2 ^ (-y).toNat ∧
          (2 * (M * 10 * 2 ^ y.toNat % 2 ^ (-y).toNat) = 2 ^ (-y).toNat → t % 2 = 0)) ∨
        (t = M * 10 * 2 ^ y.toNat / 2 ^ (-y).toNat + 1 ∧
          2 ^ (-y).toNat ≤ 2 * (M * 10 * 2 ^ y.toNat % 2 ^ (-y).toNat) ∧
          (2 * (M * 10 * 2 ^ y.toNat % 2 ^ (-y).toNat) = 2 ^ (-y).toNat → t % 2 = 0)) →
      |(t : ℚ) - 10 * ((M : ℚ) * (2 : ℚ) ^ y)| ≤ 1 / 2 ∧
      (|(t : ℚ) - 10 * ((M : ℚ) * (2 : ℚ) ^ y)| = 1 / 2 → t % 2 = 0) := by
    intro t ht
    rw [hval]
    generalize M * 10 * 2 ^ y.toNat = n at hdm hrem ht ⊢
    generalize 2 ^ (-y).toNat = d at hd hdq hdm hrem ht ⊢
    have hnq : (n : ℚ) = (d : ℚ) * ((n / d : Nat) : ℚ) + ((n % d : Nat) : ℚ) := by
      exact_mod_cast hdm.symm
    have hrq : ((n % d : Nat) : ℚ) < (d : ℚ) := by exact_mod_cast hrem
    have hr0 : (0 : ℚ) ≤ ((n % d : Nat) : ℚ) := Nat.cast_nonneg _
    rcases ht with ⟨rfl, hle, hev⟩ | ⟨rfl, hle, hev⟩
    · have hleq : 2 * ((n % d : Nat) : ℚ) ≤ (d : ℚ) := by exact_mod_cast hle
      have hdiff : ((n / d : Nat) : ℚ) - (n : ℚ) / (d : ℚ) = -(((n % d : Nat) : ℚ) / (d : ℚ)) := by
        rw [hnq]
        field_simp
        ring
      rw [hdiff, abs_neg, abs_of_nonneg (div_nonneg hr0 hdq.le)]
      constructor
      · rw [div_le_iff₀ hdq]
        linarith
      · intro heq
        apply hev
        rw [div_eq_iff hdq.ne.symm] at heq
        have : (2 * (n % d : Nat) : ℚ) = (d : ℚ) := by linarith
        exact_mod_cast this
    · have hleq : (d : ℚ) ≤ 2 * ((n % d : Nat) : ℚ) := by exact_mod_cast hle
      have hdiff : ((n / d + 1 : Nat) : ℚ) - (n : ℚ) / (d : ℚ)
          = ((d : ℚ) - ((n % d : Nat) : ℚ)) / (d : ℚ) := by
        rw [hnq]
        push_cast
        field_simp
        ring
      rw [hdiff, abs_of_nonneg (div_nonneg (by linarith) hdq.le)]
      constructor
      · rw [div_le_iff₀ hdq]
        linarith
      · intro heq
        apply hev
        rw [div_eq_iff hdq.ne.symm] at heq
        have : (2 * (n % d : Nat) : ℚ) = (d : ℚ) := by linarith
        exact_mod_cast this
  by_cases c1 : 2 * (M * 10 * 2 ^ y.toNat % 2 ^ (-y).toNat) < 2 ^ (-y).toNat
  · refine ⟨M * 10 * 2 ^ y.toNat / 2 ^ (-y).toNat, ?_, key _ (Or.inl ⟨rfl, by omega, by omega⟩)⟩
    simp only [F64.format1, if_pos c1]
  · by_cases c2 : 2 ^ (-y).toNat < 2 * (M * 10 * 2 ^ y.toNat % 2 ^ (-y).toNat)
    · refine ⟨M * 10 * 2 ^ y.toNat / 2 ^ (-y).toNat + 1, ?_,
        key _ (Or.inr ⟨rfl, by omega, by omega⟩)⟩
      simp only [F64.format1, if_neg c1, if_pos c2]
    · by_cases c3 : M * 10 * 2 ^ y.toNat / 2 ^ (-y).toNat % 2 = 0
      · refine ⟨M * 10 * 2 ^ y.toNat / 2 ^ (-y).toNat, ?_,
          key _ (Or.inl ⟨rfl, by omega, fun _ => c3⟩)⟩
        simp only [F64.format1, if_neg c1, if_neg c2, if_pos c3]
      · refine ⟨M * 10 * 2 ^ y.toNat / 2 ^ (-y).toNat + 1, ?_,
          key _ (Or.inr ⟨rfl, by omega, fun _ => by omega⟩)⟩
        simp only [F64.format1, if_neg c1, if_neg c2, if_neg c3]

/-! ## The health endpoint -/

/-- C1: in both daemons `handleHealth` answers with one `HealthResponse` whose
version is `appVersion`; it has status `ok`, `storage_ok = true` and HTTP 200
exactly when `checkStorage` of the configured path returns no error, and
status `degraded`, `storage_ok = false` and HTTP 503 exactly when it returns
an error. -/
theorem handleHealth_reflects_checkStorage (cfg : Config) (h : Host) :
    (∃ r, (Ctrlsrvd.handleHealth ⟨cfg⟩ ResponseWriter.fresh h).1.body = [Payload.health r] ∧
      r.Version = appVersion ∧
      ((Ctrlsrvd.checkStorage h cfg.Storage.Path).1 = none ↔
        (r.Status = "ok" ∧ r.Storage = true ∧
          (Ctrlsrvd.handleHealth ⟨cfg⟩ ResponseWriter.fresh h).1.status = 200)) ∧
      ((Ctrlsrvd.checkStorage h cfg.Storage.Path).1 ≠ none ↔
        (r.Status = "degraded" ∧ r.Storage = false ∧
          (Ctrlsrvd.handleHealth ⟨cfg⟩ ResponseWriter.fresh h).1.status = 503))) ∧
    (∃ r, (Srvhub.handleHealth ⟨cfg⟩ ResponseWriter.fresh h).1.body = [Payload.health r] ∧
      r.Version = appVersion ∧
      ((Srvhub.checkStorage h cfg.Storage.Path).1 = none ↔
        (r.Status = "ok" ∧ r.Storage = true ∧
          (Srvhub.handleHealth ⟨cfg⟩ ResponseWriter.fresh h).1.status = 200)) ∧
      ((Srvhub.checkStorage h cfg.Storage.Path).1 ≠ none ↔
        (r.Status = "degraded" ∧ r.Storage = false ∧
          (Srvhub.handleHealth ⟨cfg⟩ ResponseWriter.fresh h).1.status = 503))) := by
  constructor
  · unfold Ctrlsrvd.handleHealth
    rcases hc : Ctrlsrvd.checkStorage h cfg.Storage.Path with ⟨err, t⟩
    cases err <;>
      simp [jsonResponse, ResponseWriter.Write, ResponseWriter.WriteHeader,
        ResponseWriter.SetHeader, ResponseWriter.fresh, StatusServiceUnavailable]
  · unfold Srvhub.handleHealth
    rcases hc : Srvhub.checkStorage h cfg.Storage.Path with ⟨err, t⟩
    cases err <;>
      simp [jsonResponse, ResponseWriter.Write, ResponseWriter.WriteHeader,
        ResponseWriter.SetHeader, ResponseWriter.fresh, StatusServiceUnavailable]

/-- C2, at a host whose storage path does not exist: both daemons answer
`/api/health` with HTTP 503 and a `degraded` body, and the headers that were
sent carry no `Content-Type` at all, because `WriteHeader` had sent them
before `jsonResponse` set `application/json` on the header map. -/
theorem handleHealth_degraded_without_content_type :
    (Ctrlsrvd.handleHealth ⟨Config.defaults⟩ ResponseWriter.fresh Host.bare).1.status = 503 ∧
    (Ctrlsrvd.handleHealth ⟨Config.defaults⟩ ResponseWriter.fresh Host.bare).1.sent "Content-Type"
      = none ∧
    (Ctrlsrvd.handleHealth ⟨Config.defaults⟩ ResponseWriter.fresh Host.bare).1.header
      = [("Content-Type", "application/json")] ∧
    (Srvhub.handleHealth ⟨Config.defaults⟩ ResponseWriter.fresh Host.bare).1.status = 503 ∧
    (Srvhub.handleHealth ⟨Config.defaults⟩ ResponseWriter.fresh Host.bare).1.sent "Content-Type"
      = none ∧
    (Srvhub.handleHealth ⟨Config.defaults⟩ ResponseWriter.fresh Host.bare).1.header
      = [("Content-Type", "application/json")] := by
  decide


/-- What `jsonResponse` sends on a fresh writer: status 200 and the JSON
content type. -/
theorem jsonResponse_fresh_sent (p : Payload) :
    (jsonResponse ResponseWriter.fresh p).sent "Content-Type" = some "application/json" ∧
    (jsonResponse ResponseWriter.fresh p).status = 200 := by
  constructor <;> rfl

/-- The content type each JSON handler sends, in both daemons: the storage,
print-queue and services handlers always send `application/json`;
`handleHealth` sends it when `checkStorage` passes and sends no content type
when it fails. -/
theorem json_handlers_content_type (cfg : Config) (h : Host) :
    (Ctrlsrvd.handleHealth ⟨cfg⟩ ResponseWriter.fresh h).1.sent "Content-Type"
      = (if (Ctrlsrvd.checkStorage h cfg.Storage.Path).1 = none then some "application/json"
        else none) ∧
    (Srvhub.handleHealth ⟨cfg⟩ ResponseWriter.fresh h).1.sent "Content-Type"
      = (if (Srvhub.checkStorage h cfg.Storage.Path).1 = none then some "application/json"
        else none) ∧
    (Ctrlsrvd.handleStorageAPI ⟨cfg⟩ ResponseWriter.fresh h).1.sent "Content-Type"
      = some "application/json" ∧
    (Srvhub.handleStorage ⟨cfg⟩ ResponseWriter.fresh h).1.sent "Content-Type"
      = some "application/json" ∧
    (Ctrlsrvd.handlePrintQueues ⟨cfg⟩ ResponseWriter.fresh h).1.sent "Content-Type"
      = some "application/json" ∧
    (Srvhub.handlePrintQueues ⟨cfg⟩ ResponseWriter.fresh h).1.sent "Content-Type"
      = some "application/json" ∧
    (Ctrlsrvd.handleServicesAPI ⟨cfg⟩ ResponseWriter.fresh h).1.sent "Content-Type"
      = some "application/json" ∧
    (Srvhub.handleServices ⟨cfg⟩ ResponseWriter.fresh h).1.sent "Content-Type"
      = some "application/json" := by
  refine ⟨?_, ?_, ?_, ?_, rfl, rfl, rfl, rfl⟩
  · unfold Ctrlsrvd.handleHealth
    rcases Ctrlsrvd.checkStorage h cfg.Storage.Path with ⟨err, t⟩
    cases err <;> rfl
  · unfold Srvhub.handleHealth
    rcases Srvhub.checkStorage h cfg.Storage.Path with ⟨err, t⟩
    cases err <;> rfl
  · unfold Ctrlsrvd.handleStorageAPI
    rcases Ctrlsrvd.checkStorage h cfg.Storage.Path with ⟨err, t⟩
    cases err with
    | some e => rfl
    | none =>
      simp only [Ctrlsrvd.getStorageUsage, Option.isNone_none, if_true]
      cases h.statfs cfg.Storage.Path with
      | error e => rfl
      | ok stat =>
        simp only
        split_ifs <;> rfl
  · unfold Srvhub.handleStorage
    rcases Srvhub.checkStorage h cfg.Storage.Path with ⟨err, t⟩
    cases err with
    | some e => rfl
    | none =>
      simp only [Option.isNone_none, if_true]
      cases h.statfs cfg.Storage.Path with
      | error e => rfl
      | ok stat =>
        simp only
        split_ifs <;> rfl

/-! ## The storage endpoint -/

/-- The value of `float64(50) / float64(200) * 100`. -/
theorem F64.fifty_of_two_hundred :
    F64.mul (F64.div (F64.ofUInt64 50) (F64.ofUInt64 200)) F64.hundred
      = F64.fin (25 * 2 ^ 48) (-48) := by
  decide

/-- C3: in both daemons, when `checkStorage` passes and the `statfs` query
succeeds, the `used_percent` of the storage response is
`float64(used) / float64(total) * 100` (in binary64 arithmetic, on the
response's own `used_bytes` and `total_bytes`) when `total_bytes > 0`, and the
zero value when `total_bytes = 0`; with 50 used of 200 it is exactly 25. -/
theorem storage_used_percent (cfg : Config) (h : Host) (stat : Statfs_t)
    (hk : (Ctrlsrvd.checkStorage h cfg.Storage.Path).1 = none)
    (hg : (Srvhub.checkStorage h cfg.Storage.Path).1 = none)
    (hu : h.statfs cfg.Storage.Path = .ok stat) :
    (∃ r, (Ctrlsrvd.handleStorageAPI ⟨cfg⟩ ResponseWriter.fresh h).1.body = [Payload.storage r] ∧
      (0 < r.Total → r.UsedPct =
        F64.mul (F64.div (F64.ofUInt64 r.Used) (F64.ofUInt64 r.Total)) F64.hundred) ∧
      (r.Total = 0 → r.UsedPct = F64.zero ∧ r.UsedPct.toRat = some 0) ∧
      (r.Used = 50 → r.Total = 200 → r.UsedPct.toRat = some 25)) ∧
    (∃ r, (Srvhub.handleStorage ⟨cfg⟩ ResponseWriter.fresh h).1.body = [Payload.storage r] ∧
      (0 < r.Total → r.UsedPct =
        F64.mul (F64.div (F64.ofUInt64 r.Used) (F64.ofUInt64 r.Total)) F64.hundred) ∧
      (r.Total = 0 → r.UsedPct = F64.zero ∧ r.UsedPct.toRat = some 0) ∧
      (r.Used = 50 → r.Total = 200 → r.UsedPct.toRat = some 25)) := by
  have h25 : (F64.fin (25 * 2 ^ 48) (-48)).toRat = some 25 := by
    norm_num [F64.toRat]
  have h0 : F64.zero.toRat = some 0 := by simp [F64.zero, F64.toRat]
  constructor
  · unfold Ctrlsrvd.handleStorageAPI
    rcases hc : Ctrlsrvd.checkStorage h cfg.Storage.Path with ⟨err, t⟩
    rw [hc] at hk
    simp only at hk
    subst hk
    simp only [Ctrlsrvd.getStorageUsage, hu, Option.isNone_none, if_true]
    split_ifs with hpos
    · refine ⟨_, rfl, ?_, ?_, ?_⟩
      · intro _; rfl
      · intro hz; exact absurd hz (Nat.ne_of_gt hpos)
      · intro h1 h2
        simp only at h1 h2 ⊢
        rw [h1, h2, F64.fifty_of_two_hundred, h25]
    · refine ⟨_, rfl, ?_, ?_, ?_⟩
      · intro hp; exact absurd hp hpos
      · intro _; exact ⟨rfl, h0⟩
      · intro _ h2; simp only at hpos h2; omega
  · unfold Srvhub.handleStorage
    rcases hc : Srvhub.checkStorage h cfg.Storage.Path with ⟨err, t⟩
    rw [hc] at hg
    simp only at hg
    subst hg
    simp only [hu, Option.isNone_none, if_true]
    split_ifs with hpos
    · refine ⟨_, rfl, ?_, ?_, ?_⟩
      · intro _; rfl
      · intro hz; exact absurd hz (Nat.ne_of_gt hpos)
      · intro h1 h2
        simp only at h1 h2 ⊢
        rw [h1, h2, F64.fifty_of_two_hundred, h25]
    · refine ⟨_, rfl, ?_, ?_, ?_⟩
      · intro hp; exact absurd hp hpos
      · intro _; exact ⟨rfl, h0⟩
      · intro _ h2; simp only at hpos h2; omega


/-- Witness for C3: on the example host, 50 bytes used of 200, both daemons
report 25 percent. -/
theorem storage_used_percent_witness :
    (Ctrlsrvd.checkStorage Host.demo Config.defaults.Storage.Path).1 = none ∧
    (Srvhub.checkStorage Host.demo Config.defaults.Storage.Path).1 = none ∧
    Host.demo.statfs Config.defaults.Storage.Path = .ok ⟨200, 150, 1⟩ ∧
    (∃ r, (Ctrlsrvd.handleStorageAPI ⟨Config.defaults⟩ ResponseWriter.fresh Host.demo).1.body
        = [Payload.storage r] ∧ r.Used = 50 ∧ r.Total = 200 ∧ r.UsedPct.toRat = some 25) ∧
    (∃ r, (Srvhub.handleStorage ⟨Config.defaults⟩ ResponseWriter.fresh Host.demo).1.body
        = [Payload.storage r] ∧ r.Used = 50 ∧ r.Total = 200 ∧ r.UsedPct.toRat = some 25) := by
  have hk : (Ctrlsrvd.checkStorage Host.demo Config.defaults.Storage.Path).1 = none := by decide
  have hg : (Srvhub.checkStorage Host.demo Config.defaults.Storage.Path).1 = none := by decide
  have hu : Host.demo.statfs Config.defaults.Storage.Path = .ok ⟨200, 150, 1⟩ := rfl
  have e1 : (Ctrlsrvd.handleStorageAPI ⟨Config.defaults⟩ ResponseWriter.fresh Host.demo).1.body
      = [Payload.storage ⟨"/srv/storage1", true, 50, 150, 200, .fin (25 * 2 ^ 48) (-48)⟩] := by
    decide
  have e2 : (Srvhub.handleStorage ⟨Config.defaults⟩ ResponseWriter.fresh Host.demo).1.body
      = [Payload.storage ⟨"/srv/storage1", true, 50, 150, 200, .fin (25 * 2 ^ 48) (-48)⟩] := by
    decide
  obtain ⟨⟨r1, b1, _, _, p1⟩, ⟨r2, b2, _, _, p2⟩⟩ :=
    storage_used_percent Config.defaults Host.demo ⟨200, 150, 1⟩ hk hg hu
  have q1 : r1 = ⟨"/srv/storage1", true, 50, 150, 200, .fin (25 * 2 ^ 48) (-48)⟩ := by
    rw [e1] at b1
    simpa using b1.symm
  have q2 : r2 = ⟨"/srv/storage1", true, 50, 150, 200, .fin (25 * 2 ^ 48) (-48)⟩ := by
    rw [e2] at b2
    simpa using b2.symm
  refine ⟨hk, hg, hu, ⟨r1, b1, ?_, ?_, ?_⟩, ⟨r2, b2, ?_, ?_, ?_⟩⟩
  · rw [q1]
  · rw [q1]
  · exact p1 (by rw [q1]) (by rw [q1])
  · rw [q2]
  · rw [q2]
  · exact p2 (by rw [q2]) (by rw [q2])

/-- C4: in both daemons the storage response always carries the configured
path, and whenever `checkStorage` fails for that path it has
`available = false`, zero used, free and total bytes and a zero
`used_percent`. -/
theorem storage_unavailable_all_zero (cfg : Config) (h : Host) :
    (∃ r, (Ctrlsrvd.handleStorageAPI ⟨cfg⟩ ResponseWriter.fresh h).1.body = [Payload.storage r] ∧
      r.Path = cfg.Storage.Path ∧
      ((Ctrlsrvd.checkStorage h cfg.Storage.Path).1 ≠ none →
        r.Available = false ∧ r.Used = 0 ∧ r.Free = 0 ∧ r.Total = 0 ∧ r.UsedPct = F64.zero)) ∧
    (∃ r, (Srvhub.handleStorage ⟨cfg⟩ ResponseWriter.fresh h).1.body = [Payload.storage r] ∧
      r.Path = cfg.Storage.Path ∧
      ((Srvhub.checkStorage h cfg.Storage.Path).1 ≠ none →
        r.Available = false ∧ r.Used = 0 ∧ r.Free = 0 ∧ r.Total = 0 ∧ r.UsedPct = F64.zero)) := by
  constructor
  · unfold Ctrlsrvd.handleStorageAPI
    rcases hc : Ctrlsrvd.checkStorage h cfg.Storage.Path with ⟨err, t⟩
    cases err with
    | some e => exact ⟨_, rfl, rfl, fun _ => ⟨rfl, rfl, rfl, rfl, rfl⟩⟩
    | none =>
      simp only [Ctrlsrvd.getStorageUsage, Option.isNone_none, if_true]
      cases h.statfs cfg.Storage.Path with
      | error e => exact ⟨_, rfl, rfl, fun hne => absurd rfl hne⟩
      | ok stat =>
        simp only
        split_ifs <;> exact ⟨_, rfl, rfl, fun hne => absurd rfl hne⟩
  · unfold Srvhub.handleStorage
    rcases hc : Srvhub.checkStorage h cfg.Storage.Path with ⟨err, t⟩
    cases err with
    | some e => exact ⟨_, rfl, rfl, fun _ => ⟨rfl, rfl, rfl, rfl, rfl⟩⟩
    | none =>
      simp only [Option.isNone_none, if_true]
      cases h.statfs cfg.Storage.Path with
      | error e => exact ⟨_, rfl, rfl, fun hne => absurd rfl hne⟩
      | ok stat =>
        simp only
        split_ifs <;> exact ⟨_, rfl, rfl, fun hne => absurd rfl hne⟩

/-- Witness for C4: on the host without storage both daemons answer with the
configured path and nothing else set. -/
theorem storage_unavailable_all_zero_witness :
    (Ctrlsrvd.checkStorage Host.bare Config.defaults.Storage.Path).1 ≠ none ∧
    (Srvhub.checkStorage Host.bare Config.defaults.Storage.Path).1 ≠ none ∧
    (∃ r, (Ctrlsrvd.handleStorageAPI ⟨Config.defaults⟩ ResponseWriter.fresh Host.bare).1.body
        = [Payload.storage r] ∧ r.Path = "/srv/storage1" ∧
      r.Available = false ∧ r.Used = 0 ∧ r.Free = 0 ∧ r.Total = 0 ∧ r.UsedPct = F64.zero) ∧
    (∃ r, (Srvhub.handleStorage ⟨Config.defaults⟩ ResponseWriter.fresh Host.bare).1.body
        = [Payload.storage r] ∧ r.Path = "/srv/storage1" ∧
      r.Available = false ∧ r.Used = 0 ∧ r.Free = 0 ∧ r.Total = 0 ∧ r.UsedPct = F64.zero) := by
  have hk : (Ctrlsrvd.checkStorage Host.bare Config.defaults.Storage.Path).1 ≠ none := by decide
  have hg : (Srvhub.checkStorage Host.bare Config.defaults.Storage.Path).1 ≠ none := by decide
  obtain ⟨⟨r1, b1, p1, z1⟩, ⟨r2, b2, p2, z2⟩⟩ :=
    storage_unavailable_all_zero Config.defaults Host.bare
  exact ⟨hk, hg, ⟨r1, b1, p1, z1 hk⟩, ⟨r2, b2, p2, z2 hg⟩⟩

/-! ## The print-queue endpoint -/

/-- C5: in both daemons `handlePrintQueues` answers with an object whose
`queues` array has exactly one entry, named after `config.CUPS.Printer`, with
`jobs = 0` and `state = "idle"`, and makes no call to the host; two
configurations with the same printer name, on any two hosts, get the same
answer. -/
theorem handlePrintQueues_single_idle_entry (cfg : Config) (h : Host) :
    (Ctrlsrvd.handlePrintQueues ⟨cfg⟩ ResponseWriter.fresh h).1.body
      = [Payload.queues ⟨[⟨cfg.CUPS.Printer, 0, "idle"⟩]⟩] ∧
    (Srvhub.handlePrintQueues ⟨cfg⟩ ResponseWriter.fresh h).1.body
      = [Payload.queues ⟨[⟨cfg.CUPS.Printer, 0, "idle"⟩]⟩] ∧
    (Ctrlsrvd.handlePrintQueues ⟨cfg⟩ ResponseWriter.fresh h).2 = [] ∧
    (Srvhub.handlePrintQueues ⟨cfg⟩ ResponseWriter.fresh h).2 = [] ∧
    (∀ (cfg2 : Config) (h2 : Host) (w : ResponseWriter), cfg2.CUPS.Printer = cfg.CUPS.Printer →
      Ctrlsrvd.handlePrintQueues ⟨cfg2⟩ w h2 = Ctrlsrvd.handlePrintQueues ⟨cfg⟩ w h ∧
      Srvhub.handlePrintQueues ⟨cfg2⟩ w h2 = Srvhub.handlePrintQueues ⟨cfg⟩ w h) := by
  refine ⟨rfl, rfl, rfl, rfl, ?_⟩
  intro cfg2 h2 w hp
  simp [Ctrlsrvd.handlePrintQueues, Srvhub.handlePrintQueues, hp]

/-- Witness for C5: the default configuration and one that differs from it in
every field but the printer name get the same single idle queue. -/
theorem handlePrintQueues_single_idle_entry_witness :
    (⟨⟨":9", ":1"⟩, ⟨"/x"⟩, ⟨"http://c", ""⟩, ⟨"e", "c", "k"⟩, ⟨"wg9", ["10.0.0.0/8"]⟩⟩ :
        Config).CUPS.Printer = Config.defaults.CUPS.Printer ∧
    Ctrlsrvd.handlePrintQueues
        ⟨⟨⟨":9", ":1"⟩, ⟨"/x"⟩, ⟨"http://c", ""⟩, ⟨"e", "c", "k"⟩, ⟨"wg9", ["10.0.0.0/8"]⟩⟩⟩
        ResponseWriter.fresh Host.demo
      = Ctrlsrvd.handlePrintQueues ⟨Config.defaults⟩ ResponseWriter.fresh Host.bare ∧
    Srvhub.handlePrintQueues
        ⟨⟨⟨":9", ":1"⟩, ⟨"/x"⟩, ⟨"http://c", ""⟩, ⟨"e", "c", "k"⟩, ⟨"wg9", ["10.0.0.0/8"]⟩⟩⟩
        ResponseWriter.fresh Host.demo
      = Srvhub.handlePrintQueues ⟨Config.defaults⟩ ResponseWriter.fresh Host.bare :=
  ⟨rfl,
    (handlePrintQueues_single_idle_entry Config.defaults Host.bare).2.2.2.2 _ Host.demo
      ResponseWriter.fresh rfl⟩

/-! ## The service-status checker -/

/-- The loop of `GetMultipleStatuses` from any accumulator: the statuses
gathered so far followed by the status of each remaining name. -/
theorem Ctrlsrvd.GetMultipleStatuses_loop (h : Host) (services : List String)
    (acc : List ServiceStatus × Trace) :
    (services.foldl
      (fun (acc : List ServiceStatus × Trace) name =>
        let (status, t) := Ctrlsrvd.GetStatus h name
        (acc.1 ++ [status], acc.2 ++ t))
      acc).1 = acc.1 ++ services.map (fun n => (Ctrlsrvd.GetStatus h n).1) := by
  induction services generalizing acc with
  | nil => simp
  | cons n ns ih =>
    rw [List.foldl_cons, ih]
    simp

/-- The statuses `GetMultipleStatuses` returns are those of `GetStatus`, name
by name. -/
theorem Ctrlsrvd.GetMultipleStatuses_eq_map (h : Host) (services : List String) :
    (Ctrlsrvd.GetMultipleStatuses h services).1
      = services.map (fun n => (Ctrlsrvd.GetStatus h n).1) := by
  unfold Ctrlsrvd.GetMultipleStatuses
  rw [Ctrlsrvd.GetMultipleStatuses_loop]
  simp

/-- The statuses `GetMultipleStatuses` returns bear the names it was given, in
order. -/
theorem Ctrlsrvd.GetMultipleStatuses_names (h : Host) (services : List String) :
    (Ctrlsrvd.GetMultipleStatuses h services).1.map ServiceStatus.Name = services := by
  rw [Ctrlsrvd.GetMultipleStatuses_eq_map, List.map_map]
  have : (ServiceStatus.Name ∘ fun n => (Ctrlsrvd.GetStatus h n).1) = id := by
    funext n
    rfl
  rw [this, List.map_id]

/-- The status of a name: the name itself and the two query results. -/
theorem Ctrlsrvd.GetStatus_fst (h : Host) (n : String) :
    (Ctrlsrvd.GetStatus h n).1
      = ⟨n, (Ctrlsrvd.IsActive h n).1, (Ctrlsrvd.IsEnabled h n).1⟩ := rfl

/-- A failed `systemctl is-active` query reads as inactive. -/
theorem Ctrlsrvd.IsActive_of_err (h : Host) (n : String)
    (he : (h.exec ["systemctl", "is-active", n]).err ≠ none) : (Ctrlsrvd.IsActive h n).1 = false := by
  rcases hx : h.exec ["systemctl", "is-active", n] with ⟨out, err⟩
  rw [hx] at he
  cases err with
  | none => exact absurd rfl he
  | some e => simp [Ctrlsrvd.IsActive, hx]

/-- A failed `systemctl is-enabled` query reads as not enabled. -/
theorem Ctrlsrvd.IsEnabled_of_err (h : Host) (n : String)
    (he : (h.exec ["systemctl", "is-enabled", n]).err ≠ none) :
    (Ctrlsrvd.IsEnabled h n).1 = false := by
  rcases hx : h.exec ["systemctl", "is-enabled", n] with ⟨out, err⟩
  rw [hx] at he
  cases err with
  | none => exact absurd rfl he
  | some e => simp [Ctrlsrvd.IsEnabled, hx]

/-- The status of a name depends on the host through the answers to the two
queries for that name only. -/
theorem Ctrlsrvd.GetStatus_congr (h h2 : Host) (n : String)
    (ha : h2.exec ["systemctl", "is-active", n] = h.exec ["systemctl", "is-active", n])
    (he : h2.exec ["systemctl", "is-enabled", n] = h.exec ["systemctl", "is-enabled", n]) :
    (Ctrlsrvd.GetStatus h2 n).1 = (Ctrlsrvd.GetStatus h n).1 := by
  simp only [Ctrlsrvd.GetStatus_fst, Ctrlsrvd.IsActive, Ctrlsrvd.IsEnabled, ha, he]

/-- C6: for every list of service names `GetMultipleStatuses` returns as many
entries as names; the i-th entry is `GetStatus` of the i-th name and bears
that name; an entry whose queries fail is inactive and not enabled (each
field falls back on its own); and an entry depends only on the answers to
the queries for its own name, so that what happens for another name leaves
it unchanged. -/
theorem GetMultipleStatuses_entrywise (h : Host) (services : List String) :
    (Ctrlsrvd.GetMultipleStatuses h services).1.length = services.length ∧
    (∀ i : Nat, (Ctrlsrvd.GetMultipleStatuses h services).1[i]?
      = services[i]?.map (fun n => (Ctrlsrvd.GetStatus h n).1)) ∧
    (Ctrlsrvd.GetMultipleStatuses h services).1.map ServiceStatus.Name = services ∧
    (∀ n, (Ctrlsrvd.GetStatus h n).1.Name = n ∧
      ((h.exec ["systemctl", "is-active", n]).err ≠ none →
        (Ctrlsrvd.GetStatus h n).1.Active = false) ∧
      ((h.exec ["systemctl", "is-enabled", n]).err ≠ none →
        (Ctrlsrvd.GetStatus h n).1.Enabled = false) ∧
      ((h.exec ["systemctl", "is-active", n]).err ≠ none →
        (h.exec ["systemctl", "is-enabled", n]).err ≠ none →
        (Ctrlsrvd.GetStatus h n).1 = ⟨n, false, false⟩)) ∧
    (∀ (h2 : Host) (i : Nat),
      (∀ n, services[i]? = some n →
        h2.exec ["systemctl", "is-active", n] = h.exec ["systemctl", "is-active", n] ∧
        h2.exec ["systemctl", "is-enabled", n] = h.exec ["systemctl", "is-enabled", n]) →
      (Ctrlsrvd.GetMultipleStatuses h2 services).1[i]?
        = (Ctrlsrvd.GetMultipleStatuses h services).1[i]?) := by
  refine ⟨?_, ?_, ?_, ?_, ?_⟩
  · simp [Ctrlsrvd.GetMultipleStatuses_eq_map]
  · intro i
    simp [Ctrlsrvd.GetMultipleStatuses_eq_map]
  · exact Ctrlsrvd.GetMultipleStatuses_names h services
  · intro n
    refine ⟨rfl, ?_, ?_, ?_⟩
    · intro ha
      rw [Ctrlsrvd.GetStatus_fst]
      exact Ctrlsrvd.IsActive_of_err h n ha
    · intro he
      rw [Ctrlsrvd.GetStatus_fst]
      exact Ctrlsrvd.IsEnabled_of_err h n he
    · intro ha he
      rw [Ctrlsrvd.GetStatus_fst, Ctrlsrvd.IsActive_of_err h n ha,
        Ctrlsrvd.IsEnabled_of_err h n he]
  · intro h2 i hq
    rw [Ctrlsrvd.GetMultipleStatuses_eq_map, Ctrlsrvd.GetMultipleStatuses_eq_map,
      List.getElem?_map, List.getElem?_map]
    cases hn : services[i]? with
    | none => rfl
    | some n =>
      obtain ⟨ha, he⟩ := hq n hn
      simp only [Option.map_some']
      rw [Ctrlsrvd.GetStatus_congr h h2 n ha he]

/-- Witness for C6: for `cups` and an unknown service, the batch has the
running `cups` first and the unknown service inactive and not enabled second,
and the `cups` entry is the same on a host that differs in every other
answer. -/
theorem GetMultipleStatuses_entrywise_witness :
    (Host.demo.exec ["systemctl", "is-active", "ghost"]).err ≠ none ∧
    (Host.demo.exec ["systemctl", "is-enabled", "ghost"]).err ≠ none ∧
    (Ctrlsrvd.GetStatus Host.demo "ghost").1 = ⟨"ghost", false, false⟩ ∧
    (Ctrlsrvd.GetMultipleStatuses Host.demo ["cups", "ghost"]).1
      = [⟨"cups", true, true⟩, ⟨"ghost", false, false⟩] ∧
    (Ctrlsrvd.GetMultipleStatuses Host.cupsOnly ["cups", "ghost"]).1[0]?
      = (Ctrlsrvd.GetMultipleStatuses Host.demo ["cups", "ghost"]).1[0]? := by
  have ha : (Host.demo.exec ["systemctl", "is-active", "ghost"]).err ≠ none := by decide
  have he : (Host.demo.exec ["systemctl", "is-enabled", "ghost"]).err ≠ none := by decide
  have key := GetMultipleStatuses_entrywise Host.demo ["cups", "ghost"]
  refine ⟨ha, he, (key.2.2.2.1 "ghost").2.2.2 ha he, by decide, key.2.2.2.2 Host.cupsOnly 0 ?_⟩
  intro n hn
  have : n = "cups" := by simpa using hn.symm
  subst this
  exact ⟨rfl, rfl⟩

/-- What `strings.TrimSpace` leaves: a list of characters without white space
at either end is the trimmed form of exactly the lists that pad it with white
space on the left and on the right. -/
theorem trimSpaceChars_eq_iff (l t : List Char)
    (hfirst : ∃ c t1, t = c :: t1 ∧ isSpace c = false)
    (hlast : ∃ e r1, t.reverse = e :: r1 ∧ isSpace e = false) :
    trimSpaceChars l = t ↔
      ∃ a b : List Char, (∀ c ∈ a, isSpace c = true) ∧ (∀ c ∈ b, isSpace c = true) ∧
        l = a ++ t ++ b := by
  constructor
  · intro ht
    refine ⟨l.takeWhile isSpace, ((l.dropWhile isSpace).reverse.takeWhile isSpace).reverse,
      fun c hc => List.mem_takeWhile_imp hc,
      fun c hc => List.mem_takeWhile_imp (List.mem_reverse.mp hc), ?_⟩
    have hd : l.dropWhile isSpace
        = t ++ ((l.dropWhile isSpace).reverse.takeWhile isSpace).reverse := by
      have h1 := List.takeWhile_append_dropWhile isSpace (l.dropWhile isSpace).reverse
      have h2 := congrArg List.reverse h1
      rw [List.reverse_append, List.reverse_reverse] at h2
      unfold trimSpaceChars at ht
      rw [ht] at h2
      exact h2.symm
    calc l = l.takeWhile isSpace ++ l.dropWhile isSpace :=
          (List.takeWhile_append_dropWhile isSpace l).symm
      _ = l.takeWhile isSpace ++ (t ++ ((l.dropWhile isSpace).reverse.takeWhile isSpace).reverse) :=
          by rw [← hd]
      _ = l.takeWhile isSpace ++ t ++ ((l.dropWhile isSpace).reverse.takeWhile isSpace).reverse :=
          by rw [List.append_assoc]
  · rintro ⟨a, b, ha, hb, rfl⟩
    obtain ⟨c, t1, htc, hc⟩ := hfirst
    obtain ⟨e, r1, hte, he⟩ := hlast
    unfold trimSpaceChars
    have h1 : (a ++ t ++ b).dropWhile isSpace = t ++ b := by
      rw [List.append_assoc, List.dropWhile_append_of_pos ha, htc, List.cons_append,
        List.dropWhile_cons_of_neg (by simp [hc])]
    have hb2 : ∀ x ∈ b.reverse, isSpace x = true := fun x hx => hb x (List.mem_reverse.mp hx)
    rw [h1, List.reverse_append, List.dropWhile_append_of_pos hb2, hte,
      List.dropWhile_cons_of_neg (by simp [he]), ← hte, List.reverse_reverse]

/-- The function `TrimSpace` on strings, through the characters. -/
theorem TrimSpace_eq_iff (s t : String) : TrimSpace s = t ↔ trimSpaceChars s.data = t.data := by
  unfold TrimSpace
  constructor
  · intro hs
    rw [← hs]
  · intro hs
    rw [hs]

/-- C7: for every service name and every answer of the service manager,
`IsActive` is true exactly when the query succeeds and its output trimmed of
white space is `active`, that is, is `active` padded with white space;
`IsEnabled` is true exactly when the query succeeds and its trimmed output is
`enabled` or `static`. Both are total functions into the booleans, so every
failure and every other output gives `false` and no error is returned. -/
theorem IsActive_IsEnabled_iff (h : Host) (name : String) :
    ((Ctrlsrvd.IsActive h name).1 = true ↔
      (h.exec ["systemctl", "is-active", name]).err = none ∧
        TrimSpace (h.exec ["systemctl", "is-active", name]).output = "active") ∧
    ((Ctrlsrvd.IsEnabled h name).1 = true ↔
      (h.exec ["systemctl", "is-enabled", name]).err = none ∧
        (TrimSpace (h.exec ["systemctl", "is-enabled", name]).output = "enabled" ∨
          TrimSpace (h.exec ["systemctl", "is-enabled", name]).output = "static")) ∧
    ((Ctrlsrvd.IsActive h name).1 = true ↔
      (h.exec ["systemctl", "is-active", name]).err = none ∧
        ∃ a b : List Char, (∀ c ∈ a, isSpace c = true) ∧ (∀ c ∈ b, isSpace c = true) ∧
          (h.exec ["systemctl", "is-active", name]).output.data = a ++ "active".data ++ b) ∧
    ((Ctrlsrvd.IsEnabled h name).1 = true ↔
      (h.exec ["systemctl", "is-enabled", name]).err = none ∧
        ∃ a b : List Char, (∀ c ∈ a, isSpace c = true) ∧ (∀ c ∈ b, isSpace c = true) ∧
          ((h.exec ["systemctl", "is-enabled", name]).output.data = a ++ "enabled".data ++ b ∨
            (h.exec ["systemctl", "is-enabled", name]).output.data = a ++ "static".data ++ b)) := by
  have hA : (Ctrlsrvd.IsActive h name).1 = true ↔
      (h.exec ["systemctl", "is-active", name]).err = none ∧
        TrimSpace (h.exec ["systemctl", "is-active", name]).output = "active" := by
    rcases hx : h.exec ["systemctl", "is-active", name] with ⟨out, err⟩
    cases err <;> simp [Ctrlsrvd.IsActive, hx]
  have hE : (Ctrlsrvd.IsEnabled h name).1 = true ↔
      (h.exec ["systemctl", "is-enabled", name]).err = none ∧
        (TrimSpace (h.exec ["systemctl", "is-enabled", name]).output = "enabled" ∨
          TrimSpace (h.exec ["systemctl", "is-enabled", name]).output = "static") := by
    rcases hx : h.exec ["systemctl", "is-enabled", name] with ⟨out, err⟩
    cases err <;> simp [Ctrlsrvd.IsEnabled, hx]
  have pa := fun l => trimSpaceChars_eq_iff l "active".data
    ⟨'a', "ctive".data, rfl, by decide⟩ ⟨'e', "vitca".data, rfl, by decide⟩
  have pe := fun l => trimSpaceChars_eq_iff l "enabled".data
    ⟨'e', "nabled".data, rfl, by decide⟩ ⟨'d', "elbane".data, rfl, by decide⟩
  have ps := fun l => trimSpaceChars_eq_iff l "static".data
    ⟨'s', "tatic".data, rfl, by decide⟩ ⟨'c', "itats".data, rfl, by decide⟩
  refine ⟨hA, hE, ?_, ?_⟩
  · rw [hA, TrimSpace_eq_iff, pa]
  · rw [hE, TrimSpace_eq_iff, TrimSpace_eq_iff, pe, ps]
    constructor
    · rintro ⟨h0, ⟨a, b, ha, hb, e⟩ | ⟨a, b, ha, hb, e⟩⟩
      · exact ⟨h0, a, b, ha, hb, Or.inl e⟩
      · exact ⟨h0, a, b, ha, hb, Or.inr e⟩
    · rintro ⟨h0, a, b, ha, hb, e | e⟩
      · exact ⟨h0, Or.inl ⟨a, b, ha, hb, e⟩⟩
      · exact ⟨h0, Or.inr ⟨a, b, ha, hb, e⟩⟩

/-! ## The services endpoint -/

/-- C8: in the GUI-oriented daemon `handleServices` answers, for every
configuration and host and without calling the host, with the four entries
`cups`, `smbd`, `saned`, `docker` in that order, each inactive and not
enabled; in the kiosk-oriented daemon `handleServicesAPI` answers with one
entry per name of `cups`, `smbd`, `nmbd`, `saned`, `docker` in that order,
each the `GetStatus` of its name. -/
theorem handleServices_fixed_lists (cfg : Config) (h : Host) :
    (Srvhub.handleServices ⟨cfg⟩ ResponseWriter.fresh h).1.body
      = [Payload.services ⟨[⟨"cups", false, false⟩, ⟨"smbd", false, false⟩,
          ⟨"saned", false, false⟩, ⟨"docker", false, false⟩]⟩] ∧
    (Srvhub.handleServices ⟨cfg⟩ ResponseWriter.fresh h).2 = [] ∧
    (∃ r, (Ctrlsrvd.handleServicesAPI ⟨cfg⟩ ResponseWriter.fresh h).1.body = [Payload.services r] ∧
      r.Services.map ServiceStatus.Name = ["cups", "smbd", "nmbd", "saned", "docker"] ∧
      r.Services = ["cups", "smbd", "nmbd", "saned", "docker"].map
        (fun n => (Ctrlsrvd.GetStatus h n).1)) := by
  refine ⟨rfl, rfl,
    ⟨⟨(Ctrlsrvd.GetMultipleStatuses h ["cups", "smbd", "nmbd", "saned", "docker"]).1⟩, rfl, ?_, ?_⟩⟩
  · exact Ctrlsrvd.GetMultipleStatuses_names h _
  · exact Ctrlsrvd.GetMultipleStatuses_eq_map h _

/-! ## The configuration loader -/

/-- The result of `loadConfig` once it has settled on the path `p`, has read
`data` from it and has decoded `data` to `cfg`: the four defaults, each applied
to `cfg` if its field is empty. -/
theorem Srvhub.loadConfig_of_parsed (unmarshal : String → Except String Config) (h : Host)
    (path p data : String) (cfg : Config)
    (hp : (path ≠ "" ∧ p = path) ∨
      (path = "" ∧ (h.stat "config.yaml").isOk = true ∧ p = "config.yaml") ∨
      (path = "" ∧ (h.stat "config.yaml").isOk = false ∧
        (h.stat "config.example.yaml").isOk = true ∧ p = "config.example.yaml"))
    (hr : h.readFile p = .ok data) (hu : unmarshal data = .ok cfg) :
    (Srvhub.loadConfig unmarshal h path).1 = .ok
      (let cfg := if cfg.Server.ListenAddr = "" then
          { cfg with Server := { cfg.Server with ListenAddr := "0.0.0.0:8080" } } else cfg
        let cfg := if cfg.Storage.Path = "" then
          { cfg with Storage := { cfg.Storage with Path := "/srv/storage1" } } else cfg
        let cfg := if cfg.CUPS.URL = "" then
          { cfg with CUPS := { cfg.CUPS with URL := "http://localhost:631" } } else cfg
        let cfg := if cfg.WireGuard.Interface = "" then
          { cfg with WireGuard := { cfg.WireGuard with Interface := "wg0" } } else cfg
        cfg) := by
  rcases hp with ⟨hne, rfl⟩ | ⟨rfl, hy, rfl⟩ | ⟨rfl, hy, he, rfl⟩
  · simp [Srvhub.loadConfig, hne, hr, hu]
  · cases hs : h.stat "config.yaml" with
    | info d v => simp [Srvhub.loadConfig, hs, hr, hu]
    | notExist => simp [hs, StatResult.isOk] at hy
    | failure m => simp [hs, StatResult.isOk] at hy
  · cases hs : h.stat "config.yaml" with
    | info d v => simp [hs, StatResult.isOk] at hy
    | notExist =>
      cases hx : h.stat "config.example.yaml" with
      | info d v => simp [Srvhub.loadConfig, hs, hx, hr, hu]
      | notExist => simp [hx, StatResult.isOk] at he
      | failure m => simp [hx, StatResult.isOk] at he
    | failure m =>
      cases hx : h.stat "config.example.yaml" with
      | info d v => simp [Srvhub.loadConfig, hs, hx, hr, hu]
      | notExist => simp [hx, StatResult.isOk] at he
      | failure m => simp [hx, StatResult.isOk] at he

/-- C9: whenever `loadConfig` gets to a parsed configuration `cfg` (it settled
on a path, read it and decoded it), it succeeds, and in its result the listen
address, the storage path, the CUPS URL and the WireGuard interface are
`0.0.0.0:8080`, `/srv/storage1`, `http://localhost:631` and `wg0` exactly
where `cfg` has them empty and are those of `cfg` otherwise, while the QUIC
address, the CUPS printer, the Edge section and the allowed networks are
those of `cfg`. -/
theorem loadConfig_applies_defaults (unmarshal : String → Except String Config) (h : Host)
    (path p data : String) (cfg : Config)
    (hp : (path ≠ "" ∧ p = path) ∨
      (path = "" ∧ (h.stat "config.yaml").isOk = true ∧ p = "config.yaml") ∨
      (path = "" ∧ (h.stat "config.yaml").isOk = false ∧
        (h.stat "config.example.yaml").isOk = true ∧ p = "config.example.yaml"))
    (hr : h.readFile p = .ok data) (hu : unmarshal data = .ok cfg) :
    ∃ out, (Srvhub.loadConfig unmarshal h path).1 = .ok out ∧
      out.Server.ListenAddr
        = (if cfg.Server.ListenAddr = "" then "0.0.0.0:8080" else cfg.Server.ListenAddr) ∧
      out.Storage.Path = (if cfg.Storage.Path = "" then "/srv/storage1" else cfg.Storage.Path) ∧
      out.CUPS.URL = (if cfg.CUPS.URL = "" then "http://localhost:631" else cfg.CUPS.URL) ∧
      out.WireGuard.Interface
        = (if cfg.WireGuard.Interface = "" then "wg0" else cfg.WireGuard.Interface) ∧
      out.Server.QUICAddr = cfg.Server.QUICAddr ∧
      out.CUPS.Printer = cfg.CUPS.Printer ∧
      out.Edge = cfg.Edge ∧
      out.WireGuard.AllowedNetworks = cfg.WireGuard.AllowedNetworks := by
  refine ⟨_, Srvhub.loadConfig_of_parsed unmarshal h path p data cfg hp hr hu, ?_⟩
  simp only
  split_ifs <;> simp_all

/-- Witness for C9: the document that sets only `storage.path` to `/mnt/data`,
found as `config.yaml`, loads with the three other defaults and its own
storage path. -/
theorem loadConfig_applies_defaults_witness :
    (("" : String) = "" ∧ (Host.withConfig.stat "config.yaml").isOk = true ∧
      "config.yaml" = "config.yaml") ∧
    Host.withConfig.readFile "config.yaml" = .ok storageOnlyYaml ∧
    storageOnlyUnmarshal storageOnlyYaml = .ok { Config.zero with Storage := ⟨"/mnt/data"⟩ } ∧
    ∃ out, (Srvhub.loadConfig storageOnlyUnmarshal Host.withConfig "").1 = .ok out ∧
      out.Server.ListenAddr = "0.0.0.0:8080" ∧
      out.Storage.Path = "/mnt/data" ∧
      out.CUPS.URL = "http://localhost:631" ∧
      out.WireGuard.Interface = "wg0" ∧
      out.Server.QUICAddr = "" ∧
      out.CUPS.Printer = "" ∧
      out.Edge = ⟨"", "", ""⟩ ∧
      out.WireGuard.AllowedNetworks = [] := by
  have hp : (("" : String) = "" ∧ (Host.withConfig.stat "config.yaml").isOk = true ∧
      "config.yaml" = "config.yaml") := ⟨rfl, rfl, rfl⟩
  have hr : Host.withConfig.readFile "config.yaml" = .ok storageOnlyYaml := rfl
  have hu : storageOnlyUnmarshal storageOnlyYaml
      = .ok { Config.zero with Storage := ⟨"/mnt/data"⟩ } := rfl
  exact ⟨hp, hr, hu,
    loadConfig_applies_defaults storageOnlyUnmarshal Host.withConfig "" "config.yaml"
      storageOnlyYaml { Config.zero with Storage := ⟨"/mnt/data"⟩ } (Or.inr (Or.inl hp)) hr hu⟩

/-- C10: with an empty path argument `loadConfig` looks at `config.yaml` and,
if `os.Stat` finds it, reads it and nothing else; otherwise it looks at
`config.example.yaml` and, if `os.Stat` finds that, reads it and nothing else;
otherwise it fails with the "no config file found" error having read no file.
With a non-empty path argument its only call is the read of that path. In
each case that reads a file the result is that of loading the file by name. -/
theorem loadConfig_path_resolution (unmarshal : String → Except String Config) (h : Host)
    (path : String) :
    (path = "" → (h.stat "config.yaml").isOk = true →
      (Srvhub.loadConfig unmarshal h path).2
        = [.stat "config.yaml", .readFile "config.yaml"] ∧
      (Srvhub.loadConfig unmarshal h path).1
        = (Srvhub.loadConfig unmarshal h "config.yaml").1) ∧
    (path = "" → (h.stat "config.yaml").isOk = false →
      (h.stat "config.example.yaml").isOk = true →
      (Srvhub.loadConfig unmarshal h path).2
        = [.stat "config.yaml", .stat "config.example.yaml", .readFile "config.example.yaml"] ∧
      (Srvhub.loadConfig unmarshal h path).1
        = (Srvhub.loadConfig unmarshal h "config.example.yaml").1) ∧
    (path = "" → (h.stat "config.yaml").isOk = false →
      (h.stat "config.example.yaml").isOk = false →
      (Srvhub.loadConfig unmarshal h path).2
        = [.stat "config.yaml", .stat "config.example.yaml"] ∧
      (Srvhub.loadConfig unmarshal h path).1
        = .error "no config file found (tried config.yaml and config.example.yaml)") ∧
    (path ≠ "" → (Srvhub.loadConfig unmarshal h path).2 = [.readFile path]) := by
  have hy : ("config.yaml" : String) ≠ "" := by decide
  have he : ("config.example.yaml" : String) ≠ "" := by decide
  refine ⟨?_, ?_, ?_, ?_⟩
  · rintro rfl h1
    cases hs : h.stat "config.yaml" <;> simp [hs, StatResult.isOk] at h1
    cases hr : h.readFile "config.yaml" with
    | error e => simp [Srvhub.loadConfig, hs, hr]
    | ok data => cases hu : unmarshal data <;> simp [Srvhub.loadConfig, hs, hr, hu]
  · rintro rfl h1 h2
    cases hx : h.stat "config.example.yaml" <;> simp [hx, StatResult.isOk] at h2
    cases hs : h.stat "config.yaml" <;> simp [hs, StatResult.isOk] at h1 <;>
    cases hr : h.readFile "config.example.yaml" with
    | error e => simp [Srvhub.loadConfig, hs, hx, hr]
    | ok data => cases hu : unmarshal data <;> simp [Srvhub.loadConfig, hs, hx, hr, hu]
  · rintro rfl h1 h2
    cases hs : h.stat "config.yaml" <;> simp [hs, StatResult.isOk] at h1 <;>
    cases hx : h.stat "config.example.yaml" <;> simp [hx, StatResult.isOk] at h2 <;>
    simp [Srvhub.loadConfig, hs, hx]
  · intro hne
    cases hr : h.readFile path with
    | error e => simp [Srvhub.loadConfig, hne, hr]
    | ok data => cases hu : unmarshal data <;> simp [Srvhub.loadConfig, hne, hr, hu]

/-- Witness for C10: the four cases on example hosts. -/
theorem loadConfig_path_resolution_witness :
    (Srvhub.loadConfig storageOnlyUnmarshal Host.withConfig "").2
      = [.stat "config.yaml", .readFile "config.yaml"] ∧
    (Srvhub.loadConfig storageOnlyUnmarshal Host.withExample "").2
      = [.stat "config.yaml", .stat "config.example.yaml", .readFile "config.example.yaml"] ∧
    (Srvhub.loadConfig storageOnlyUnmarshal Host.bare "").2
      = [.stat "config.yaml", .stat "config.example.yaml"] ∧
    (Srvhub.loadConfig storageOnlyUnmarshal Host.bare "").1
      = .error "no config file found (tried config.yaml and config.example.yaml)" ∧
    (Srvhub.loadConfig storageOnlyUnmarshal Host.withExample "/etc/ctrlsrv.yaml").2
      = [.readFile "/etc/ctrlsrv.yaml"] :=
  ⟨((loadConfig_path_resolution storageOnlyUnmarshal Host.withConfig "").1 rfl rfl).1,
    ((loadConfig_path_resolution storageOnlyUnmarshal Host.withExample "").2.1 rfl rfl rfl).1,
    ((loadConfig_path_resolution storageOnlyUnmarshal Host.bare "").2.2.1 rfl rfl rfl).1,
    ((loadConfig_path_resolution storageOnlyUnmarshal Host.bare "").2.2.1 rfl rfl rfl).2,
    (loadConfig_path_resolution storageOnlyUnmarshal Host.withExample "/etc/ctrlsrv.yaml").2.2.2
      (by decide)⟩

/-! ## Validation of the configuration -/

/-- C11, refuted on two inputs. With `/srv` a regular file the storage path
`/srv/storage1` is set and names no file, `os.Stat` failing with `ENOTDIR`,
and `Validate` returns no error. With an Edge endpoint configured and empty
TLS paths, which `os.Stat` reports missing, `Validate` returns no error and
inspects the storage path only. -/
theorem Validate_passes_on_missing_files :
    (Config.defaults.Storage.Path ≠ "" ∧
      Host.notDir.stat Config.defaults.Storage.Path
        = .failure "stat /srv/storage1: not a directory" ∧
      (Host.notDir.stat Config.defaults.Storage.Path).isOk = false ∧
      Srvhub.Validate Config.defaults Host.notDir = (none, [.stat "/srv/storage1"])) ∧
    (Config.edgeNoFiles.Edge.Endpoint ≠ "" ∧
      Host.demo.stat Config.edgeNoFiles.Edge.TLSCert = .notExist ∧
      Host.demo.stat Config.edgeNoFiles.Edge.TLSKey = .notExist ∧
      Srvhub.Validate Config.edgeNoFiles Host.demo = (none, [.stat "/srv/storage1"])) := by
  decide

/-- C11, amended: `Validate` returns an error exactly when the storage path is
set and `os.Stat` reports it missing (an error for which `os.IsNotExist`
holds), or an Edge endpoint is configured and the path of the TLS certificate
or of the TLS key is not empty and reported missing; otherwise it returns no
error, also when `os.Stat` fails with another error and when a TLS path is
empty. With an empty Edge endpoint the only file inspected is the storage
path. -/
theorem Validate_fails_iff (c : Config) (h : Host) :
    ((Srvhub.Validate c h).1 ≠ none ↔
      (c.Storage.Path ≠ "" ∧ h.stat c.Storage.Path = .notExist) ∨
      (c.Edge.Endpoint ≠ "" ∧
        ((c.Edge.TLSCert ≠ "" ∧ h.stat c.Edge.TLSCert = .notExist) ∨
          (c.Edge.TLSKey ≠ "" ∧ h.stat c.Edge.TLSKey = .notExist)))) ∧
    (c.Storage.Path ≠ "" → h.stat c.Storage.Path = .notExist →
      Srvhub.Validate c h
        = (some ("storage path does not exist: " ++ c.Storage.Path), [.stat c.Storage.Path])) ∧
    (c.Edge.Endpoint = "" →
      (Srvhub.Validate c h).2 = if c.Storage.Path ≠ "" then [.stat c.Storage.Path] else []) := by
  refine ⟨?_, ?_, ?_⟩
  · unfold Srvhub.Validate
    by_cases hp : c.Storage.Path = "" <;> by_cases he : c.Edge.Endpoint = "" <;>
      by_cases hc : c.Edge.TLSCert = "" <;> by_cases hk : c.Edge.TLSKey = "" <;>
      cases hs : h.stat c.Storage.Path <;> cases hsc : h.stat c.Edge.TLSCert <;>
      cases hsk : h.stat c.Edge.TLSKey <;> simp_all
  · intro hp hs
    simp [Srvhub.Validate, hp, hs]
  · intro he
    unfold Srvhub.Validate
    by_cases hp : c.Storage.Path = "" <;> cases hs : h.stat c.Storage.Path <;> simp_all

/-- Witness for C11: with an Edge endpoint and a certificate in place,
`Validate` fails on the missing key after having inspected the storage path
and the certificate; the default configuration, whose Edge endpoint is empty,
fails on the host without storage and passes on the example host, where only
the storage path is inspected; and it passes where `os.Stat` of the storage
path fails with `ENOTDIR`. -/
theorem Validate_fails_iff_witness :
    (Config.withEdge.Edge.Endpoint ≠ "" ∧ Config.withEdge.Edge.TLSKey ≠ "" ∧
      Host.certOnly.stat Config.withEdge.Edge.TLSKey = .notExist ∧
      (Srvhub.Validate Config.withEdge Host.certOnly).1 ≠ none ∧
      Srvhub.Validate Config.withEdge Host.certOnly
        = (some "TLS key not found: /etc/ctrlsrv/edge.key",
          [.stat "/srv/storage1", .stat "/etc/ctrlsrv/edge.crt", .stat "/etc/ctrlsrv/edge.key"])) ∧
    (Config.withEdge.Edge.TLSCert ≠ "" ∧
      Host.demo.stat Config.withEdge.Edge.TLSCert = .notExist ∧
      (Srvhub.Validate Config.withEdge Host.demo).1 ≠ none ∧
      Srvhub.Validate Config.withEdge Host.demo
        = (some "TLS cert not found: /etc/ctrlsrv/edge.crt",
          [.stat "/srv/storage1", .stat "/etc/ctrlsrv/edge.crt"])) ∧
    (Config.defaults.Storage.Path ≠ "" ∧
      Host.bare.stat Config.defaults.Storage.Path = .notExist ∧
      Config.defaults.Edge.Endpoint = "" ∧
      Srvhub.Validate Config.defaults Host.bare
        = (some "storage path does not exist: /srv/storage1", [.stat "/srv/storage1"])) ∧
    (Srvhub.Validate Config.defaults Host.demo).2 = [.stat "/srv/storage1"] ∧
    (Srvhub.Validate Config.defaults Host.notDir).1 = none :=
  ⟨⟨by decide, by decide, rfl,
      (Validate_fails_iff Config.withEdge Host.certOnly).1.2
        (Or.inr ⟨by decide, Or.inr ⟨by decide, rfl⟩⟩),
      by decide⟩,
    ⟨by decide, rfl,
      (Validate_fails_iff Config.withEdge Host.demo).1.2
        (Or.inr ⟨by decide, Or.inl ⟨by decide, rfl⟩⟩),
      by decide⟩,
    ⟨by decide, rfl, rfl, (Validate_fails_iff Config.defaults Host.bare).2.1 (by decide) rfl⟩,
    (Validate_fails_iff Config.defaults Host.demo).2.2 rfl,
    not_not.1 (fun hne =>
      ((Validate_fails_iff Config.defaults Host.notDir).1.1 hne).elim
        (fun hst => absurd hst.2 (by decide))
        (fun hed => absurd rfl hed.1))⟩

/-! ## The storage check -/

/-- The two copies of `isMountpoint` are the same function. -/
theorem Srvhub.isMountpoint_eq (h : Host) (path : String) :
    Srvhub.isMountpoint h path = Ctrlsrvd.isMountpoint h path := rfl

/-- The two copies of `checkStorage` are the same function. -/
theorem Srvhub.checkStorage_eq (h : Host) (path : String) :
    Srvhub.checkStorage h path = Ctrlsrvd.checkStorage h path := rfl

/-- The calls of `isMountpoint` create and remove no file. -/
theorem Ctrlsrvd.isMountpoint_filesAfter (h : Host) (path : String) (files : List String) :
    h.filesAfter files (Ctrlsrvd.isMountpoint h path).2 = files := by
  cases he : (h.exec ["mountpoint", "-q", path]).err with
  | none => simp [Ctrlsrvd.isMountpoint, he, Host.filesAfter, Host.step]
  | some e =>
    cases hs : h.stat path with
    | notExist => simp [Ctrlsrvd.isMountpoint, he, hs, Host.filesAfter, Host.step]
    | failure m => simp [Ctrlsrvd.isMountpoint, he, hs, Host.filesAfter, Host.step]
    | info d v =>
      cases hp : h.stat (path ++ "/..") <;>
        simp [Ctrlsrvd.isMountpoint, he, hs, hp, Host.filesAfter, Host.step]

/-- The files left by a trace made of two parts. -/
theorem Host.filesAfter_append (h : Host) (files : List String) (t1 t2 : Trace) :
    h.filesAfter files (t1 ++ t2) = h.filesAfter (h.filesAfter files t1) t2 := by
  simp [Host.filesAfter, List.foldl_append]

/-- C12: in both daemons `checkStorage` runs the existence, directory,
mountpoint and writability checks in that order and stops at the first that
fails: a missing path gives the "does not exist" error (any other `os.Stat`
failure the "cannot access" error) after the one `os.Stat`; a path that is not
a directory gives "not a directory" without any further call; a directory for
which `isMountpoint` is false gives "not mounted" after the calls of
`isMountpoint`; a failed write of the marker gives "not writable" after the
write; and there is no error exactly when all four checks pass. -/
theorem checkStorage_first_failure (h : Host) (path : String) :
    Srvhub.checkStorage h path = Ctrlsrvd.checkStorage h path ∧
    Srvhub.isMountpoint h path = Ctrlsrvd.isMountpoint h path ∧
    (h.stat path = .notExist →
      Ctrlsrvd.checkStorage h path
        = (some ("storage path does not exist: " ++ path), [.stat path])) ∧
    (∀ msg, h.stat path = .failure msg →
      Ctrlsrvd.checkStorage h path
        = (some ("cannot access storage path: " ++ msg), [.stat path])) ∧
    (∀ dev, h.stat path = .info false dev →
      Ctrlsrvd.checkStorage h path
        = (some ("storage path is not a directory: " ++ path), [.stat path])) ∧
    (∀ dev, h.stat path = .info true dev → (Ctrlsrvd.isMountpoint h path).1 = false →
      Ctrlsrvd.checkStorage h path
        = (some ("storage path is not mounted: " ++ path),
            .stat path :: (Ctrlsrvd.isMountpoint h path).2)) ∧
    (∀ dev err, h.stat path = .info true dev → (Ctrlsrvd.isMountpoint h path).1 = true →
      (h.writeFile (path ++ "/.ctrlsrv-test") = .failedClean err ∨
        h.writeFile (path ++ "/.ctrlsrv-test") = .failedLeft err) →
      Ctrlsrvd.checkStorage h path
        = (some ("storage path is not writable: " ++ err),
            .stat path :: (Ctrlsrvd.isMountpoint h path).2
              ++ [.writeFile (path ++ "/.ctrlsrv-test") "test"])) ∧
    (∀ dev, h.stat path = .info true dev → (Ctrlsrvd.isMountpoint h path).1 = true →
      h.writeFile (path ++ "/.ctrlsrv-test") = .written →
      Ctrlsrvd.checkStorage h path
        = (none, .stat path :: (Ctrlsrvd.isMountpoint h path).2
              ++ [.writeFile (path ++ "/.ctrlsrv-test") "test",
                .remove (path ++ "/.ctrlsrv-test")])) ∧
    ((Ctrlsrvd.checkStorage h path).1 = none ↔
      (∃ dev, h.stat path = .info true dev) ∧ (Ctrlsrvd.isMountpoint h path).1 = true ∧
        h.writeFile (path ++ "/.ctrlsrv-test") = .written) := by
  refine ⟨rfl, rfl, ?_, ?_, ?_, ?_, ?_, ?_, ?_⟩
  · intro hs
    simp [Ctrlsrvd.checkStorage, hs]
  · intro msg hs
    simp [Ctrlsrvd.checkStorage, hs]
  · intro dev hs
    simp [Ctrlsrvd.checkStorage, hs]
  · intro dev hs hm
    rcases hmp : Ctrlsrvd.isMountpoint h path with ⟨m, t⟩
    rw [hmp] at hm
    simp only at hm
    subst hm
    simp [Ctrlsrvd.checkStorage, hs, hmp]
  · intro dev err hs hm hw
    rcases hmp : Ctrlsrvd.isMountpoint h path with ⟨m, t⟩
    rw [hmp] at hm
    simp only at hm
    subst hm
    rcases hw with hw | hw <;> simp [Ctrlsrvd.checkStorage, hs, hmp, hw]
  · intro dev hs hm hw
    rcases hmp : Ctrlsrvd.isMountpoint h path with ⟨m, t⟩
    rw [hmp] at hm
    simp only at hm
    subst hm
    simp [Ctrlsrvd.checkStorage, hs, hmp, hw]
  · unfold Ctrlsrvd.checkStorage
    rcases hmp : Ctrlsrvd.isMountpoint h path with ⟨m, t⟩
    cases hs : h.stat path with
    | notExist => simp
    | failure msg => simp
    | info d v =>
      cases d <;> cases m <;> cases hw : h.writeFile (path ++ "/.ctrlsrv-test") <;> simp [hw]

/-- Witness for C12: on the host without storage the check stops at the
missing path; on the example host all four checks pass, in order. -/
theorem checkStorage_first_failure_witness :
    Host.bare.stat "/srv/storage1" = .notExist ∧
    Ctrlsrvd.checkStorage Host.bare "/srv/storage1"
      = (some "storage path does not exist: /srv/storage1", [.stat "/srv/storage1"]) ∧
    Host.demo.stat "/srv/storage1" = .info true 2 ∧
    (Ctrlsrvd.isMountpoint Host.demo "/srv/storage1").1 = true ∧
    Host.demo.writeFile "/srv/storage1/.ctrlsrv-test" = .written ∧
    Ctrlsrvd.checkStorage Host.demo "/srv/storage1"
      = (none, [.stat "/srv/storage1", .exec ["mountpoint", "-q", "/srv/storage1"],
          .writeFile "/srv/storage1/.ctrlsrv-test" "test",
          .remove "/srv/storage1/.ctrlsrv-test"]) :=
  ⟨rfl, (checkStorage_first_failure Host.bare "/srv/storage1").2.2.1 rfl, rfl, by decide, rfl,
    (checkStorage_first_failure Host.demo "/srv/storage1").2.2.2.2.2.2.2.1 2 rfl (by decide) rfl⟩

/-- The files left by the empty trace. -/
theorem Host.filesAfter_nil (h : Host) (files : List String) : h.filesAfter files [] = files :=
  rfl

/-- The files left by a trace, call by call. -/
theorem Host.filesAfter_cons (h : Host) (files : List String) (c : OsCall) (t : Trace) :
    h.filesAfter files (c :: t) = h.filesAfter (h.step files c) t := rfl

/-- The files `checkStorage` leaves behind, from any set of files: none of
its own on a failure before the write or at the opening of the marker; the
marker when the write fails after creating it; and after a successful write,
the marker unless `os.Remove` succeeds. -/
theorem Ctrlsrvd.checkStorage_filesAfter (h : Host) (path : String) (files : List String) :
    h.filesAfter files (Ctrlsrvd.checkStorage h path).2 =
      match h.stat path with
      | .info true _ =>
        if (Ctrlsrvd.isMountpoint h path).1 then
          match h.writeFile (path ++ "/.ctrlsrv-test") with
          | .failedClean _ => files
          | .failedLeft _ => (path ++ "/.ctrlsrv-test") :: files
          | .written =>
            if h.removeOk (path ++ "/.ctrlsrv-test") then
              ((path ++ "/.ctrlsrv-test") :: files).filter (fun f => f != path ++ "/.ctrlsrv-test")
            else (path ++ "/.ctrlsrv-test") :: files
        else files
      | _ => files := by
  have hm := Ctrlsrvd.isMountpoint_filesAfter h path files
  unfold Ctrlsrvd.checkStorage
  rcases hmp : Ctrlsrvd.isMountpoint h path with ⟨m, t⟩
  rw [hmp] at hm
  simp only at hm
  cases hs : h.stat path with
  | notExist => simp [Host.filesAfter, Host.step]
  | failure msg => simp [Host.filesAfter, Host.step]
  | info d v =>
    cases d with
    | false => simp [Host.filesAfter, Host.step]
    | true =>
      cases m with
      | false => simp [Host.filesAfter_cons, Host.step, hm]
      | true =>
        cases hw : h.writeFile (path ++ "/.ctrlsrv-test") <;>
          simp [Host.filesAfter_cons, Host.filesAfter_append, Host.filesAfter_nil, Host.step, hm, hw]

/-- C13, refuted where `os.Remove` fails: the check succeeds in both daemons
and the marker it wrote is still there. -/
theorem checkStorage_marker_left_when_remove_fails :
    (Ctrlsrvd.checkStorage Host.stuck "/srv/storage1").1 = none ∧
    Host.stuck.filesAfter [] (Ctrlsrvd.checkStorage Host.stuck "/srv/storage1").2
      = ["/srv/storage1/.ctrlsrv-test"] ∧
    (Srvhub.checkStorage Host.stuck "/srv/storage1").1 = none ∧
    Host.stuck.filesAfter [] (Srvhub.checkStorage Host.stuck "/srv/storage1").2
      = ["/srv/storage1/.ctrlsrv-test"] := by
  decide

/-- What `checkStorage` does when the write of the marker fails after creating
the file: it returns the "not writable" error and makes no call to remove the
file. -/
theorem checkStorage_on_full_disk :
    Ctrlsrvd.checkStorage Host.full "/srv/storage1"
      = (some "storage path is not writable: no space left on device",
          [.stat "/srv/storage1", .exec ["mountpoint", "-q", "/srv/storage1"],
            .writeFile "/srv/storage1/.ctrlsrv-test" "test"]) ∧
    Host.full.filesAfter [] (Ctrlsrvd.checkStorage Host.full "/srv/storage1").2
      = ["/srv/storage1/.ctrlsrv-test"] := by
  decide

/-- C13, amended: in both daemons, for every path and host on which
`os.Remove` of the marker succeeds and `os.WriteFile` does not fail after
having created the file, no file written by `checkStorage` remains when it
returns, with success or with any error; and when the check succeeds on a
host on which `os.Remove` fails, the marker remains. -/
theorem checkStorage_marker_removed (h : Host) (path : String) :
    (h.removeOk (path ++ "/.ctrlsrv-test") = true →
      (∀ e, h.writeFile (path ++ "/.ctrlsrv-test") ≠ .failedLeft e) →
      h.filesAfter [] (Ctrlsrvd.checkStorage h path).2 = [] ∧
      h.filesAfter [] (Srvhub.checkStorage h path).2 = []) ∧
    ((Ctrlsrvd.checkStorage h path).1 = none →
      h.removeOk (path ++ "/.ctrlsrv-test") = false →
      h.filesAfter [] (Ctrlsrvd.checkStorage h path).2 = [path ++ "/.ctrlsrv-test"] ∧
      h.filesAfter [] (Srvhub.checkStorage h path).2 = [path ++ "/.ctrlsrv-test"]) := by
  have key := Ctrlsrvd.checkStorage_filesAfter h path []
  constructor
  · intro hr hw
    rw [Srvhub.checkStorage_eq, and_self, key]
    cases hs : h.stat path with
    | notExist => rfl
    | failure m => rfl
    | info d v =>
      cases d with
      | false => rfl
      | true =>
        cases hm : (Ctrlsrvd.isMountpoint h path).1 with
        | false => simp
        | true =>
          cases hx : h.writeFile (path ++ "/.ctrlsrv-test") with
          | failedClean e => simp
          | failedLeft e => exact absurd hx (hw e)
          | written => simp [hr]
  · intro hok hr
    rw [Srvhub.checkStorage_eq, and_self, key]
    unfold Ctrlsrvd.checkStorage at hok
    rcases hmp : Ctrlsrvd.isMountpoint h path with ⟨m, t⟩
    rw [hmp] at hok
    cases hs : h.stat path with
    | notExist => simp [hs] at hok
    | failure msg => simp [hs] at hok
    | info d v =>
      cases d with
      | false => simp [hs] at hok
      | true =>
        cases m with
        | false => simp [hs] at hok
        | true =>
          cases hx : h.writeFile (path ++ "/.ctrlsrv-test") with
          | failedClean e => simp [hs, hx] at hok
          | failedLeft e => simp [hs, hx] at hok
          | written => simp [hr]

/-- Witness for C13: on the example host nothing is left; on the host where
removal fails the marker is. -/
theorem checkStorage_marker_removed_witness :
    Host.demo.removeOk ("/srv/storage1" ++ "/.ctrlsrv-test") = true ∧
    (∀ e, Host.demo.writeFile ("/srv/storage1" ++ "/.ctrlsrv-test") ≠ .failedLeft e) ∧
    Host.demo.filesAfter [] (Ctrlsrvd.checkStorage Host.demo "/srv/storage1").2 = [] ∧
    Host.demo.filesAfter [] (Srvhub.checkStorage Host.demo "/srv/storage1").2 = [] ∧
    (Ctrlsrvd.checkStorage Host.stuck "/srv/storage1").1 = none ∧
    Host.stuck.removeOk ("/srv/storage1" ++ "/.ctrlsrv-test") = false ∧
    Host.stuck.filesAfter [] (Ctrlsrvd.checkStorage Host.stuck "/srv/storage1").2
      = ["/srv/storage1" ++ "/.ctrlsrv-test"] := by
  have hw : ∀ e, Host.demo.writeFile ("/srv/storage1" ++ "/.ctrlsrv-test") ≠ .failedLeft e := by
    intro e hx
    exact WriteResult.noConfusion hx
  have hok : (Ctrlsrvd.checkStorage Host.stuck "/srv/storage1").1 = none := by decide
  have a := (checkStorage_marker_removed Host.demo "/srv/storage1").1 rfl hw
  have b := (checkStorage_marker_removed Host.stuck "/srv/storage1").2 hok rfl
  exact ⟨rfl, hw, a.1, a.2, hok, rfl, b.1⟩

/-! ## The rendering of byte counts -/

/-- The loop of `formatBytes` on a loop variable `n` with
`1024^k ≤ n < 1024^(k+1)` (just `n < 1024` for `k = 0`): it runs `k` times,
whatever the bound on iterations at least `n`, and ends with `div * 1024^k`
(as a `uint64`) and `exp + k`. -/
theorem formatBytesLoop_exact (k : Nat) :
    ∀ fuel n div exp, n ≤ fuel → div < two64 → (k = 0 ∨ 1024 ^ k ≤ n) → n < 1024 ^ (k + 1) →
      formatBytesLoop fuel n div exp = (div * 1024 ^ k % two64, exp + k) := by
  induction k with
  | zero =>
    intro fuel n div exp _ hd _ hn
    have hn2 : ¬ n ≥ 1024 := by simpa using hn
    cases fuel with
    | zero => simp [formatBytesLoop, Nat.mod_eq_of_lt hd]
    | succ f => simp [formatBytesLoop, hn2, Nat.mod_eq_of_lt hd]
  | succ k ih =>
    intro fuel n div exp hf hd hlo hhi
    have hlo2 : 1024 ^ (k + 1) ≤ n := by
      rcases hlo with h0 | h0
      · exact absurd h0 (Nat.succ_ne_zero k)
      · exact h0
    have h1024 : 1024 ≤ n := by
      calc 1024 = 1024 ^ 1 := by norm_num
        _ ≤ 1024 ^ (k + 1) := Nat.pow_le_pow_right (by norm_num) (by omega)
        _ ≤ n := hlo2
    cases fuel with
    | zero => omega
    | succ f =>
      have hdiv : n / 1024 ≤ f := by omega
      have hk : k = 0 ∨ 1024 ^ k ≤ n / 1024 := by
        right
        rw [Nat.le_div_iff_mul_le (by norm_num)]
        calc 1024 ^ k * 1024 = 1024 ^ (k + 1) := by ring
          _ ≤ n := hlo2
      have hhi2 : n / 1024 < 1024 ^ (k + 1) := by
        rw [Nat.div_lt_iff_lt_mul (by norm_num)]
        calc n < 1024 ^ (k + 1 + 1) := hhi
          _ = 1024 ^ (k + 1) * 1024 := by ring
      have hm : mul64 div 1024 < two64 := Nat.mod_lt _ (by norm_num [two64])
      have := ih f (n / 1024) (mul64 div 1024) (exp + 1) hdiv hm hk hhi2
      simp only [formatBytesLoop, ge_iff_le, h1024, if_true, this]
      refine Prod.ext ?_ ?_
      · simp only [mul64, Nat.mod_mul_mod]
        congr 1
        ring
      · simp only
        omega

/-- The function `formatBytes` on a byte count `n` with
`1024^(k+1) ≤ n < 1024^(k+2)`, `k ≤ 5`: the quotient of `float64(n)` by
`float64(1024^(k+1))` with one decimal, and the `k`-th unit letter. -/
theorem formatBytes_of_range (n k : Nat) (c : Char) (hk : k ≤ 5)
    (hc : "KMGTPE".data.get? k = some c)
    (hlo : 1024 ^ (k + 1) ≤ n) (hhi : n < 1024 ^ (k + 2)) :
    formatBytes n = some (F64.format1 (F64.div (F64.ofUInt64 n) (F64.ofUInt64 (1024 ^ (k + 1))))
      ++ " " ++ String.singleton c ++ "iB") := by
  have h1024 : 1024 ≤ n := by
    calc 1024 = 1024 ^ 1 := by norm_num
      _ ≤ 1024 ^ (k + 1) := Nat.pow_le_pow_right (by norm_num) (by omega)
      _ ≤ n := hlo
  have hk1 : k = 0 ∨ 1024 ^ k ≤ n / 1024 := by
    right
    rw [Nat.le_div_iff_mul_le (by norm_num)]
    calc 1024 ^ k * 1024 = 1024 ^ (k + 1) := by ring
      _ ≤ n := hlo
  have hhi2 : n / 1024 < 1024 ^ (k + 1) := by
    rw [Nat.div_lt_iff_lt_mul (by norm_num)]
    calc n < 1024 ^ (k + 2) := hhi
      _ = 1024 ^ (k + 1) * 1024 := by ring
  have hloop := formatBytesLoop_exact k (n / 1024) (n / 1024) 1024 0 le_rfl
    (by norm_num [two64]) hk1 hhi2
  have hpow : 1024 * 1024 ^ k % two64 = 1024 ^ (k + 1) := by
    have : 1024 * 1024 ^ k = 1024 ^ (k + 1) := by ring
    rw [this]
    apply Nat.mod_eq_of_lt
    calc 1024 ^ (k + 1) ≤ 1024 ^ 6 := Nat.pow_le_pow_right (by norm_num) (by omega)
      _ < two64 := by norm_num [two64]
  unfold formatBytes
  rw [if_neg (by omega), hloop]
  simp only [hpow, Nat.zero_add, hc]

/-- Every 64-bit byte count of at least 1024 lies between two successive
powers of 1024, the lower one being `1024^(e+1)` for exactly one `e`, and
`e ≤ 5`. -/
theorem unit_exponent_exists (n : Nat) (h1 : 1024 ≤ n) (h2 : n < 2 ^ 64) :
    ∃ e, e ≤ 5 ∧ 1024 ^ (e + 1) ≤ n ∧ n < 1024 ^ (e + 2) ∧
      ∀ e2, 1024 ^ (e2 + 1) ≤ n → n < 1024 ^ (e2 + 2) → e2 = e := by
  have hn0 : n ≠ 0 := by omega
  have hpos : 0 < Nat.log 1024 n := Nat.log_pos (by norm_num) h1
  have hlt : Nat.log 1024 n < 7 :=
    Nat.log_lt_of_lt_pow hn0 (lt_trans h2 (by norm_num))
  refine ⟨Nat.log 1024 n - 1, by omega, ?_, ?_, ?_⟩
  · have : Nat.log 1024 n - 1 + 1 = Nat.log 1024 n := by omega
    rw [this]
    exact Nat.pow_log_le_self 1024 hn0
  · have : Nat.log 1024 n - 1 + 2 = (Nat.log 1024 n).succ := by omega
    rw [this]
    exact Nat.lt_pow_succ_log_self (by norm_num) n
  · intro e2 ha hb
    have := Nat.log_eq_of_pow_le_of_lt_pow ha hb
    omega

set_option maxRecDepth 100000 in
/-- The decimal digits that `toString` gives for a number below 1024 stand for
that number. -/
theorem decimalValue_toString (n : Nat) (hn : n < 1024) :
    decimalValue (toString n).data = some n := by
  revert n
  decide

/-- C17: in both daemons (one `formatBytes`, the same in both), every byte
count below 1024 is rendered as its decimal digits followed by ` B`. -/
theorem formatBytes_below_unit (n : Nat) (hn : n < 1024) :
    formatBytes n = some (toString n ++ " B") ∧
    decimalValue (toString n).data = some n := by
  constructor
  · simp [formatBytes, hn]
  · exact decimalValue_toString n hn

/-- Witness for C17: 0 and 1023 bytes. -/
theorem formatBytes_below_unit_witness :
    (0 < 1024 ∧ formatBytes 0 = some "0 B") ∧ (1023 < 1024 ∧ formatBytes 1023 = some "1023 B") :=
  ⟨⟨by decide, (formatBytes_below_unit 0 (by decide)).1⟩,
    ⟨by decide, (formatBytes_below_unit 1023 (by decide)).1⟩⟩

/-- C18, refuted at two byte counts above `2^53`. For `n = 9063494250083123`
the quotient `n / 1024^5` lies strictly between 7.95 and 8.05, so that with one
decimal place it is 8.0, and `formatBytes` prints `8.1 PiB`; for
`n = 9288674231451649` it lies strictly between 8.25 and 8.35, so that with
one decimal place it is 8.3, and `formatBytes` prints `8.2 PiB`. -/
theorem formatBytes_rounds_large_counts :
    (1024 ^ 5 ≤ 9063494250083123 ∧ 9063494250083123 < 1024 ^ 6 ∧
      159 * 1024 ^ 5 < 20 * 9063494250083123 ∧ 20 * 9063494250083123 < 161 * 1024 ^ 5 ∧
      formatBytes 9063494250083123 = some "8.1 PiB") ∧
    (1024 ^ 5 ≤ 9288674231451649 ∧ 9288674231451649 < 1024 ^ 6 ∧
      165 * 1024 ^ 5 < 20 * 9288674231451649 ∧ 20 * 9288674231451649 < 167 * 1024 ^ 5 ∧
      formatBytes 9288674231451649 = some "8.2 PiB") := by
  decide

/-- C18, amended: in both daemons, for every 64-bit byte count `n ≥ 1024`
there is exactly one `e` with `1024^(e+1) ≤ n < 1024^(e+2)`, it is at most 5,
and `formatBytes n` is `float64(n) / 1024^(e+1)` rendered with one decimal, a
space, the `e`-th letter of `KMGTPE` and `iB`. Here `float64(n)` has the
natural number `r` for its value, which is `n` itself for `n < 2^53` and at
most 1024 away from `n` above; the binary64 quotient `q` by `1024^(e+1)` is
exact, `r / 1024^(e+1)`; and its rendering shows the digits of the natural
number `t` nearest to `10 * r / 1024^(e+1)`, the even one at a tie, with the
point before the last digit. 1536 gives `1.5 KiB` and 1073741824 gives
`1.0 GiB`. -/
theorem formatBytes_binary_unit (n : Nat) (h1 : 1024 ≤ n) (h2 : n < 2 ^ 64) :
    (∃ (e : Nat) (c : Char) (r : Nat) (q : F64) (t : Nat),
      e ≤ 5 ∧ 1024 ^ (e + 1) ≤ n ∧ n < 1024 ^ (e + 2) ∧
      (∀ e2, 1024 ^ (e2 + 1) ≤ n → n < 1024 ^ (e2 + 2) → e2 = e) ∧
      "KMGTPE".data.get? e = some c ∧
      (F64.ofUInt64 n).toRat = some (r : ℚ) ∧ (n < 2 ^ 53 → r = n) ∧
      r ≤ n + 1024 ∧ n ≤ r + 1024 ∧
      q = F64.div (F64.ofUInt64 n) (F64.ofUInt64 (1024 ^ (e + 1))) ∧
      q.toRat = some ((r : ℚ) / (1024 : ℚ) ^ (e + 1)) ∧
      F64.format1 q = toString (t / 10) ++ "." ++ toString (t % 10) ∧
      |(t : ℚ) - 10 * ((r : ℚ) / (1024 : ℚ) ^ (e + 1))| ≤ 1 / 2 ∧
      (|(t : ℚ) - 10 * ((r : ℚ) / (1024 : ℚ) ^ (e + 1))| = 1 / 2 → t % 2 = 0) ∧
      formatBytes n = some (F64.format1 q ++ " " ++ String.singleton c ++ "iB")) ∧
    formatBytes 1536 = some "1.5 KiB" ∧ formatBytes 1073741824 = some "1.0 GiB" := by
  refine ⟨?_, by decide, by decide⟩
  obtain ⟨e, he, hlo, hhi, huniq⟩ := unit_exponent_exists n h1 h2
  have hc : ∃ c, "KMGTPE".data.get? e = some c := by
    have : e < "KMGTPE".data.length := by
      have : "KMGTPE".data.length = 6 := by decide
      omega
    exact ⟨"KMGTPE".data.get ⟨e, this⟩, List.get?_eq_get this⟩
  obtain ⟨c, hc⟩ := hc
  obtain ⟨M, X, r, hof, hM1, hM2, hX1, hX2, hval, hexact, hb1, hb2⟩ :=
    F64.ofUInt64_value n (by omega) h2
  have hdiv : F64.div (F64.ofUInt64 n) (F64.ofUInt64 (1024 ^ (e + 1)))
      = .fin M (X - ((10 * (e + 1) : Nat) : Int)) := by
    rw [hof, F64.ofUInt64_unit e he]
    exact F64.div_pow2 M X (10 * (e + 1)) hM1 hM2 hX1 hX2 (by omega)
  have hq : (M : ℚ) * (2 : ℚ) ^ (X - ((10 * (e + 1) : Nat) : Int))
      = (r : ℚ) / (1024 : ℚ) ^ (e + 1) := by
    rw [zpow_sub₀ (by norm_num), zpow_natCast, ← hval, pow_mul]
    norm_num
    ring
  obtain ⟨t, ht, hnear, htie⟩ := F64.format1_nearest M (X - ((10 * (e + 1) : Nat) : Int))
  rw [hq] at hnear htie
  refine ⟨e, c, r, _, t, he, hlo, hhi, huniq, hc, ?_, hexact, hb1, hb2, rfl, ?_, ?_, hnear, htie,
    formatBytes_of_range n e c he hc hlo hhi⟩
  · rw [hof]
    simp only [F64.toRat, hval]
  · rw [hdiv]
    simp only [F64.toRat, hq]
  · rw [hdiv]
    exact ht

/-- Witness for C18: one and a half kibibytes, where `float64(n)` is `n` and
the printed digits are those of 15. -/
theorem formatBytes_binary_unit_witness :
    1024 ≤ 1536 ∧ 1536 < 2 ^ 64 ∧
    ∃ (e : Nat) (c : Char) (q : F64) (t : Nat),
      1024 ^ (e + 1) ≤ 1536 ∧ 1536 < 1024 ^ (e + 2) ∧ "KMGTPE".data.get? e = some c ∧
      q = F64.div (F64.ofUInt64 1536) (F64.ofUInt64 (1024 ^ (e + 1))) ∧
      q.toRat = some ((1536 : ℚ) / (1024 : ℚ) ^ (e + 1)) ∧
      F64.format1 q = toString (t / 10) ++ "." ++ toString (t % 10) ∧
      |(t : ℚ) - 10 * ((1536 : ℚ) / (1024 : ℚ) ^ (e + 1))| ≤ 1 / 2 ∧
      formatBytes 1536 = some (F64.format1 q ++ " " ++ String.singleton c ++ "iB") ∧
      formatBytes 1536 = some "1.5 KiB" := by
  obtain ⟨⟨e, c, r, q, t, _, hlo, hhi, _, hc, _, hexact, _, _, hq, hv, hf, hnear, _, hfb⟩, h15, _⟩ :=
    formatBytes_binary_unit 1536 (by decide) (by decide)
  have hr : r = 1536 := hexact (by decide)
  subst hr
  exact ⟨by decide, by decide, e, c, q, t, hlo, hhi, hc, hq, by simpa using hv, hf,
    by simpa using hnear, hfb, h15⟩

/-! ## The comprehensive storage health check -/

/-- The function `formatBytes` returns a string for every 64-bit byte
count. -/
theorem formatBytes_isSome (n : Nat) (hn : n < 2 ^ 64) : ∃ s, formatBytes n = some s := by
  by_cases h : n < 1024
  · exact ⟨toString n ++ " B", by simp [formatBytes, h]⟩
  · obtain ⟨e, he, hlo, hhi, _⟩ := unit_exponent_exists n (by omega) hn
    have hlen : e < "KMGTPE".data.length := by
      have : "KMGTPE".data.length = 6 := by decide
      omega
    exact ⟨_, formatBytes_of_range n e _ he (List.get?_eq_get hlen) hlo hhi⟩

/-- A product of two `uint64` is a `uint64`. -/
theorem mul64_lt (a b : Nat) : mul64 a b < 2 ^ 64 := Nat.mod_lt _ (by norm_num [two64])

/-- A difference of two `uint64` is a `uint64`. -/
theorem sub64_lt (a b : Nat) : sub64 a b < 2 ^ 64 := Nat.mod_lt _ (by norm_num [two64])

/-- A value that is at most another does not exceed it. -/
theorem F64.gt_eq_false_of_le (a b : F64) (h : F64.le a b = true) : F64.gt a b = false := by
  cases a <;> cases b <;> simp_all [F64.le, F64.gt]

/-- The disk-usage step of `checkStorageHealth` when `statfs` succeeds: its
one call, and the flag and issue that the used percentage decides. -/
theorem Srvhub.checkDiskUsage_of_statfs (h : Host) (path : String) (stat : Statfs_t)
    (hs : h.statfs path = .ok stat) :
    ∃ u t,
      formatBytes (sub64 (mul64 stat.Blocks (uint64OfInt64 stat.Bsize))
        (mul64 stat.Bfree (uint64OfInt64 stat.Bsize))) = some u ∧
      formatBytes (mul64 stat.Blocks (uint64OfInt64 stat.Bsize)) = some t ∧
      Srvhub.checkDiskUsage h path =
        (some
          (if F64.gt (F64.mul (F64.div
                (F64.ofUInt64 (sub64 (mul64 stat.Blocks (uint64OfInt64 stat.Bsize))
                  (mul64 stat.Bfree (uint64OfInt64 stat.Bsize))))
                (F64.ofUInt64 (mul64 stat.Blocks (uint64OfInt64 stat.Bsize)))) F64.hundred)
              F64.ninety then
            (false, ["Disk usage critical: " ++ (F64.mul (F64.div
                (F64.ofUInt64 (sub64 (mul64 stat.Blocks (uint64OfInt64 stat.Bsize))
                  (mul64 stat.Bfree (uint64OfInt64 stat.Bsize))))
                (F64.ofUInt64 (mul64 stat.Blocks (uint64OfInt64 stat.Bsize)))) F64.hundred).format1
              ++ "% (" ++ u ++ " / " ++ t ++ ")"])
          else if F64.gt (F64.mul (F64.div
                (F64.ofUInt64 (sub64 (mul64 stat.Blocks (uint64OfInt64 stat.Bsize))
                  (mul64 stat.Bfree (uint64OfInt64 stat.Bsize))))
                (F64.ofUInt64 (mul64 stat.Blocks (uint64OfInt64 stat.Bsize)))) F64.hundred)
              F64.eighty then
            (true, ["Disk usage warning: " ++ (F64.mul (F64.div
                (F64.ofUInt64 (sub64 (mul64 stat.Blocks (uint64OfInt64 stat.Bsize))
                  (mul64 stat.Bfree (uint64OfInt64 stat.Bsize))))
                (F64.ofUInt64 (mul64 stat.Blocks (uint64OfInt64 stat.Bsize)))) F64.hundred).format1
              ++ "% (" ++ u ++ " / " ++ t ++ ")"])
          else (true, [])),
          [.statfs path]) := by
  obtain ⟨u, hu⟩ := formatBytes_isSome _ (sub64_lt (mul64 stat.Blocks (uint64OfInt64 stat.Bsize))
    (mul64 stat.Bfree (uint64OfInt64 stat.Bsize)))
  obtain ⟨t, ht⟩ := formatBytes_isSome _ (mul64_lt stat.Blocks (uint64OfInt64 stat.Bsize))
  refine ⟨u, t, hu, ht, ?_⟩
  simp only [Srvhub.checkDiskUsage, Srvhub.getStorageUsage, hs, hu, ht]
  split_ifs <;> rfl

/-- The disk-usage step of `checkStorageHealth` never panics. -/
theorem Srvhub.checkDiskUsage_isSome (h : Host) (path : String) :
    ∃ healthy issues, (Srvhub.checkDiskUsage h path).1 = some (healthy, issues) := by
  cases hs : h.statfs path with
  | error e =>
    exact ⟨true, ["Cannot get disk usage: " ++ e],
      by simp [Srvhub.checkDiskUsage, Srvhub.getStorageUsage, hs]⟩
  | ok stat =>
    obtain ⟨u, t, _, _, heq⟩ := Srvhub.checkDiskUsage_of_statfs h path stat hs
    rw [heq]
    exact ⟨_, _, rfl⟩

/-- A value above 90 is above 80. -/
theorem F64.gt_eighty_of_gt_ninety (a : F64) (h : F64.gt a F64.ninety = true) :
    F64.gt a F64.eighty = true := by
  have e90 : F64.ninety = F64.fin (90 * 2 ^ 46) (-46) := by decide
  have e80 : F64.eighty = F64.fin (80 * 2 ^ 46) (-46) := by decide
  rw [e90] at h
  rw [e80]
  cases a with
  | nan => simp [F64.gt] at h
  | inf => rfl
  | fin m e =>
    simp only [F64.gt, decide_eq_true_eq] at h ⊢
    have : 80 * 2 ^ 46 * 2 ^ (-46 - e).toNat ≤ 90 * 2 ^ 46 * 2 ^ (-46 - e).toNat :=
      Nat.mul_le_mul_right _ (by norm_num)
    exact lt_of_le_of_lt this h

/-- A value is not above 80 exactly when it is at most 80 or not a number. -/
theorem F64.gt_eighty_eq_false_iff (a : F64) :
    F64.gt a F64.eighty = false ↔ (F64.le a F64.eighty = true ∨ a = .nan) := by
  have e80 : F64.eighty = F64.fin (80 * 2 ^ 46) (-46) := by decide
  rw [e80]
  cases a with
  | nan => simp [F64.gt]
  | inf => simp [F64.gt, F64.le]
  | fin m e => simp [F64.gt, F64.le]

/-- The critical and the warning issue mention `critical` and `warning`. -/
theorem Contains_usage_issue (s : String) :
    Contains ("Disk usage critical: " ++ s) "critical" = true ∧
    Contains ("Disk usage warning: " ++ s) "warning" = true := by
  constructor <;> simp [Contains, String.data_append, containsChars, List.isPrefixOf]

/-- C14, refuted on a file system of `10 * 2^52` bytes of which `9 * 2^52 + 1`
are used: the path passes `checkStorage`, the usage query succeeds, there is
no SMART data, and the used percentage exceeds 90
(`100 * used > 90 * total`), yet `checkStorageHealth` returns healthy with a
warning, the binary64 percentage being exactly 90. -/
theorem checkStorageHealth_rounds_usage :
    (Srvhub.checkStorage Host.usageRounded "/srv/storage1").1 = none ∧
    (Srvhub.checkSMARTStatus Host.usageRounded "/srv/storage1").1 = "" ∧
    (Srvhub.getStorageUsage Host.usageRounded "/srv/storage1").1
      = (40532396646334465, 4503599627370495, 45035996273704960, none) ∧
    90 * 45035996273704960 < 100 * 40532396646334465 ∧
    (Srvhub.checkStorageHealth Host.usageRounded "/srv/storage1").1
      = some (true, ["Disk usage warning: 90.0% (36.0 PiB / 40.0 PiB)"]) := by
  decide

/-- C14, amended: for every path that passes `checkStorage`, whose `statfs`
query succeeds and for which `checkSMARTStatus` returns nothing, with
`usedPct` the binary64 value `float64(used) / float64(total) * 100`,
`checkStorageHealth` returns unhealthy with the one `Disk usage critical`
issue when `usedPct > 90`, healthy with the one `Disk usage warning` issue
when `usedPct > 80` but not `usedPct > 90`, and healthy with no issue
otherwise, that is when `usedPct ≤ 80` or `usedPct` is not a number, as it is
when `total` and `used` are both 0. The two issues mention `critical` and
`warning`. -/
theorem checkStorageHealth_usage_thresholds (h : Host) (path : String) (stat : Statfs_t)
    (used total : Nat) (usedPct : F64)
    (hc : (Srvhub.checkStorage h path).1 = none)
    (hs : h.statfs path = .ok stat)
    (hsm : (Srvhub.checkSMARTStatus h path).1 = "")
    (htotal : total = mul64 stat.Blocks (uint64OfInt64 stat.Bsize))
    (hused : used = sub64 total (mul64 stat.Bfree (uint64OfInt64 stat.Bsize)))
    (hpct : usedPct = F64.mul (F64.div (F64.ofUInt64 used) (F64.ofUInt64 total)) F64.hundred) :
    ∃ u t, formatBytes used = some u ∧ formatBytes total = some t ∧
      (F64.gt usedPct F64.ninety = true →
        (Srvhub.checkStorageHealth h path).1
          = some (false, ["Disk usage critical: " ++ usedPct.format1 ++ "% (" ++ u ++ " / " ++ t
              ++ ")"])) ∧
      (F64.gt usedPct F64.ninety = false → F64.gt usedPct F64.eighty = true →
        (Srvhub.checkStorageHealth h path).1
          = some (true, ["Disk usage warning: " ++ usedPct.format1 ++ "% (" ++ u ++ " / " ++ t
              ++ ")"])) ∧
      (F64.gt usedPct F64.eighty = false →
        (Srvhub.checkStorageHealth h path).1 = some (true, [])) ∧
      (F64.gt usedPct F64.eighty = false ↔
        (F64.le usedPct F64.eighty = true ∨ usedPct = .nan)) ∧
      (total = 0 → used = 0 → usedPct = .nan) ∧
      Contains ("Disk usage critical: " ++ usedPct.format1 ++ "% (" ++ u ++ " / " ++ t ++ ")")
        "critical" = true ∧
      Contains ("Disk usage warning: " ++ usedPct.format1 ++ "% (" ++ u ++ " / " ++ t ++ ")")
        "warning" = true := by
  have hnan : total = 0 → used = 0 → usedPct = .nan := by
    intro ht0 hu0
    rw [hpct, ht0, hu0]
    decide
  subst htotal hused hpct
  obtain ⟨u, t, hu, ht, heq⟩ := Srvhub.checkDiskUsage_of_statfs h path stat hs
  rcases hck : Srvhub.checkStorage h path with ⟨err, t1⟩
  rw [hck] at hc
  simp only at hc
  subst hc
  rcases hsmart : Srvhub.checkSMARTStatus h path with ⟨s, t3⟩
  rw [hsmart] at hsm
  simp only at hsm
  subst hsm
  refine ⟨u, t, hu, ht, ?_, ?_, ?_, F64.gt_eighty_eq_false_iff _, hnan, ?_, ?_⟩
  · intro h90
    simp [Srvhub.checkStorageHealth, hck, heq, hsmart, h90]
  · intro h90 h80
    simp [Srvhub.checkStorageHealth, hck, heq, hsmart, h90, h80]
  · intro h80
    have h90 : F64.gt (F64.mul (F64.div
        (F64.ofUInt64 (sub64 (mul64 stat.Blocks (uint64OfInt64 stat.Bsize))
          (mul64 stat.Bfree (uint64OfInt64 stat.Bsize))))
        (F64.ofUInt64 (mul64 stat.Blocks (uint64OfInt64 stat.Bsize)))) F64.hundred)
        F64.ninety = false := by
      by_contra hne
      have := F64.gt_eighty_of_gt_ninety _ (by simpa using hne)
      rw [h80] at this
      exact absurd this (by decide)
    simp [Srvhub.checkStorageHealth, hck, heq, hsmart, h90, h80]
  · simpa [String.append_assoc] using (Contains_usage_issue _).1
  · simpa [String.append_assoc] using (Contains_usage_issue _).2

/-- Witness for C14: 95 of 100 bytes used is unhealthy and critical, 85 of 100
healthy with a warning, 50 of 100 healthy without issue, and so is a file
system without blocks, whose percentage is not a number. -/
theorem checkStorageHealth_usage_thresholds_witness :
    ((Srvhub.checkStorage Host.usage95 "/srv/storage1").1 = none ∧
      (Srvhub.checkSMARTStatus Host.usage95 "/srv/storage1").1 = "" ∧
      (Srvhub.checkStorageHealth Host.usage95 "/srv/storage1").1
        = some (false, ["Disk usage critical: 95.0% (95 B / 100 B)"])) ∧
    ((Srvhub.checkStorage Host.usage85 "/srv/storage1").1 = none ∧
      (Srvhub.checkSMARTStatus Host.usage85 "/srv/storage1").1 = "" ∧
      (Srvhub.checkStorageHealth Host.usage85 "/srv/storage1").1
        = some (true, ["Disk usage warning: 85.0% (85 B / 100 B)"])) ∧
    ((Srvhub.checkStorage Host.usage50 "/srv/storage1").1 = none ∧
      (Srvhub.checkSMARTStatus Host.usage50 "/srv/storage1").1 = "" ∧
      (Srvhub.checkStorageHealth Host.usage50 "/srv/storage1").1 = some (true, [])) ∧
    ((Srvhub.checkStorage Host.emptyDisk "/srv/storage1").1 = none ∧
      (Srvhub.checkSMARTStatus Host.emptyDisk "/srv/storage1").1 = "" ∧
      F64.mul (F64.div (F64.ofUInt64 0) (F64.ofUInt64 0)) F64.hundred = .nan ∧
      (Srvhub.checkStorageHealth Host.emptyDisk "/srv/storage1").1 = some (true, [])) := by
  have f95 : formatBytes 95 = some "95 B" := by decide
  have f85 : formatBytes 85 = some "85 B" := by decide
  have f100 : formatBytes 100 = some "100 B" := by decide
  refine ⟨⟨by decide, by decide, ?_⟩, ⟨by decide, by decide, ?_⟩, ⟨by decide, by decide, ?_⟩,
    ⟨by decide, by decide, ?_⟩⟩
  · obtain ⟨u, t, hu, ht, hcrit, _⟩ :=
      checkStorageHealth_usage_thresholds Host.usage95 "/srv/storage1" ⟨100, 5, 1⟩ 95 100
        (F64.fin (95 * 2 ^ 46) (-46)) (by decide) rfl (by decide) (by decide) (by decide)
        (by decide)
    rw [f95] at hu
    rw [f100] at ht
    cases hu
    cases ht
    rw [hcrit (by decide)]
    decide
  · obtain ⟨u, t, hu, ht, _, hwarn, _⟩ :=
      checkStorageHealth_usage_thresholds Host.usage85 "/srv/storage1" ⟨100, 15, 1⟩ 85 100
        (F64.fin (85 * 2 ^ 46) (-46)) (by decide) rfl (by decide) (by decide) (by decide)
        (by decide)
    rw [f85] at hu
    rw [f100] at ht
    cases hu
    cases ht
    rw [hwarn (by decide) (by decide)]
    decide
  · obtain ⟨u, t, _, _, _, _, hfine, _⟩ :=
      checkStorageHealth_usage_thresholds Host.usage50 "/srv/storage1" ⟨100, 50, 1⟩ 50 100
        (F64.fin (50 * 2 ^ 47) (-47)) (by decide) rfl (by decide) (by decide) (by decide)
        (by decide)
    exact hfine (by decide)
  · obtain ⟨u, t, _, _, _, _, hfine, _, hnan, _⟩ :=
      checkStorageHealth_usage_thresholds Host.emptyDisk "/srv/storage1" ⟨0, 0, 4096⟩ 0 0
        (F64.mul (F64.div (F64.ofUInt64 0) (F64.ofUInt64 0)) F64.hundred)
        (by decide) rfl (by decide) (by decide) (by decide) rfl
    exact ⟨hnan rfl rfl, hfine (by decide)⟩

/-- The calls of `isMountpoint`: the `mountpoint` command and `os.Stat` of the
path and of its parent. -/
theorem Ctrlsrvd.isMountpoint_calls (h : Host) (path : String) :
    ∀ c ∈ (Ctrlsrvd.isMountpoint h path).2,
      c = .stat path ∨ c = .stat (path ++ "/..") ∨ c = .exec ["mountpoint", "-q", path] := by
  cases he : (h.exec ["mountpoint", "-q", path]).err with
  | none => simp [Ctrlsrvd.isMountpoint, he]
  | some e =>
    cases hs : h.stat path with
    | notExist => simp [Ctrlsrvd.isMountpoint, he, hs]
    | failure m => simp [Ctrlsrvd.isMountpoint, he, hs]
    | info d v => cases hp : h.stat (path ++ "/..") <;> simp [Ctrlsrvd.isMountpoint, he, hs, hp]

/-- The calls of `checkStorage`: `os.Stat`, the `mountpoint` command, and the
write and removal of the marker. -/
theorem Ctrlsrvd.checkStorage_calls (h : Host) (path : String) :
    ∀ c ∈ (Ctrlsrvd.checkStorage h path).2,
      c = .stat path ∨ c = .stat (path ++ "/..") ∨ c = .exec ["mountpoint", "-q", path] ∨
      c = .writeFile (path ++ "/.ctrlsrv-test") "test" ∨ c = .remove (path ++ "/.ctrlsrv-test") := by
  have hm := Ctrlsrvd.isMountpoint_calls h path
  intro c hc
  have hsub : c ∈ OsCall.stat path :: (Ctrlsrvd.isMountpoint h path).2
      ++ [.writeFile (path ++ "/.ctrlsrv-test") "test", .remove (path ++ "/.ctrlsrv-test")] := by
    unfold Ctrlsrvd.checkStorage at hc
    rcases hmp : Ctrlsrvd.isMountpoint h path with ⟨m, t⟩
    rw [hmp] at hc
    cases hs : h.stat path with
    | notExist => simp_all
    | failure msg => simp_all
    | info d v =>
      cases d with
      | false => simp_all
      | true =>
        cases m with
        | false =>
          simp [hs] at hc
          simp only [List.cons_append, List.mem_cons, List.mem_append]
          tauto
        | true =>
          cases hw : h.writeFile (path ++ "/.ctrlsrv-test") <;> simp [hs, hw] at hc <;>
            simp only [List.cons_append, List.mem_cons, List.mem_append] <;> tauto
  simp only [List.cons_append, List.mem_cons, List.mem_append, List.mem_singleton,
    List.not_mem_nil, or_false] at hsub
  rcases hsub with h1 | h1 | h1 | h1
  · exact Or.inl h1
  · rcases hm c h1 with h2 | h2 | h2
    · exact Or.inl h2
    · exact Or.inr (Or.inl h2)
    · exact Or.inr (Or.inr (Or.inl h2))
  · exact Or.inr (Or.inr (Or.inr (Or.inl h1)))
  · exact Or.inr (Or.inr (Or.inr (Or.inr h1)))

/-- C15: for every path on which `checkStorage` fails, `checkStorageHealth`
returns unhealthy with exactly one issue, the storage-check failure message,
and makes the calls of `checkStorage` and no other: no `statfs` query, and no
command but the `mountpoint` one of the storage check (so neither `findmnt`
nor `smartctl`). -/
theorem checkStorageHealth_storage_failure (h : Host) (path err : String)
    (hc : (Srvhub.checkStorage h path).1 = some err) :
    Srvhub.checkStorageHealth h path
      = (some (false, ["Storage check failed: " ++ err]), (Srvhub.checkStorage h path).2) ∧
    (∀ p, OsCall.statfs p ∉ (Srvhub.checkStorageHealth h path).2) ∧
    (∀ argv, OsCall.exec argv ∈ (Srvhub.checkStorageHealth h path).2 →
      argv = ["mountpoint", "-q", path]) := by
  have heq : Srvhub.checkStorageHealth h path
      = (some (false, ["Storage check failed: " ++ err]), (Srvhub.checkStorage h path).2) := by
    rcases hck : Srvhub.checkStorage h path with ⟨e, t1⟩
    rw [hck] at hc
    simp only at hc
    subst hc
    simp [Srvhub.checkStorageHealth, hck]
  refine ⟨heq, ?_, ?_⟩
  · intro p hp
    rw [heq, Srvhub.checkStorage_eq] at hp
    rcases Ctrlsrvd.checkStorage_calls h path _ hp with h1 | h1 | h1 | h1 | h1 <;>
      exact OsCall.noConfusion h1
  · intro argv hp
    rw [heq, Srvhub.checkStorage_eq] at hp
    rcases Ctrlsrvd.checkStorage_calls h path _ hp with h1 | h1 | h1 | h1 | h1
    · exact OsCall.noConfusion h1
    · exact OsCall.noConfusion h1
    · exact OsCall.exec.inj h1
    · exact OsCall.noConfusion h1
    · exact OsCall.noConfusion h1

/-- Witness for C15: the host without storage. -/
theorem checkStorageHealth_storage_failure_witness :
    (Srvhub.checkStorage Host.bare "/srv/storage1").1
      = some "storage path does not exist: /srv/storage1" ∧
    Srvhub.checkStorageHealth Host.bare "/srv/storage1"
      = (some (false, ["Storage check failed: " ++ "storage path does not exist: /srv/storage1"]),
          (Srvhub.checkStorage Host.bare "/srv/storage1").2) :=
  ⟨by decide,
    (checkStorageHealth_storage_failure Host.bare "/srv/storage1"
      "storage path does not exist: /srv/storage1" (by decide)).1⟩

/-- When `checkSMARTStatus` returns nothing: a failed `findmnt`, an empty
device name, or a failed `smartctl`. -/
theorem Srvhub.checkSMARTStatus_empty (h : Host) (path : String) :
    ((h.exec ["findmnt", "-n", "-o", "SOURCE", path]).err ≠ none →
      (Srvhub.checkSMARTStatus h path).1 = "") ∧
    (TrimSpace (h.exec ["findmnt", "-n", "-o", "SOURCE", path]).output = "" →
      (Srvhub.checkSMARTStatus h path).1 = "") ∧
    ((h.exec ["smartctl", "-H",
        TrimSpace (h.exec ["findmnt", "-n", "-o", "SOURCE", path]).output]).err ≠ none →
      (Srvhub.checkSMARTStatus h path).1 = "") := by
  rcases hf : h.exec ["findmnt", "-n", "-o", "SOURCE", path] with ⟨out, err⟩
  cases err with
  | some e => simp [Srvhub.checkSMARTStatus, hf]
  | none =>
    refine ⟨fun hne => absurd rfl hne, ?_, ?_⟩
    · intro hd
      simp only at hd
      simp [Srvhub.checkSMARTStatus, hf, hd]
    · intro hs
      simp only at hs
      by_cases hd : TrimSpace out = ""
      · simp [Srvhub.checkSMARTStatus, hf, hd]
      · rcases hx : h.exec ["smartctl", "-H", TrimSpace out] with ⟨out2, err2⟩
        rw [hx] at hs
        cases err2 with
        | none => exact absurd rfl hs
        | some e => simp [Srvhub.checkSMARTStatus, hf, hd, hx]

/-- C16: for every path that passes `checkStorage`, with `healthy0` and
`issues0` the flag and the issues after the disk-usage step: if the status
line that `checkSMARTStatus` returns contains `FAILED` or `ERROR`,
`checkStorageHealth` returns unhealthy and its issues are `issues0` followed
by `SMART status: ` and that line, which is thus the last issue; if
`checkSMARTStatus` returns the empty string, as it does when `findmnt` fails
or names no device or `smartctl` fails, `checkStorageHealth` returns
`healthy0` and `issues0` unchanged. -/
theorem checkStorageHealth_smart_step (h : Host) (path : String)
    (hc : (Srvhub.checkStorage h path).1 = none) :
    ∃ healthy0 issues0, (Srvhub.checkDiskUsage h path).1 = some (healthy0, issues0) ∧
      ((Contains (Srvhub.checkSMARTStatus h path).1 "FAILED" = true ∨
          Contains (Srvhub.checkSMARTStatus h path).1 "ERROR" = true) →
        (Srvhub.checkStorageHealth h path).1
          = some (false, issues0 ++ ["SMART status: " ++ (Srvhub.checkSMARTStatus h path).1]) ∧
        (issues0 ++ ["SMART status: " ++ (Srvhub.checkSMARTStatus h path).1]).getLast?
          = some ("SMART status: " ++ (Srvhub.checkSMARTStatus h path).1)) ∧
      ((Srvhub.checkSMARTStatus h path).1 = "" →
        (Srvhub.checkStorageHealth h path).1 = some (healthy0, issues0)) ∧
      ((h.exec ["findmnt", "-n", "-o", "SOURCE", path]).err ≠ none →
        (Srvhub.checkSMARTStatus h path).1 = "") ∧
      (TrimSpace (h.exec ["findmnt", "-n", "-o", "SOURCE", path]).output = "" →
        (Srvhub.checkSMARTStatus h path).1 = "") ∧
      ((h.exec ["smartctl", "-H",
          TrimSpace (h.exec ["findmnt", "-n", "-o", "SOURCE", path]).output]).err ≠ none →
        (Srvhub.checkSMARTStatus h path).1 = "") := by
  obtain ⟨healthy0, issues0, hu⟩ := Srvhub.checkDiskUsage_isSome h path
  obtain ⟨e1, e2, e3⟩ := Srvhub.checkSMARTStatus_empty h path
  refine ⟨healthy0, issues0, hu, ?_, ?_, e1, e2, e3⟩
  · intro hbad
    rcases hck : Srvhub.checkStorage h path with ⟨err, t1⟩
    rw [hck] at hc
    simp only at hc
    subst hc
    rcases hdu : Srvhub.checkDiskUsage h path with ⟨r, t2⟩
    rw [hdu] at hu
    simp only at hu
    subst hu
    rcases hsm : Srvhub.checkSMARTStatus h path with ⟨s, t3⟩
    rw [hsm] at hbad
    simp only at hbad ⊢
    have hne : s ≠ "" := by
      rintro rfl
      rcases hbad with hb | hb
      · exact absurd hb (by decide)
      · exact absurd hb (by decide)
    refine ⟨?_, by simp⟩
    rcases hbad with hb | hb <;> simp [Srvhub.checkStorageHealth, hck, hdu, hsm, hne, hb]
  · intro hs
    rcases hck : Srvhub.checkStorage h path with ⟨err, t1⟩
    rw [hck] at hc
    simp only at hc
    subst hc
    rcases hdu : Srvhub.checkDiskUsage h path with ⟨r, t2⟩
    rw [hdu] at hu
    simp only at hu
    subst hu
    rcases hsm : Srvhub.checkSMARTStatus h path with ⟨s, t3⟩
    rw [hsm] at hs
    simp only at hs
    subst hs
    simp [Srvhub.checkStorageHealth, hck, hdu, hsm]

/-- Witness for C16: the disk whose self-assessment reads FAILED makes an
otherwise healthy storage unhealthy, with the status line as the only issue;
on the example host, where `findmnt` fails, nothing is added. -/
theorem checkStorageHealth_smart_step_witness :
    (Srvhub.checkStorage Host.failingDisk "/srv/storage1").1 = none ∧
    (Srvhub.checkSMARTStatus Host.failingDisk "/srv/storage1").1
      = "SMART overall-health self-assessment test result: FAILED!" ∧
    (Srvhub.checkStorageHealth Host.failingDisk "/srv/storage1").1
      = some (false,
          ["SMART status: SMART overall-health self-assessment test result: FAILED!"]) ∧
    (Srvhub.checkStorage Host.demo "/srv/storage1").1 = none ∧
    (Srvhub.checkSMARTStatus Host.demo "/srv/storage1").1 = "" ∧
    (Srvhub.checkStorageHealth Host.demo "/srv/storage1").1 = some (true, []) := by
  have c1 : (Srvhub.checkStorage Host.failingDisk "/srv/storage1").1 = none := by decide
  have c2 : (Srvhub.checkStorage Host.demo "/srv/storage1").1 = none := by decide
  have s1 : (Srvhub.checkSMARTStatus Host.failingDisk "/srv/storage1").1
      = "SMART overall-health self-assessment test result: FAILED!" := by decide
  have s2 : (Srvhub.checkSMARTStatus Host.demo "/srv/storage1").1 = "" := by decide
  have u1 : (Srvhub.checkDiskUsage Host.failingDisk "/srv/storage1").1 = some (true, []) := by
    decide
  have u2 : (Srvhub.checkDiskUsage Host.demo "/srv/storage1").1 = some (true, []) := by decide
  refine ⟨c1, s1, ?_, c2, s2, ?_⟩
  · obtain ⟨g, i, hu, hbad, _⟩ := checkStorageHealth_smart_step Host.failingDisk "/srv/storage1" c1
    rw [u1] at hu
    cases hu
    rw [(hbad (Or.inl (by rw [s1]; decide))).1, s1]
    rfl
  · obtain ⟨g, i, hu, _, hnone, _⟩ := checkStorageHealth_smart_step Host.demo "/srv/storage1" c2
    rw [u2] at hu
    cases hu
    exact hnone s2

/-! ## The kiosk browser URL -/

/-- The browser that the loop of `openKioskBrowser` starts is one of those it
was given. -/
theorem Ctrlsrvd.launchFirst_mem (lookPath : String → Bool) (start : List String → Option String)
    (browsers : List (List String)) (cmd : List String)
    (hcmd : Ctrlsrvd.launchFirst lookPath start browsers = some cmd) : cmd ∈ browsers := by
  induction browsers with
  | nil => simp [Ctrlsrvd.launchFirst] at hcmd
  | cons b rest ih =>
    unfold Ctrlsrvd.launchFirst at hcmd
    split_ifs at hcmd with hl
    · cases hs : start b with
      | none =>
        simp only [hs, Option.some.injEq] at hcmd
        exact hcmd ▸ List.mem_cons_self _ _
      | some e =>
        simp only [hs] at hcmd
        exact List.mem_cons_of_mem _ (ih hcmd)
    · exact List.mem_cons_of_mem _ (ih hcmd)

/-- C19: at the listen addresses `0.0.0.0:9090` and `:3000`, whose host part
is `0.0.0.0` or empty, the URL that `openKioskBrowser` computes keeps the host
part as it is and does not name `localhost`, and that URL is what the browser
is started with; for the same host parts with port 8080 the URL is
`http://localhost:8080`. -/
theorem openKioskBrowser_other_ports_keep_host :
    (Ctrlsrvd.openKioskBrowser (fun _ => false) (fun _ => none) "0.0.0.0:9090").1
      = "http://0.0.0.0:9090" ∧
    (Ctrlsrvd.openKioskBrowser (fun _ => false) (fun _ => none) "0.0.0.0:9090").1
      ≠ "http://localhost:9090" ∧
    (Ctrlsrvd.openKioskBrowser (fun _ => false) (fun _ => none) ":3000").1 = "http://:3000" ∧
    (Ctrlsrvd.openKioskBrowser (fun _ => false) (fun _ => none) ":3000").1
      ≠ "http://localhost:3000" ∧
    (Ctrlsrvd.openKioskBrowser (fun _ => true) (fun _ => none) ":3000").2
      = some ["surf", "-F", "http://:3000"] ∧
    (Ctrlsrvd.openKioskBrowser (fun _ => false) (fun _ => none) "0.0.0.0:8080").1
      = "http://localhost:8080" ∧
    (Ctrlsrvd.openKioskBrowser (fun _ => false) (fun _ => none) ":8080").1
      = "http://localhost:8080" := by
  decide

/-- The URL that `openKioskBrowser` computes as the code stands:
`http://localhost:8080` for the two listen addresses `0.0.0.0:8080` and
`:8080` only, and `http://` followed by the address for every other address,
whatever its host part; the browser that is started, if any, is given that
URL as its last argument. -/
theorem openKioskBrowser_url (lookPath : String → Bool) (start : List String → Option String)
    (addr : String) :
    (Ctrlsrvd.openKioskBrowser lookPath start addr).1
      = (if addr = "0.0.0.0:8080" ∨ addr = ":8080" then "http://localhost:8080"
        else "http://" ++ addr) ∧
    (∀ cmd, (Ctrlsrvd.openKioskBrowser lookPath start addr).2 = some cmd →
      cmd.getLast? = some (Ctrlsrvd.openKioskBrowser lookPath start addr).1) := by
  refine ⟨rfl, ?_⟩
  intro cmd hcmd
  have hmem := Ctrlsrvd.launchFirst_mem lookPath start _ cmd hcmd
  simp only [List.mem_cons, List.mem_singleton, List.not_mem_nil, or_false] at hmem
  rcases hmem with rfl | rfl | rfl <;> rfl

/-! ## The self-signed certificate -/

/-- C20, refuted on a clock that advances by one nanosecond between the two
calls of `time.Now`: the validity window of the template is one nanosecond
more than 365 days. -/
theorem generateTLSConfig_window_exceeds_year :
    (0 : Int) ≤ 1 ∧
    ∃ r, Ctrlsrvd.generateTLSConfig Crypto.demo 0 1 = .ok r ∧
      r.1.NotAfter - r.1.NotBefore = 365 * 24 * Ctrlsrvd.Hour + 1 ∧
      r.1.NotAfter - r.1.NotBefore ≠ 365 * 24 * Ctrlsrvd.Hour := by
  refine ⟨by decide, _, rfl, by decide, by decide⟩

/-- C20, amended: whenever `generateTLSConfig` returns, the validity window
`NotAfter - NotBefore` of its template is 365 days plus the time by which the
clock advanced between the two calls of `time.Now`: at least 365 days on a
non-decreasing clock, and exactly 365 days when both calls return the same
instant. The subject alternative names are the DNS name `localhost` and the
IP addresses `127.0.0.1` and `::1`. -/
theorem generateTLSConfig_window (c : Ctrlsrvd.Crypto) (now1 now2 : Int)
    (r : Ctrlsrvd.Certificate × Ctrlsrvd.TLSConfig)
    (hr : Ctrlsrvd.generateTLSConfig c now1 now2 = .ok r) :
    r.1.NotAfter - r.1.NotBefore = 365 * 24 * Ctrlsrvd.Hour + (now2 - now1) ∧
    (now1 ≤ now2 → 365 * 24 * Ctrlsrvd.Hour ≤ r.1.NotAfter - r.1.NotBefore) ∧
    (now1 = now2 → r.1.NotAfter - r.1.NotBefore = 365 * 24 * Ctrlsrvd.Hour) ∧
    r.1.DNSNames = ["localhost"] ∧
    r.1.IPAddresses = ["127.0.0.1", "::1"] := by
  unfold Ctrlsrvd.generateTLSConfig at hr
  cases hk : c.generateKey with
  | error e => simp [hk] at hr
  | ok key =>
    simp only [hk] at hr
    split at hr
    · simp at hr
    · split at hr
      · simp at hr
      · simp only [Except.ok.injEq] at hr
        subst hr
        refine ⟨?_, ?_, ?_, rfl, rfl⟩
        · simp only
          ring
        · intro hle
          simp only
          omega
        · intro heq
          simp only
          omega

/-- Witness for C20: a clock that stands still gives exactly 365 days. -/
theorem generateTLSConfig_window_witness :
    ∃ r, Ctrlsrvd.generateTLSConfig Crypto.demo 1000 1000 = .ok r ∧
      r.1.NotAfter - r.1.NotBefore = 365 * 24 * Ctrlsrvd.Hour ∧
      r.1.DNSNames = ["localhost"] ∧ r.1.IPAddresses = ["127.0.0.1", "::1"] :=
  ⟨_, rfl, (generateTLSConfig_window Crypto.demo 1000 1000 _ rfl).2.2.1 rfl,
    (generateTLSConfig_window Crypto.demo 1000 1000 _ rfl).2.2.2⟩

/-! ## The loop of `formatBytes` -/

/-- C21: for every 64-bit byte count `n`, `formatBytes n` returns a string,
and when `n ≥ 1024` its loop ends on its own condition, with the same `div`
and `exp` under every bound on its iterations that is at least its loop
variable; `exp ≤ 5`, so that the index into `KMGTPE` is in range; `div` is
`1024^(exp+1)`, every product `div * 1024` made on the way staying below
`2^64`; `div ≤ n < 1024 * div`, the loop variable `n / div` being below 1024
at the end; and for `n ≥ 1024^6` the product `1024 * div` is beyond the 64-bit
limit. -/
theorem formatBytes_loop_bounds (n : Nat) (h2 : n < 2 ^ 64) :
    (∃ s, formatBytes n = some s) ∧
    (1024 ≤ n → ∃ div exp,
      (∀ fuel, n / 1024 ≤ fuel → formatBytesLoop fuel (n / 1024) 1024 0 = (div, exp)) ∧
      exp ≤ 5 ∧ exp < "KMGTPE".data.length ∧
      div = 1024 ^ (exp + 1) ∧
      (∀ j, j ≤ exp → 1024 * 1024 ^ j < 2 ^ 64) ∧
      div ≤ n ∧ n < 1024 * div ∧ n / div < 1024 ∧
      (1024 ^ 6 ≤ n → exp = 5 ∧ 2 ^ 64 ≤ 1024 * div)) := by
  refine ⟨formatBytes_isSome n h2, fun h1 => ?_⟩
  obtain ⟨e, he, hlo, hhi, huniq⟩ := unit_exponent_exists n h1 h2
  have hk1 : e = 0 ∨ 1024 ^ e ≤ n / 1024 := by
    right
    rw [Nat.le_div_iff_mul_le (by norm_num)]
    calc 1024 ^ e * 1024 = 1024 ^ (e + 1) := by ring
      _ ≤ n := hlo
  have hhi2 : n / 1024 < 1024 ^ (e + 1) := by
    rw [Nat.div_lt_iff_lt_mul (by norm_num)]
    calc n < 1024 ^ (e + 2) := hhi
      _ = 1024 ^ (e + 1) * 1024 := by ring
  have hsmall : ∀ j, j ≤ e → 1024 * 1024 ^ j < 2 ^ 64 := by
    intro j hj
    calc 1024 * 1024 ^ j = 1024 ^ (j + 1) := by ring
      _ ≤ 1024 ^ 6 := Nat.pow_le_pow_right (by norm_num) (by omega)
      _ < 2 ^ 64 := by norm_num
  have hpow : 1024 * 1024 ^ e % two64 = 1024 ^ (e + 1) := by
    rw [Nat.mod_eq_of_lt (by simpa [two64] using hsmall e le_rfl)]
    ring
  have hup : n < 1024 * 1024 ^ (e + 1) := by
    calc n < 1024 ^ (e + 2) := hhi
      _ = 1024 * 1024 ^ (e + 1) := by ring
  refine ⟨1024 ^ (e + 1), e, ?_, he, ?_, rfl, hsmall, hlo, hup, ?_, ?_⟩
  · intro fuel hf
    rw [formatBytesLoop_exact e fuel (n / 1024) 1024 0 hf (by norm_num [two64]) hk1 hhi2, hpow,
      Nat.zero_add]
  · have : "KMGTPE".data.length = 6 := by decide
    omega
  · rw [Nat.div_lt_iff_lt_mul (by positivity)]
    exact hup
  · intro h6
    have he5 : e = 5 := by
      have hlt : n < 1024 ^ (5 + 2) := lt_trans h2 (by norm_num)
      exact (huniq 5 h6 hlt).symm
    subst he5
    exact ⟨rfl, by norm_num⟩

/-- Witness for C21: the largest 64-bit byte count, `2^64 - 1`, for which the
loop ends with `exp = 5` and `div = 1024^6`. -/
theorem formatBytes_loop_bounds_witness :
    1024 ≤ 18446744073709551615 ∧ 18446744073709551615 < 2 ^ 64 ∧
    ∃ div exp,
      (∀ fuel, 18446744073709551615 / 1024 ≤ fuel →
        formatBytesLoop fuel (18446744073709551615 / 1024) 1024 0 = (div, exp)) ∧
      exp = 5 ∧ div = 1024 ^ 6 ∧ div ≤ 18446744073709551615 ∧
      18446744073709551615 < 1024 * div ∧ 2 ^ 64 ≤ 1024 * div ∧
      ∃ s, formatBytes 18446744073709551615 = some s := by
  obtain ⟨hs, hrun⟩ := formatBytes_loop_bounds 18446744073709551615 (by decide)
  obtain ⟨div, exp, hloop, _, _, hdiv, _, hle, hlt, _, h6⟩ := hrun (by decide)
  obtain ⟨he, hbig⟩ := h6 (by decide)
  subst he
  exact ⟨by decide, by decide, div, 5, hloop, rfl, hdiv, hle, hlt, hbig, hs⟩

/-! ## Unhealthy storage always comes with an issue -/

/-- The disk-usage step of `checkStorageHealth` lowers the health flag only
together with an issue. -/
theorem Srvhub.checkDiskUsage_unhealthy (h : Host) (path : String) (issues : List String)
    (hu : (Srvhub.checkDiskUsage h path).1 = some (false, issues)) : issues ≠ [] := by
  cases hs : h.statfs path with
  | error e =>
    simp [Srvhub.checkDiskUsage, Srvhub.getStorageUsage, hs] at hu
  | ok stat =>
    obtain ⟨u, t, _, _, heq⟩ := Srvhub.checkDiskUsage_of_statfs h path stat hs
    rw [heq] at hu
    simp only [Option.some.injEq] at hu
    split_ifs at hu
    · rw [← (Prod.mk.inj hu).2]
      exact List.cons_ne_nil _ _
    · exact absurd (Prod.mk.inj hu).1 (by decide)
    · exact absurd (Prod.mk.inj hu).1 (by decide)

/-- C22: for every path and host `checkStorageHealth` returns a health flag
and an issue list, and whenever the flag is false the list is not empty. The
converse fails: with 85 of 100 bytes used, and with a failing `statfs` query,
the result is healthy with one issue. -/
theorem checkStorageHealth_unhealthy_has_issue (h : Host) (path : String) :
    (∃ healthy issues, (Srvhub.checkStorageHealth h path).1 = some (healthy, issues) ∧
      (healthy = false → issues ≠ [])) ∧
    (Srvhub.checkStorageHealth Host.usage85 "/srv/storage1").1
      = some (true, ["Disk usage warning: 85.0% (85 B / 100 B)"]) ∧
    (Srvhub.checkStorageHealth Host.noStatfs "/srv/storage1").1
      = some (true, ["Cannot get disk usage: function not implemented"]) := by
  refine ⟨?_, by decide, by decide⟩
  rcases hck : Srvhub.checkStorage h path with ⟨err, t1⟩
  cases err with
  | some e =>
    exact ⟨false, ["Storage check failed: " ++ e], by simp [Srvhub.checkStorageHealth, hck],
      fun _ => List.cons_ne_nil _ _⟩
  | none =>
    obtain ⟨healthy0, issues0, hu⟩ := Srvhub.checkDiskUsage_isSome h path
    have hbad := Srvhub.checkDiskUsage_unhealthy h path issues0
    rcases hdu : Srvhub.checkDiskUsage h path with ⟨r, t2⟩
    rw [hdu] at hu hbad
    simp only at hu hbad
    subst hu
    rcases hsm : Srvhub.checkSMARTStatus h path with ⟨s, t3⟩
    by_cases hs : s = ""
    · refine ⟨healthy0, issues0, by simp [Srvhub.checkStorageHealth, hck, hdu, hsm, hs], ?_⟩
      intro hf
      subst hf
      exact hbad rfl
    · by_cases hb : (Contains s "FAILED" || Contains s "ERROR") = true
      · refine ⟨false, issues0 ++ ["SMART status: " ++ s],
          by simp [Srvhub.checkStorageHealth, hck, hdu, hsm, hs, hb], fun _ => by simp⟩
      · refine ⟨healthy0, issues0, by simp [Srvhub.checkStorageHealth, hck, hdu, hsm, hs, hb], ?_⟩
        intro hf
        subst hf
        exact hbad rfl

/-- Witness for C22: on the host without storage the result is unhealthy and
its issue list is not empty. -/
theorem checkStorageHealth_unhealthy_has_issue_witness :
    ∃ issues, (Srvhub.checkStorageHealth Host.bare "/srv/storage1").1 = some (false, issues) ∧
      issues ≠ [] := by
  obtain ⟨healthy, issues, hr, hne⟩ :=
    (checkStorageHealth_unhealthy_has_issue Host.bare "/srv/storage1").1
  have hv : (Srvhub.checkStorageHealth Host.bare "/srv/storage1").1
      = some (false, ["Storage check failed: storage path does not exist: /srv/storage1"]) := by
    decide
  rw [hv] at hr
  simp only [Option.some.injEq, Prod.mk.injEq] at hr
  obtain ⟨hh, hi⟩ := hr
  exact ⟨_, hv, hi ▸ hne hh.symm⟩

/-! ## The arithmetic of the usage query -/

/-- The two copies of `getStorageUsage` are the same function. -/
theorem Srvhub.getStorageUsage_eq (h : Host) (path : String) :
    Srvhub.getStorageUsage h path = Ctrlsrvd.getStorageUsage h path := rfl

/-- A difference of two `uint64` added to the subtrahend gives back the
minuend, modulo `2^64`. -/
theorem sub64_add (a b : Nat) : (sub64 a b + b) % 2 ^ 64 = a % 2 ^ 64 := by
  unfold sub64 two64
  omega

/-- A difference of two `uint64` is the difference of the integers, modulo
`2^64`. -/
theorem sub64_int (a b : Nat) : (sub64 a b : Int) = ((a : Int) - (b : Int)) % 2 ^ 64 := by
  unfold sub64 two64
  omega

/-- A difference of two `uint64` that does not wrap. -/
theorem sub64_of_le (a b : Nat) (ha : a < 2 ^ 64) (hb : b ≤ a) : sub64 a b = a - b := by
  unfold sub64 two64
  omega

/-- The conversion `uint64(x)` keeps a non-negative `int64`. -/
theorem uint64OfInt64_of_nonneg (x : Int) (h0 : 0 ≤ x) (h1 : x < 2 ^ 63) :
    (uint64OfInt64 x : Int) = x := by
  unfold uint64OfInt64 two64
  push_cast
  omega

/-- The storage handlers of the two daemons give the same answer and make the
same calls, for every configuration, writer and host. -/
theorem handleStorage_variants_agree (cfg : Config) (w : ResponseWriter) (h : Host) :
    Ctrlsrvd.handleStorageAPI ⟨cfg⟩ w h = Srvhub.handleStorage ⟨cfg⟩ w h := by
  unfold Ctrlsrvd.handleStorageAPI Srvhub.handleStorage
  rw [Srvhub.checkStorage_eq]
  rcases Ctrlsrvd.checkStorage h cfg.Storage.Path with ⟨err, t⟩
  cases err with
  | some e => rfl
  | none =>
    simp only [Ctrlsrvd.getStorageUsage, Option.isNone_none, if_true]
    cases h.statfs cfg.Storage.Path with
    | error e => rfl
    | ok stat => rfl

/-- C23: for every successful `statfs` result, with `bsize` the `uint64` that
the code multiplies with, `uint64(stat.Bsize)` (equal to `stat.Bsize` when
that is not negative), `getStorageUsage` of either daemon returns
`total = Blocks * bsize mod 2^64`, `free = Bfree * bsize mod 2^64` and
`used = total - free mod 2^64`, so that `used + free = total` modulo `2^64`.
When `Bfree ≤ Blocks` and `Blocks * bsize < 2^64` nothing wraps:
`total = Blocks * bsize`, `free = Bfree * bsize`,
`used = (Blocks - Bfree) * bsize` and `used ≤ total`. When `checkStorage`
passes, the storage response of the kiosk daemon (through `getStorageUsage`)
and that of the GUI daemon (computed in the handler) carry these three
values. -/
theorem getStorageUsage_arithmetic (h : Host) (path : String) (stat : Statfs_t)
    (hs : h.statfs path = .ok stat) :
    ∃ used free total,
      Ctrlsrvd.getStorageUsage h path = ((used, free, total, none), [.statfs path]) ∧
      Srvhub.getStorageUsage h path = ((used, free, total, none), [.statfs path]) ∧
      total = stat.Blocks * uint64OfInt64 stat.Bsize % 2 ^ 64 ∧
      free = stat.Bfree * uint64OfInt64 stat.Bsize % 2 ^ 64 ∧
      (used : Int) = ((total : Int) - (free : Int)) % 2 ^ 64 ∧
      used < 2 ^ 64 ∧
      (used + free) % 2 ^ 64 = total ∧
      (0 ≤ stat.Bsize → stat.Bsize < 2 ^ 63 → (uint64OfInt64 stat.Bsize : Int) = stat.Bsize) ∧
      (stat.Bfree ≤ stat.Blocks → stat.Blocks * uint64OfInt64 stat.Bsize < 2 ^ 64 →
        total = stat.Blocks * uint64OfInt64 stat.Bsize ∧
        free = stat.Bfree * uint64OfInt64 stat.Bsize ∧
        used = (stat.Blocks - stat.Bfree) * uint64OfInt64 stat.Bsize ∧
        used ≤ total ∧ used + free = total) ∧
      (∀ cfg : Config, cfg.Storage.Path = path → (Ctrlsrvd.checkStorage h path).1 = none →
        ∃ r, (Ctrlsrvd.handleStorageAPI ⟨cfg⟩ ResponseWriter.fresh h).1.body
            = [Payload.storage r] ∧
          (Srvhub.handleStorage ⟨cfg⟩ ResponseWriter.fresh h).1.body = [Payload.storage r] ∧
          r.Used = used ∧ r.Free = free ∧ r.Total = total) := by
  have htot : mul64 stat.Blocks (uint64OfInt64 stat.Bsize) < 2 ^ 64 := mul64_lt _ _
  refine ⟨sub64 (mul64 stat.Blocks (uint64OfInt64 stat.Bsize))
      (mul64 stat.Bfree (uint64OfInt64 stat.Bsize)),
    mul64 stat.Bfree (uint64OfInt64 stat.Bsize), mul64 stat.Blocks (uint64OfInt64 stat.Bsize),
    ?_, ?_, rfl, rfl, sub64_int _ _, sub64_lt _ _, ?_, uint64OfInt64_of_nonneg _, ?_, ?_⟩
  · simp [Ctrlsrvd.getStorageUsage, hs]
  · simp [Srvhub.getStorageUsage, hs]
  · rw [sub64_add, Nat.mod_eq_of_lt htot]
  · intro hle hlt
    have hfree : stat.Bfree * uint64OfInt64 stat.Bsize
        ≤ stat.Blocks * uint64OfInt64 stat.Bsize := Nat.mul_le_mul_right _ hle
    have e1 : mul64 stat.Blocks (uint64OfInt64 stat.Bsize)
        = stat.Blocks * uint64OfInt64 stat.Bsize := Nat.mod_eq_of_lt hlt
    have e2 : mul64 stat.Bfree (uint64OfInt64 stat.Bsize)
        = stat.Bfree * uint64OfInt64 stat.Bsize := Nat.mod_eq_of_lt (lt_of_le_of_lt hfree hlt)
    rw [e1, e2, sub64_of_le _ _ hlt hfree, Nat.sub_mul]
    exact ⟨rfl, rfl, rfl, Nat.sub_le _ _, Nat.sub_add_cancel hfree⟩
  · intro cfg hp hk
    subst hp
    have hagree := handleStorage_variants_agree cfg ResponseWriter.fresh h
    rw [← hagree]
    unfold Ctrlsrvd.handleStorageAPI
    rcases hc : Ctrlsrvd.checkStorage h cfg.Storage.Path with ⟨err, t⟩
    rw [hc] at hk
    simp only at hk
    subst hk
    simp only [Ctrlsrvd.getStorageUsage, hs, Option.isNone_none, if_true]
    split_ifs <;> exact ⟨_, rfl, rfl, rfl, rfl, rfl⟩

/-- Witness for C23: on the example host, with 200 blocks of one byte of which
150 are free, both daemons report 50 bytes used, 150 free and 200 in total. -/
theorem getStorageUsage_arithmetic_witness :
    Host.demo.statfs "/srv/storage1" = .ok ⟨200, 150, 1⟩ ∧
    Ctrlsrvd.getStorageUsage Host.demo "/srv/storage1"
      = ((50, 150, 200, none), [.statfs "/srv/storage1"]) ∧
    Srvhub.getStorageUsage Host.demo "/srv/storage1"
      = ((50, 150, 200, none), [.statfs "/srv/storage1"]) ∧
    ∃ r, (Ctrlsrvd.handleStorageAPI ⟨Config.defaults⟩ ResponseWriter.fresh Host.demo).1.body
        = [Payload.storage r] ∧
      (Srvhub.handleStorage ⟨Config.defaults⟩ ResponseWriter.fresh Host.demo).1.body
        = [Payload.storage r] ∧
      r.Used = 50 ∧ r.Free = 150 ∧ r.Total = 200 := by
  obtain ⟨used, free, total, hk, hg, ht, hf, _, _, _, _, hnowrap, hresp⟩ :=
    getStorageUsage_arithmetic Host.demo "/srv/storage1" ⟨200, 150, 1⟩ rfl
  have hb : uint64OfInt64 (1 : Int) = 1 := by decide
  obtain ⟨e1, e2, e3, _, _⟩ := hnowrap (by decide) (by decide)
  simp only [hb] at e1 e2 e3
  norm_num at e1 e2 e3
  subst e1 e2 e3
  exact ⟨rfl, hk, hg, hresp Config.defaults rfl (by decide)⟩

end CtrlSrv
